import Mathlib

/-!
# javalauncher_api: VM lifecycle and call protocol

A shallow embedding of
`jdk/src/java.base/share/native/javalauncher_api/javalauncher_api.c`.

* The file-scope variables of the C file are the first group of fields of `JL`.
* Everything outside the C file (the JavaVM and JNIEnv function tables, the
  dynamic loader, the allocator and the application callback) is the
  environment.  Every call into it is appended to `JL.trace`.  A call whose
  result is chosen by the environment takes its result from the head of
  `JL.script`; an exhausted script answers with zeros.  Quantifying over the
  script quantifies over every behaviour of the environment.
* `JL.pending` is the pending exception of the JNI environment of the calling
  thread (`0`: none).
* Handles and pointers are natural numbers, `0` is `NULL`.  A `char *` is an
  `Option String` (`none` is `NULL`); a `char **` is an optional list of
  those, and reading past its end yields `NULL`.
* `jl_log` is compiled out unless `DEBUG` is defined and is not modelled,
  neither is the stream `java_error_out` it writes to, nor the two
  reader/writer locks (calls are executed one after the other).
* The application callback is an event of the trace: it neither calls back
  into the API nor touches the JNI environment.  Of the JNI functions only
  those that the JNI specification lets throw can leave an exception pending
  (`jni`); the JavaVM functions, `NewGlobalRef`, `PopLocalFrame` and
  `ReleaseStringUTFChars` cannot (`ask`, `emit`).
* A C function with a label or with more than one exit path to a common tail
  is split at that point; the parts are named after the function and say
  which source lines they cover.
* Where C leaves the evaluation order of call arguments open they are
  evaluated left to right.
-/

namespace JavaLauncher

/-! ## Return codes (javalauncher_api.h) and JNI constants (jni.h) -/

def JL_OK : Int := 0
def JL_FAIL : Int := -1
def JL_CREATEJAVAVMNOTCALLED : Int := -1000
def JL_CANNOTCREATEJVM : Int := -1001
def JL_CANNOTCREATEJVMOPTIONS : Int := -1002
def JL_CANNOTFINDCLASS : Int := -1003
def JL_METHODNOTSET : Int := -1004
def JL_METHODDOESNOTEXIST : Int := -1005
def JL_CANNOTGETUTFCHARS : Int := -1006
def JL_CANNOTSETARRAYELEMENT : Int := -1007
def JL_CANNOTATTACHCURRTHREAD : Int := -1008
def JL_CANNOTGETJNIENV : Int := -1009
def JL_CANNOTDETACHCURRTHREAD : Int := -1010
def JL_CANNOTCREATEVMINITARGS : Int := -1011
def JL_CANNOTRELEASEOBJECTARRAY : Int := -1012
def JL_CANNOTPUSHLOCALFRAME : Int := -1013
def JL_CANNOTCREATEOBJARRAY : Int := -1014
def JL_CANNOTCREATESTRUTF : Int := -1015
def JL_JVMISDESTROYED : Int := -1016
def JL_BADARGUMENTS : Int := -1017
def JL_BADSIGNATURE : Int := -1018
def JL_CANTLOADLIBJVM : Int := -1019
def JL_INVOKECALLBACKFAILED : Int := -1020
def JL_NOTINITIALIZED : Int := -1021
def JL_CANTSETCONTEXTCLASSLOADER : Int := -1022

def JNI_OK : Int := 0

def MSGBUFSIZE : Nat := 1024

def SIGNATURE0 : String := "([Ljava/lang/String;)V"
def SIGNATURE1 : String := "()V"
def DEFAULT_SIGNATURE : String := SIGNATURE0

def sigcount : Nat := 2
def signatures : List String := [SIGNATURE0, SIGNATURE1]

/-- Listed in search order (the C array is terminated by `NULL`). -/
def jvmtypes : List String := ["minimal", "client", "server"]

/-- Compile-time configuration of the C file: whether `STATIC_BUILD` is
defined, the value of `PATH_MAX` from `sys/param.h`, and `JL_LIBJVM`
(`libjvm.so`, or `libjvm.dylib` when `TARGET_OS_IPHONE`). -/
structure Build where
  STATIC_BUILD : Bool
  PATH_MAX : Nat
  JL_LIBJVM : String
  deriving DecidableEq, Repr

/-! ## The environment -/

/-- One call out of the C file, with the arguments it was given. -/
inductive Event where
  | dlopen (path : String)
  | dlsym (handle : Nat) (symbol : String)
  | calloc (nmemb : Int)
  | free (p : Nat)
  | JNI_CreateJavaVM (nOptions : Int) (options : List (Option String))
  | AttachCurrentThread (vm : Nat)
  | DetachCurrentThread (vm : Nat)
  | DestroyJavaVM (vm : Nat)
  | FindClass (name : String)
  | GetStaticMethodID (cls : Nat) (name sig : String)
  | GetMethodID (cls : Nat) (name sig : String)
  | CallStaticObjectMethod (cls mid : Nat)
  | CallObjectMethod (obj mid : Nat)
  | CallVoidMethod (obj mid arg : Nat)
  | CallStaticVoidMethod (cls mid arr : Nat)
  | NewGlobalRef (obj : Nat)
  | NewObjectArray (len : Int) (cls : Nat)
  | NewStringUTF (chars : Option String)
  | SetObjectArrayElement (arr : Nat) (index : Int) (val : Nat)
  | GetStringUTFChars (str : Nat)
  | ReleaseStringUTFChars (str : Nat) (chars : String)
  | ExceptionOccurred
  | ExceptionCheck
  | ExceptionDescribe
  | ExceptionClear
  | PushLocalFrame (capacity : Int)
  | PopLocalFrame
  | callback (fn : Nat) (msg : Option String) (error_code : Int) (app_data : Nat)
  deriving DecidableEq, Repr

/-- What the environment answers to one call: the `jint` it returns (`ret`),
the handle or pointer it returns or stores (`ref`), the throwable it leaves
pending (`exc`, `0` for none) and, for `GetStringUTFChars`, the characters. -/
structure Reply where
  ret : Int := 0
  ref : Nat := 0
  exc : Nat := 0
  chars : Option String := none
  deriving DecidableEq, Repr

/-- File-scope state of `javalauncher_api.c` followed by the environment. -/
structure JL where
  jvm : Nat
  jvm_destroyed : Bool
  vmInitArgs : Nat
  jvmOptions : Nat
  _context_class_loader : Nat
  _java_lang_string : Nat
  _java_lang_thread : Nat
  _java_thread_current_thread : Nat
  _java_thread_set_context_classloader : Nat
  jl_JNI_CreateJavaVM : Nat
  libjvm : Nat
  initialized : Bool
  pending : Nat
  script : List Reply
  trace : List Event
  deriving DecidableEq, Repr

/-- State at process start.  In a static build `jl_JNI_CreateJavaVM` is the
address of `JNI_CreateJavaVM` (written `1`) and `initialized` is `1`. -/
def JL.start (b : Build) (script : List Reply) : JL :=
  { jvm := 0, jvm_destroyed := false, vmInitArgs := 0, jvmOptions := 0,
    _context_class_loader := 0, _java_lang_string := 0, _java_lang_thread := 0,
    _java_thread_current_thread := 0, _java_thread_set_context_classloader := 0,
    jl_JNI_CreateJavaVM := if b.STATIC_BUILD then 1 else 0,
    libjvm := 0, initialized := b.STATIC_BUILD,
    pending := 0, script := script, trace := [] }

/-- Computations of the C file: a function of the state returning a value and
the state afterwards. -/
def JNI (α : Type) : Type := JL → α × JL

def JNI.run {α : Type} (m : JNI α) (s : JL) : α × JL := m s

instance : Monad JNI where
  pure a := fun s => (a, s)
  bind m f := fun s => f (m s).1 (m s).2

def getS : JNI JL := fun s => (s, s)

def modifyS (f : JL → JL) : JNI Unit := fun s => ((), f s)

/-- A call that only leaves a mark in the trace. -/
def emit (e : Event) : JNI Unit :=
  fun s => ((), { s with trace := s.trace ++ [e] })

/-- A call answered by the environment that cannot raise a Java exception. -/
def ask (e : Event) : JNI Reply :=
  fun s => (s.script.headD {}, { s with script := s.script.tail, trace := s.trace ++ [e] })

/-- A JNI call answered by the environment that may leave an exception
pending; an exception that was already pending stays. -/
def jni (e : Event) : JNI Reply :=
  fun s =>
    let r := s.script.headD {}
    (r, { s with script := s.script.tail, trace := s.trace ++ [e],
                 pending := if r.exc = 0 then s.pending else r.exc })

/-! ## The JavaVM and JNIEnv functions, the loader and the allocator -/

def dlopen (path : String) : JNI Nat := do
  let r ← ask (.dlopen path)
  pure r.ref

def dlsym (handle : Nat) (symbol : String) : JNI Nat := do
  let r ← ask (.dlsym handle symbol)
  pure r.ref

def calloc (nmemb : Int) : JNI Nat := do
  let r ← ask (.calloc nmemb)
  pure r.ref

def free (p : Nat) : JNI Unit := emit (.free p)

def AttachCurrentThread (vm : Nat) : JNI Int := do
  let r ← ask (.AttachCurrentThread vm)
  pure r.ret

def DetachCurrentThread (vm : Nat) : JNI Int := do
  let r ← ask (.DetachCurrentThread vm)
  pure r.ret

def DestroyJavaVM (vm : Nat) : JNI Int := do
  let r ← ask (.DestroyJavaVM vm)
  pure r.ret

def FindClass (name : String) : JNI Nat := do
  let r ← jni (.FindClass name)
  pure r.ref

def GetStaticMethodID (cls : Nat) (name sig : String) : JNI Nat := do
  let r ← jni (.GetStaticMethodID cls name sig)
  pure r.ref

def GetMethodID (cls : Nat) (name sig : String) : JNI Nat := do
  let r ← jni (.GetMethodID cls name sig)
  pure r.ref

def CallStaticObjectMethod (cls mid : Nat) : JNI Nat := do
  let r ← jni (.CallStaticObjectMethod cls mid)
  pure r.ref

def CallObjectMethod (obj mid : Nat) : JNI Nat := do
  let r ← jni (.CallObjectMethod obj mid)
  pure r.ref

def CallVoidMethod (obj mid arg : Nat) : JNI Unit := do
  let _ ← jni (.CallVoidMethod obj mid arg)
  pure ()

def CallStaticVoidMethod (cls mid arr : Nat) : JNI Unit := do
  let _ ← jni (.CallStaticVoidMethod cls mid arr)
  pure ()

def NewGlobalRef (obj : Nat) : JNI Nat := do
  let r ← ask (.NewGlobalRef obj)
  pure r.ref

def NewObjectArray (len : Int) (cls : Nat) : JNI Nat := do
  let r ← jni (.NewObjectArray len cls)
  pure r.ref

def NewStringUTF (chars : Option String) : JNI Nat := do
  let r ← jni (.NewStringUTF chars)
  pure r.ref

def SetObjectArrayElement (arr : Nat) (index : Int) (val : Nat) : JNI Unit := do
  let _ ← jni (.SetObjectArrayElement arr index val)
  pure ()

def GetStringUTFChars (str : Nat) : JNI (Option String) := do
  let r ← jni (.GetStringUTFChars str)
  pure r.chars

def ReleaseStringUTFChars (str : Nat) (chars : String) : JNI Unit :=
  emit (.ReleaseStringUTFChars str chars)

def PushLocalFrame (capacity : Int) : JNI Int := do
  let r ← jni (.PushLocalFrame capacity)
  pure r.ret

def PopLocalFrame : JNI Unit := emit .PopLocalFrame

def ExceptionOccurred : JNI Nat :=
  fun s => (s.pending, { s with trace := s.trace ++ [.ExceptionOccurred] })

def ExceptionCheck : JNI Bool :=
  fun s => (decide (s.pending ≠ 0), { s with trace := s.trace ++ [.ExceptionCheck] })

def ExceptionDescribe : JNI Unit := emit .ExceptionDescribe

def ExceptionClear : JNI Unit :=
  fun s => ((), { s with pending := 0, trace := s.trace ++ [.ExceptionClear] })

/-! ## C library helpers -/

/-- The number of bytes of the characters in UTF-8, the encoding in which a
`String` stands for a C string. -/
def strlenChars : List Char → Nat
  | [] => 0
  | c :: cs => c.utf8Size + strlenChars cs

/-- C `strlen`: the number of bytes before the terminator. -/
def strlen (s : String) : Nat := strlenChars s.data

/-- The longest initial segment of the characters that takes at most `n`
bytes. -/
def takeBytes : Nat → List Char → List Char
  | _, [] => []
  | n, c :: cs => if c.utf8Size ≤ n then c :: takeBytes (n - c.utf8Size) cs else []

/-- The text `snprintf(buf, size, ...)` leaves in `buf` when the formatted text
is `text`: at most `size - 1` bytes of it.  Where C cuts a character of several
bytes in the middle, that character is left out as a whole, since its first
bytes alone are not the encoding of any text. -/
def snprintf (size : Nat) (text : String) : String :=
  String.mk (takeBytes (size - 1) text.data)

/-- How `%s` prints its argument (`(null)` for a null pointer). -/
def fmt_s (s : Option String) : String := s.getD "(null)"

/-- How `%d` prints its argument. -/
def fmt_d (n : Int) : String := toString n

/-- C `strncmp` on the characters of two strings; the end of a string is the
character `0`. -/
def strncmp : List Char → List Char → Nat → Int
  | _, _, 0 => 0
  | [], [], _ + 1 => 0
  | [], b :: _, _ + 1 => 0 - (b.toNat : Int)
  | a :: _, [], _ + 1 => (a.toNat : Int)
  | a :: as, b :: bs, n + 1 =>
    if a = b then strncmp as bs n else (a.toNat : Int) - (b.toNat : Int)

/-- The element `args[i]` of a `char **`. -/
def arg (args : Option (List (Option String))) (i : Nat) : Option String :=
  match args with
  | none => none
  | some l => l.getD i none

/-- `EMPTYSTR(s)`: `s == NULL || *s == 0`. -/
def EMPTYSTR (s : Option String) : Bool :=
  match s with
  | none => true
  | some str => str.data.isEmpty

/-! ## javalauncher_api.c -/

def get_jvm : JNI Nat := do
  let s ← getS
  pure s.jvm

def set_jvm (_jvm : Nat) : JNI Unit :=
  modifyS fun s => { s with jvm := _jvm }

def get_jvm_destroyed : JNI Bool := do
  let s ← getS
  pure s.jvm_destroyed

/-- The loop of `is_supported_signature` over the remaining entries of
`signatures`. -/
def is_supported_signature_from (signature : String) : List String → Int
  | [] => 0
  | sig :: rest =>
    if strncmp signature.data sig.data sig.length = 0 then 1
    else is_supported_signature_from signature rest

def is_supported_signature (signature : String) : Int :=
  is_supported_signature_from signature (signatures.take sigcount)

def perform_error_callback (msg : Option String) (error_code : Int)
    (callback app_data : Nat) : JNI Unit :=
  if callback ≠ 0 then emit (.callback callback msg error_code app_data)
  else pure ()

/-- The macro `HAVE_EXCEPTION`; the value tells whether it executed its
`return`. -/
def HAVE_EXCEPTION : JNI Bool := do
  let e ← ExceptionOccurred
  if e ≠ 0 then do
    ExceptionDescribe
    ExceptionClear
    pure true
  else pure false

/-- Lines 191 to 214 of `perform_exception_callback`: the choice of the
message, the callback and the release of the characters. -/
def perform_exception_callback_report (msg : Option String) (error_code : Int)
    (jexception_msg : Nat) (exception_msg : Option String)
    (callback app_data : Nat) : JNI Unit := do
  (if callback ≠ 0 then
    match exception_msg with
    | some m => emit (.callback callback (some m) error_code app_data)
    | none =>
      match msg with
      | some m => emit (.callback callback (some m) error_code app_data)
      | none =>
        emit (.callback callback (some "perform_exception_callback: Unknown error.")
          error_code app_data)
   else pure ())
  match exception_msg with
  | some m => ReleaseStringUTFChars jexception_msg m
  | none => pure ()

def perform_exception_callback (msg : Option String) (error_code : Int)
    (jexception : Nat) (callback app_data : Nat) : JNI Unit := do
  let throwable_class ← FindClass "java/lang/Throwable"
  if (← HAVE_EXCEPTION) then pure ()
  else do
    let throwable_toString ← GetMethodID throwable_class "toString" "()Ljava/lang/String;"
    if (← HAVE_EXCEPTION) then pure ()
    else do
      let jexception_msg ← CallObjectMethod jexception throwable_toString
      if (← HAVE_EXCEPTION) then pure ()
      else if jexception_msg ≠ 0 then do
        let exception_msg ← GetStringUTFChars jexception_msg
        if (← HAVE_EXCEPTION) then pure ()
        else
          perform_exception_callback_report msg error_code jexception_msg exception_msg
            callback app_data
      else
        perform_exception_callback_report msg error_code jexception_msg none
          callback app_data

def jl_freejvm : JNI Unit := do
  set_jvm 0
  free (← getS).jvmOptions
  modifyS fun s => { s with jvmOptions := 0 }
  free (← getS).vmInitArgs
  modifyS fun s => { s with vmInitArgs := 0 }

/-- The `for` loop of `loadJavaVM` over the remaining entries of `jvmtypes`;
`some r` when the loop executed `return r`. -/
def loadJavaVM_from (b : Build) (java_lib : String) : List String → JNI (Option Int)
  | [] => pure none
  | jvmtype :: rest => do
    let len := strlen java_lib + strlen jvmtype + strlen b.JL_LIBJVM + 3
    if len ≥ b.PATH_MAX then pure (some JL_CANTLOADLIBJVM)
    else do
      let libjvmpath := snprintf len (java_lib ++ "/" ++ jvmtype ++ "/" ++ b.JL_LIBJVM)
      let h ← dlopen libjvmpath
      modifyS fun s => { s with libjvm := h }
      if h ≠ 0 then pure none
      else loadJavaVM_from b java_lib rest

def loadJavaVM (b : Build) (java_lib : String) : JNI Int := do
  match (← loadJavaVM_from b java_lib jvmtypes) with
  | some r => pure r
  | none =>
    if (← getS).libjvm = 0 then pure JL_CANTLOADLIBJVM
    else pure JL_OK

def jl_initialize (b : Build) (java_lib : String) : JNI Int := do
  if b.STATIC_BUILD then do
    modifyS fun s => { s with initialized := true }
    pure JL_OK
  else if (← getS).initialized then pure JL_OK
  else do
    let result ← loadJavaVM b java_lib
    if result ≠ JL_OK then pure result
    else do
      let f ← dlsym (← getS).libjvm "JNI_CreateJavaVM"
      modifyS fun s => { s with jl_JNI_CreateJavaVM := f }
      if f = 0 then pure JL_CANTLOADLIBJVM
      else do
        modifyS fun s => { s with initialized := true }
        pure JL_OK

def cleanup_java_references : JNI Unit :=
  modifyS fun s => { s with _context_class_loader := 0, _java_lang_string := 0,
                            _java_lang_thread := 0, _java_thread_current_thread := 0,
                            _java_thread_set_context_classloader := 0 }

def get_context_classloader : JNI Nat := do
  if (← getS)._context_class_loader = 0 then do
    let lclass ← FindClass "jdk/internal/loader/ClassLoaders"
    if lclass = 0 then pure 0
    else do
      let getlauncher ← GetStaticMethodID lclass "appClassLoader" "()Ljava/lang/ClassLoader;"
      if getlauncher = 0 then pure 0
      else do
        let launcher ← CallStaticObjectMethod lclass getlauncher
        if launcher = 0 then pure 0
        else if (← ExceptionCheck) then pure 0
        else do
          let g ← NewGlobalRef launcher
          modifyS fun s => { s with _context_class_loader := g }
          if g = 0 then pure 0
          else pure (← getS)._context_class_loader
  else pure (← getS)._context_class_loader

def get_java_lang_string : JNI Nat := do
  if (← getS)._java_lang_string = 0 then do
    let aclass ← FindClass "java/lang/String"
    if aclass = 0 then pure 0
    else do
      let g ← NewGlobalRef aclass
      modifyS fun s => { s with _java_lang_string := g }
      if g = 0 then pure 0
      else pure (← getS)._java_lang_string
  else pure (← getS)._java_lang_string

def get_java_lang_thread : JNI Nat := do
  if (← getS)._java_lang_thread = 0 then do
    let aclass ← FindClass "java/lang/Thread"
    if aclass = 0 then pure 0
    else do
      let g ← NewGlobalRef aclass
      modifyS fun s => { s with _java_lang_thread := g }
      if g = 0 then pure 0
      else pure (← getS)._java_lang_thread
  else pure (← getS)._java_lang_thread

def get_current_thread_method_id : JNI Nat := do
  if (← getS)._java_thread_current_thread = 0 then do
    let cls ← get_java_lang_thread
    let m ← GetStaticMethodID cls "currentThread" "()Ljava/lang/Thread;"
    modifyS fun s => { s with _java_thread_current_thread := m }
    if m = 0 then pure 0
    else pure (← getS)._java_thread_current_thread
  else pure (← getS)._java_thread_current_thread

def get_set_context_classloader_method_id : JNI Nat := do
  if (← getS)._java_thread_set_context_classloader = 0 then do
    let cls ← get_java_lang_thread
    let m ← GetMethodID cls "setContextClassLoader" "(Ljava/lang/ClassLoader;)V"
    modifyS fun s => { s with _java_thread_set_context_classloader := m }
    if m = 0 then pure 0
    else pure (← getS)._java_thread_set_context_classloader
  else pure (← getS)._java_thread_set_context_classloader

def set_current_thread_context_classloader : JNI Int := do
  let cls ← get_java_lang_thread
  let mid ← get_current_thread_method_id
  let thr ← CallStaticObjectMethod cls mid
  if thr = 0 then pure (-1)
  else if (← ExceptionCheck) then pure (-1)
  else do
    let setmid ← get_set_context_classloader_method_id
    let loader ← get_context_classloader
    CallVoidMethod thr setmid loader
    if (← ExceptionCheck) then pure (-1)
    else pure 0

def init_context_classloader_javaclasses_and_methodids : JNI Int := do
  if (← get_java_lang_string) = 0 then pure (-1)
  else if (← get_java_lang_thread) = 0 then pure (-1)
  else if (← get_current_thread_method_id) = 0 then pure (-1)
  else if (← get_set_context_classloader_method_id) = 0 then pure (-1)
  else if (← get_context_classloader) = 0 then pure (-1)
  else pure 0

/-- Lines 405 to 420 of `jl_createJavaVM`: the report of a negative `result`,
or the publication of the new VM. -/
def jl_createJavaVM_finish (result : Int) (msgbuf : String) (_jvm : Nat)
    (callback app_data : Nat) : JNI Int := do
  if result < 0 then do
    perform_error_callback (some msgbuf) JL_CANNOTCREATEJVM callback app_data
    free (← getS).jvmOptions
    free (← getS).vmInitArgs
    modifyS fun s => { s with jvmOptions := 0 }
    modifyS fun s => { s with vmInitArgs := 0 }
    pure JL_CANNOTCREATEJVM
  else do
    set_jvm _jvm
    pure JL_OK

/-- Lines 367 to 404 of `jl_createJavaVM`: the init-args structure, the call
of `jl_JNI_CreateJavaVM` and the resolution of the cached references. -/
def jl_createJavaVM_launch (jvm_args : Option (List (Option String))) (jvm_args_len : Int)
    (callback app_data : Nat) : JNI Int := do
  let p ← calloc 1
  modifyS fun s => { s with vmInitArgs := p }
  if p = 0 then do
    perform_error_callback (some "jl_createJavaVM: Cannot create JavaVMInitArgs.")
      JL_CANNOTCREATEVMINITARGS callback app_data
    free (← getS).jvmOptions
    pure JL_CANNOTCREATEVMINITARGS
  else do
    let options := (List.range jvm_args_len.toNat).map (arg jvm_args)
    let r ← ask (.JNI_CreateJavaVM jvm_args_len options)
    let _jvm := r.ref
    let result := r.ret
    if result = JNI_OK then do
      let result ← init_context_classloader_javaclasses_and_methodids
      if result < 0 then do
        let jexception ← ExceptionOccurred
        (if jexception ≠ 0 then do
          ExceptionDescribe
          ExceptionClear
         else pure ())
        let _ ← DetachCurrentThread _jvm
        let _ ← DestroyJavaVM _jvm
        modifyS fun s => { s with jvm_destroyed := true }
        cleanup_java_references
        let msgbuf := snprintf MSGBUFSIZE
          ("jl_createJavaVM: Cannot create Java VM. Could not initialize context " ++
           "classloader, java classes or method ids.\n")
        jl_createJavaVM_finish result msgbuf _jvm callback app_data
      else jl_createJavaVM_finish result "" _jvm callback app_data
    else do
      let msgbuf := snprintf MSGBUFSIZE
        ("jl_createJavaVM: Cannot create Java VM. JNI_CreateJavaVM returned error " ++
         fmt_d result ++ ".\n")
      jl_createJavaVM_finish result msgbuf _jvm callback app_data

def jl_createJavaVM (b : Build) (jvm_args : Option (List (Option String)))
    (jvm_args_len : Int) (callback app_data : Nat) : JNI Int := do
  if (!b.STATIC_BUILD && !(← getS).initialized) then do
    perform_error_callback
      (some "jl_createJavaVM: jl_initialize has not been called, cannot create the Java VM.")
      JL_NOTINITIALIZED callback app_data
    pure JL_NOTINITIALIZED
  else if (← getS).jvm_destroyed then do
    perform_error_callback
      (some "jl_createJavaVM: jl_destroyJavaVM has been called, cannot re-create the Java VM.")
      JL_JVMISDESTROYED callback app_data
    pure JL_JVMISDESTROYED
  else if (← getS).jvm ≠ 0 then pure JL_OK
  else if jvm_args_len ≠ 0 ∧ (jvm_args = none ∨ arg jvm_args 0 = none) then do
    let msgbuf := snprintf MSGBUFSIZE
      ("jl_createJavaVM: jvm_args_len is " ++ fmt_d jvm_args_len ++
       " but there are no arguments set\n")
    perform_error_callback (some msgbuf) JL_BADARGUMENTS callback app_data
    pure JL_BADARGUMENTS
  else if jvm_args_len ≠ 0 then do
    let p ← calloc jvm_args_len
    modifyS fun s => { s with jvmOptions := p }
    if p = 0 then do
      perform_error_callback (some "jl_createJavaVM: Cannot create JavaVMOptions.\n")
        JL_CANNOTCREATEJVMOPTIONS callback app_data
      pure JL_CANNOTCREATEJVMOPTIONS
    else jl_createJavaVM_launch jvm_args jvm_args_len callback app_data
  else jl_createJavaVM_launch jvm_args jvm_args_len callback app_data

/-- The value of the local `errmsg` of `jl_callJava`: `NULL`, the address of
the local buffer `msgbuf`, or the address of a string literal. -/
inductive MsgPtr where
  | null
  | msgbuf
  | literal (text : String)
  deriving DecidableEq, Repr

/-- The string `errmsg` points to when the buffer holds `msgbuf`. -/
def MsgPtr.deref (msgbuf : String) : MsgPtr → Option String
  | .null => none
  | .msgbuf => some msgbuf
  | .literal text => some text

/-- From the label `jl_calljava_return` to the end of `jl_callJava`. -/
def jl_calljava_return (_jvm : Nat) (result : Int) (errmsg : MsgPtr) (msgbuf : String)
    (callback app_data : Nat) : JNI Int := do
  let jexception ← ExceptionOccurred
  (if jexception ≠ 0 then do
    ExceptionDescribe
    ExceptionClear
    perform_exception_callback (errmsg.deref msgbuf) result jexception callback app_data
   else if result ≠ 0 then
    perform_error_callback (errmsg.deref msgbuf) result callback app_data
   else pure ())
  PopLocalFrame
  let result ← DetachCurrentThread _jvm
  if result ≠ JNI_OK then do
    let msgbuf := snprintf MSGBUFSIZE
      ("jl_callJava: Cannot detach current thread error = " ++ fmt_d result ++ "\n")
    perform_error_callback (errmsg.deref msgbuf) result callback app_data
    pure JL_CANNOTDETACHCURRTHREAD
  else pure result

/-- The `for` loop of `jl_callJava` that fills the argument array: `n`
iterations are left and the next index is `i`.  `some (result, msgbuf)` when
an iteration jumped to `jl_calljava_return`. -/
def jl_callJava_fill (app_args : Option (List (Option String))) (jobjarrayargs : Nat) :
    Nat → Nat → JNI (Option (Int × String))
  | 0, _ => pure none
  | n + 1, i => do
    let jarg ← NewStringUTF (arg app_args i)
    if jarg = 0 then
      pure (some (JL_CANNOTCREATESTRUTF, snprintf MSGBUFSIZE
        ("jl_callJava: Cannot create java string for '" ++ fmt_s (arg app_args i) ++ "'\n")))
    else do
      SetObjectArrayElement jobjarrayargs i jarg
      if (← ExceptionCheck) then
        pure (some (JL_CANNOTSETARRAYELEMENT, snprintf MSGBUFSIZE
          ("jl_callJava: Cannot set array element " ++ fmt_d i ++ " to '" ++
           fmt_s (arg app_args i) ++ "'\n")))
      else jl_callJava_fill app_args jobjarrayargs n (i + 1)

/-- Lines 485 to 568 of `jl_callJava`: attach, local frame, context class
loader, class and method lookup, argument array and the call. -/
def jl_callJava_dispatch (_jvm : Nat) (javaclass method signature : String)
    (app_args : Option (List (Option String))) (app_args_len : Int)
    (callback app_data : Nat) : JNI Int := do
  let result ← AttachCurrentThread _jvm
  if result ≠ JNI_OK then do
    let msgbuf := snprintf MSGBUFSIZE
      ("jl_callJava: Cannot attach current thread error = " ++ fmt_d result ++ "\n")
    perform_error_callback (some msgbuf) JL_CANNOTATTACHCURRTHREAD callback app_data
    pure JL_CANNOTATTACHCURRTHREAD
  else do
    let pushed ← PushLocalFrame (app_args_len + 20)
    let msgbuf := if pushed ≠ 0 then snprintf MSGBUFSIZE
        ("jl_callJava: Cannot push local frame for " ++ fmt_d (app_args_len + 10) ++
         " local references, error = " ++ fmt_d pushed ++ " .")
      else ""
    let errmsg := if pushed ≠ 0 then MsgPtr.msgbuf else MsgPtr.null
    let result := if pushed ≠ 0 then JL_CANNOTPUSHLOCALFRAME else pushed
    if (← set_current_thread_context_classloader) ≠ 0 then
      jl_calljava_return _jvm JL_CANTSETCONTEXTCLASSLOADER
        (.literal "jl_callJava: Cannot set current thread's context classloader.") msgbuf
        callback app_data
    else do
      let cls ← FindClass javaclass
      if cls = 0 then
        jl_calljava_return _jvm JL_CANNOTFINDCLASS .msgbuf
          (snprintf MSGBUFSIZE ("jl_callJava: Cannot find class '" ++ javaclass ++ "'\n"))
          callback app_data
      else do
        let mid ← GetStaticMethodID cls method signature
        if mid = 0 then
          jl_calljava_return _jvm JL_METHODDOESNOTEXIST .msgbuf
            (snprintf MSGBUFSIZE ("jl_callJava: Method '" ++ method ++ "' does not exist.\n"))
            callback app_data
        else do
          let strcls ← get_java_lang_string
          let jobjarrayargs ← NewObjectArray app_args_len strcls
          if jobjarrayargs = 0 then
            jl_calljava_return _jvm JL_CANNOTCREATEOBJARRAY .msgbuf
              (snprintf MSGBUFSIZE ("jl_callJava: Cannot create object array for " ++
                fmt_d app_args_len ++ " elements"))
              callback app_data
          else do
            match (← jl_callJava_fill app_args jobjarrayargs app_args_len.toNat 0) with
            | some (code, text) =>
              jl_calljava_return _jvm code .msgbuf text callback app_data
            | none => do
              CallStaticVoidMethod cls mid jobjarrayargs
              jl_calljava_return _jvm result errmsg msgbuf callback app_data

def jl_callJava (javaclass method signature : Option String)
    (app_args : Option (List (Option String))) (app_args_len : Int)
    (callback app_data : Nat) : JNI Int := do
  if (← get_jvm_destroyed) then do
    perform_error_callback
      (some "jl_callJava: jl_destroyJavaVM has been called, cannot execute java code.\n")
      JL_JVMISDESTROYED callback app_data
    pure JL_JVMISDESTROYED
  else do
    let _jvm ← get_jvm
    if _jvm = 0 then do
      perform_error_callback (some "jl_callJava: jl_createJavaVM has not been called.\n")
        JL_CREATEJAVAVMNOTCALLED callback app_data
      pure JL_CREATEJAVAVMNOTCALLED
    else if EMPTYSTR javaclass ∨ EMPTYSTR method then do
      let msgbuf := snprintf MSGBUFSIZE
        ("jl_callJava: javaclass '" ++ (if EMPTYSTR javaclass then "" else fmt_s javaclass) ++
         "' or method '" ++ (if EMPTYSTR method then "" else fmt_s method) ++
         "' argument is not set.")
      perform_error_callback (some msgbuf) JL_BADARGUMENTS callback app_data
      pure JL_BADARGUMENTS
    else if app_args_len ≠ 0 ∧ (app_args = none ∨ arg app_args 0 = none) then do
      let msgbuf := snprintf MSGBUFSIZE
        ("jl_callJava: app_args_len is " ++ fmt_d app_args_len ++
         " but there are no arguments set\n")
      perform_error_callback (some msgbuf) JL_BADARGUMENTS callback app_data
      pure JL_BADARGUMENTS
    else if EMPTYSTR signature then
      jl_callJava_dispatch _jvm (fmt_s javaclass) (fmt_s method) DEFAULT_SIGNATURE
        app_args app_args_len callback app_data
    else if is_supported_signature (fmt_s signature) = 0 then do
      let msgbuf := snprintf MSGBUFSIZE
        ("jl_callJava: Unsupported signature '" ++ fmt_s signature ++ "'.\n")
      perform_error_callback (some msgbuf) JL_BADSIGNATURE callback app_data
      pure JL_BADSIGNATURE
    else
      jl_callJava_dispatch _jvm (fmt_s javaclass) (fmt_s method) (fmt_s signature)
        app_args app_args_len callback app_data

def jl_destroyJavaVM (callback app_data : Nat) : JNI Int := do
  if (← getS).jvm_destroyed then pure JL_JVMISDESTROYED
  else if (← getS).jvm = 0 then pure JL_CREATEJAVAVMNOTCALLED
  else do
    modifyS fun s => { s with jvm_destroyed := true }
    let detachres ← DetachCurrentThread (← getS).jvm
    (if detachres ≠ JNI_OK then
      perform_error_callback
        (some (snprintf 256 ("jl_destroyJavaVM: Cannot detach current thread, error = " ++
          fmt_d detachres ++ ".\n")))
        JL_CANNOTDETACHCURRTHREAD callback app_data
     else pure ())
    let result ← DestroyJavaVM (← getS).jvm
    cleanup_java_references
    jl_freejvm
    pure result

/-! ## Sequences of API calls -/

/-- One call of the API with its arguments. -/
inductive ApiCall where
  | init (java_lib : String)
  | create (jvm_args : Option (List (Option String))) (jvm_args_len : Int)
      (callback app_data : Nat)
  | call (javaclass method signature : Option String)
      (app_args : Option (List (Option String))) (app_args_len : Int)
      (callback app_data : Nat)
  | destroy (callback app_data : Nat)
  deriving DecidableEq, Repr

/-- The API function an `ApiCall` stands for. -/
def ApiCall.exec (b : Build) : ApiCall → JNI Int
  | .init java_lib => jl_initialize b java_lib
  | .create jvm_args jvm_args_len callback app_data =>
    jl_createJavaVM b jvm_args jvm_args_len callback app_data
  | .call javaclass method signature app_args app_args_len callback app_data =>
    jl_callJava javaclass method signature app_args app_args_len callback app_data
  | .destroy callback app_data => jl_destroyJavaVM callback app_data

/-- Whether the call is a `jl_createJavaVM`. -/
def ApiCall.isCreate : ApiCall → Bool
  | .create _ _ _ _ => true
  | _ => false

/-- Executes the calls one after the other; the values they returned, in
order, and the state after the last. -/
def runApi (b : Build) : List ApiCall → JNI (List Int)
  | [] => pure []
  | c :: cs => do
    let r ← c.exec b
    let rs ← runApi b cs
    pure (r :: rs)

/-! ## Relations between the state before and after a computation -/

/-- Every run of `m` relates the state it starts in to the state it leaves
by `R`. -/
structure Steps (R : JL → JL → Prop) {α : Type} (m : JNI α) : Prop where
  out : ∀ s, R s (m.run s).2

/-- Every run of `m` from a state that satisfies `P` returns a value and a
state that satisfy `Q`. -/
structure Hoare (P : JL → Prop) {α : Type} (m : JNI α) (Q : α → JL → Prop) : Prop where
  out : ∀ s, P s → Q (m.run s).1 (m.run s).2

/-- The VM handle, the destroyed flag, `initialized` and the resolved entry
point are the same in both states. -/
def SameVm (s t : JL) : Prop :=
  t.jvm = s.jvm ∧ t.jvm_destroyed = s.jvm_destroyed ∧ t.initialized = s.initialized ∧
    t.jl_JNI_CreateJavaVM = s.jl_JNI_CreateJavaVM

/-- Flags that are set in `s` are still set in `t`. -/
def Grows (s t : JL) : Prop :=
  (s.jvm_destroyed = true → t.jvm_destroyed = true) ∧
    (s.initialized = true → t.initialized = true)

/-- A VM handle is only present while the destroyed flag is clear, and, in a
dynamic build, only after `jl_initialize` succeeded. -/
def Inv (b : Build) (s : JL) : Prop :=
  s.jvm ≠ 0 → s.jvm_destroyed = false ∧ (b.STATIC_BUILD = true ∨ s.initialized = true)

/-- The steps of `jl_initialize`: handle and flag stay, `initialized` is not
reset. -/
def InitRel (s t : JL) : Prop :=
  t.jvm = s.jvm ∧ t.jvm_destroyed = s.jvm_destroyed ∧
    (s.initialized = true → t.initialized = true)

/-- The state reached from process start by the calls `calls` when the
environment answers with `script`. -/
def stateAfter (b : Build) (script : List Reply) (calls : List ApiCall) : JL :=
  ((runApi b calls).run (JL.start b script)).2

/-- The values the calls `calls` return, in order, from process start when
the environment answers with `script`. -/
def resultsOf (b : Build) (script : List Reply) (calls : List ApiCall) : List Int :=
  ((runApi b calls).run (JL.start b script)).1

/-- Whether the event is a call of the application callback. -/
def Event.isCallback : Event → Bool
  | .callback _ _ _ _ => true
  | _ => false

/-- A statically linked build. -/
def staticBuild : Build := { STATIC_BUILD := true, PATH_MAX := 4096, JL_LIBJVM := "libjvm.so" }

/-- Answers of an environment in which `jl_createJavaVM` with no options
succeeds: the allocation of the init-args, `JNI_CreateJavaVM` (VM `1`) and the
resolution of the String class, the Thread class, the two method ids and the
application class loader. -/
def scriptCreateOk : List Reply :=
  [{ ref := 100 }, { ret := 0, ref := 1 }, { ref := 2 }, { ref := 3 }, { ref := 4 },
   { ref := 5 }, { ref := 6 }, { ref := 7 }, { ref := 8 }, { ref := 9 }, { ref := 10 },
   { ref := 11 }]

/-- Answers of an environment in which `JNI_CreateJavaVM` succeeds and the
String class cannot be found afterwards. -/
def scriptCreateNoString : List Reply :=
  [{ ref := 100 }, { ret := 0, ref := 1 }, { ref := 0, exc := 40 }]

/-- Answers of an environment to
`jl_callJava("com/example/Main", "main", "([Ljava/lang/String;)V", {"a", "b"}, 2, ..)`
on a live VM in which every step up to the invocation succeeds, `main` throws
the throwable `50`, `Throwable.toString()` yields
`java.lang.RuntimeException: boom` and `DetachCurrentThread` succeeds. -/
def scriptMainThrows : List Reply :=
  [{ ret := 0 },                 -- AttachCurrentThread
   { ret := 0 },                 -- PushLocalFrame
   { ref := 20 },                -- Thread.currentThread()
   {},                           -- Thread.setContextClassLoader()
   { ref := 21 },                -- FindClass com/example/Main
   { ref := 22 },                -- GetStaticMethodID main
   { ref := 23 },                -- NewObjectArray
   { ref := 24 }, {},            -- NewStringUTF a, SetObjectArrayElement 0
   { ref := 25 }, {},            -- NewStringUTF b, SetObjectArrayElement 1
   { exc := 50 },                -- CallStaticVoidMethod: main throws
   { ref := 30 },                -- FindClass java/lang/Throwable
   { ref := 31 },                -- GetMethodID toString
   { ref := 32 },                -- CallObjectMethod toString
   { chars := some "java.lang.RuntimeException: boom" },   -- GetStringUTFChars
   { ret := 0 }]                 -- DetachCurrentThread

/-- Answers of an environment to a `jl_callJava` on a live VM in which
`FindClass` of the target class fails with the throwable `60` pending,
`Throwable.toString()` yields `java.lang.NoClassDefFoundError: com/example/Main`
and `DetachCurrentThread` succeeds. -/
def scriptClassMissing : List Reply :=
  [{ ret := 0 },                 -- AttachCurrentThread
   { ret := 0 },                 -- PushLocalFrame
   { ref := 20 },                -- Thread.currentThread()
   {},                           -- Thread.setContextClassLoader()
   { ref := 0, exc := 60 },      -- FindClass com/example/Main fails
   { ref := 30 },                -- FindClass java/lang/Throwable
   { ref := 31 },                -- GetMethodID toString
   { ref := 32 },                -- CallObjectMethod toString
   { chars := some "java.lang.NoClassDefFoundError: com/example/Main" },
   { ret := 0 }]                 -- DetachCurrentThread

/-- The events a computation adds to the trace when run from `s`. -/
def newEvents {α : Type} (m : JNI α) (s : JL) : List Event :=
  (m.run s).2.trace.drop s.trace.length

/-- The pending exception is the same in both states. -/
def SamePending (s t : JL) : Prop := t.pending = s.pending

/-- No exception is pending. -/
def Clean (s : JL) : Prop := s.pending = 0

/-- Answers of an environment to a `jl_callJava` on a live VM in which
`FindClass` of the target class fails with the throwable `60` pending,
`Throwable.toString()` yields `java.lang.NoClassDefFoundError: com/example/Main`
and `DetachCurrentThread` fails with `-1`. -/
def scriptClassMissingDetachFails : List Reply :=
  [{ ret := 0 },                 -- AttachCurrentThread
   { ret := 0 },                 -- PushLocalFrame
   { ref := 20 },                -- Thread.currentThread()
   {},                           -- Thread.setContextClassLoader()
   { ref := 0, exc := 60 },      -- FindClass com/example/Main fails
   { ref := 30 },                -- FindClass java/lang/Throwable
   { ref := 31 },                -- GetMethodID toString
   { ref := 32 },                -- CallObjectMethod toString
   { chars := some "java.lang.NoClassDefFoundError: com/example/Main" },
   { ret := -1 }]                -- DetachCurrentThread fails

/-- Answers of an environment to a `jl_callJava` on a live VM in which the
target class is found, `GetStaticMethodID` fails with the throwable `61`
pending, `Throwable.toString()` yields `java.lang.NoSuchMethodError: main` and
`DetachCurrentThread` succeeds. -/
def scriptMethodMissing : List Reply :=
  [{ ret := 0 },                 -- AttachCurrentThread
   { ret := 0 },                 -- PushLocalFrame
   { ref := 20 },                -- Thread.currentThread()
   {},                           -- Thread.setContextClassLoader()
   { ref := 21 },                -- FindClass com/example/Main
   { ref := 0, exc := 61 },      -- GetStaticMethodID fails
   { ref := 30 },                -- FindClass java/lang/Throwable
   { ref := 31 },                -- GetMethodID toString
   { ref := 32 },                -- CallObjectMethod toString
   { chars := some "java.lang.NoSuchMethodError: main" },
   { ret := 0 }]                 -- DetachCurrentThread

/-- A dynamically linked build. -/
def dynamicBuild : Build :=
  { STATIC_BUILD := false, PATH_MAX := 4096, JL_LIBJVM := "libjvm.so" }

/-- The trace of `t` is the trace of `s` followed by events that all satisfy
`P`. -/
def Only (P : Event → Prop) (s t : JL) : Prop :=
  ∃ es, t.trace = s.trace ++ es ∧ ∀ e ∈ es, P e

/-- The trace of `t` is the trace of `s` followed by events of which at most
`n` are invocations of the callback. -/
def Adds (n : Nat) (s t : JL) : Prop :=
  ∃ es, t.trace = s.trace ++ es ∧ es.countP Event.isCallback ≤ n

/-- The event is not an invocation of the callback. -/
def Event.notCallback (e : Event) : Prop := e.isCallback = false

/-- The JNI calls made while the cached references are resolved and the
context class loader of the thread is set. -/
def Event.resolving : Event → Prop
  | .FindClass _ => True
  | .NewGlobalRef _ => True
  | .GetStaticMethodID _ name sig =>
    (name = "currentThread" ∧ sig = "()Ljava/lang/Thread;") ∨
    (name = "appClassLoader" ∧ sig = "()Ljava/lang/ClassLoader;")
  | .GetMethodID _ _ _ => True
  | .CallStaticObjectMethod _ _ => True
  | .CallVoidMethod _ _ _ => True
  | .ExceptionCheck => True
  | _ => False

/-- Every `GetStaticMethodID` among the events looks up `method` with the
signature `signature`, or is one of the two lookups of the launcher itself
(`Thread.currentThread` and `ClassLoaders.appClassLoader`). -/
def lookupOk (method signature : String) : Event → Prop
  | .GetStaticMethodID _ name sig =>
    (name = method ∧ sig = signature) ∨
    (name = "currentThread" ∧ sig = "()Ljava/lang/Thread;") ∨
    (name = "appClassLoader" ∧ sig = "()Ljava/lang/ClassLoader;")
  | _ => True

/-- The event is neither an invocation of the callback nor a
`GetStaticMethodID` other than the two lookups of the launcher itself. -/
def Event.quiet : Event → Prop
  | .callback _ _ _ _ => False
  | .GetStaticMethodID _ name sig =>
    (name = "currentThread" ∧ sig = "()Ljava/lang/Thread;") ∨
    (name = "appClassLoader" ∧ sig = "()Ljava/lang/ClassLoader;")
  | _ => True

/-- Answers of an environment to a `jl_destroyJavaVM` on a live VM in which
`DetachCurrentThread` fails with `-1` and `DestroyJavaVM` succeeds. -/
def scriptDetachFailsDestroyOk : List Reply :=
  [{ ret := -1 },                -- DetachCurrentThread fails
   { ret := 0 }]                 -- DestroyJavaVM

/-- Lines 352 to 380 of `jl_createJavaVM` on their own, to name the state in
which `jl_JNI_CreateJavaVM` has just returned: the allocation of the options
(when there are any) and of the init-args, and the call of the entry point.
`none` when an allocation failed, in which case `jl_createJavaVM` returns
without calling the entry point; otherwise the `result` the entry point
returned and the `_jvm` it stored. -/
def jl_createJavaVM_entry (jvm_args : Option (List (Option String))) (jvm_args_len : Int) :
    JNI (Option (Int × Nat)) := do
  let allocated ← (if jvm_args_len ≠ 0 then do
      let p ← calloc jvm_args_len
      modifyS fun s => { s with jvmOptions := p }
      pure (decide (p ≠ 0))
    else pure true)
  if allocated then do
    let p ← calloc 1
    modifyS fun s => { s with vmInitArgs := p }
    if p = 0 then pure none
    else do
      let options := (List.range jvm_args_len.toNat).map (arg jvm_args)
      let r ← ask (.JNI_CreateJavaVM jvm_args_len options)
      pure (some (r.ret, r.ref))
  else pure none

/-- Answers of an environment to `jl_createJavaVM({"-Xmx64m"}, 1, ..)` in which
both allocations succeed (blocks `200` and `100`), `JNI_CreateJavaVM` succeeds
with the VM `1`, and the lookup of `java/lang/String` fails with the throwable
`40` pending. -/
def scriptCreateOptionsNoString : List Reply :=
  [{ ref := 200 }, { ref := 100 }, { ret := 0, ref := 1 }, { ref := 0, exc := 40 }]

/-- Answers of an environment to `jl_initialize` in which `dlopen` fails for
the first path, succeeds for the second with the handle `5`, and `dlsym`
resolves `JNI_CreateJavaVM` to `6`. -/
def scriptInitClient : List Reply :=
  [{ ref := 0 }, { ref := 5 }, { ref := 6 }]

/-- Answers of an environment in which every `dlopen` and `dlsym` that is
attempted succeeds. -/
def scriptInitAllOpen : List Reply :=
  [{ ref := 5 }, { ref := 6 }, { ref := 7 }, { ref := 8 }]

/-- A library directory of 4076 characters and 4077 bytes (`é` takes two):
with `PATH_MAX = 4096` and `libjvm.so`, the path of the `minimal` flavor needs
4096 bytes and the paths of the `client` and `server` flavors need 4095. -/
def longLibraryDirectory : String := String.mk ('/' :: 'é' :: List.replicate 4074 'j')

/-- Answers of an environment to a `jl_destroyJavaVM` on a live VM in which
`DetachCurrentThread` fails with `-1` and `DestroyJavaVM` fails with `-3`. -/
def scriptDetachAndDestroyFail : List Reply :=
  [{ ret := -1 },                -- DetachCurrentThread fails
   { ret := -3 }]                -- DestroyJavaVM fails

/-- The return codes `javalauncher_api.h` defines: `JL_OK`, `JL_FAIL` and the
error codes from `JL_CREATEJAVAVMNOTCALLED` to `JL_CANTSETCONTEXTCLASSLOADER`. -/
def returnCodes : List Int :=
  [JL_OK, JL_FAIL, JL_CREATEJAVAVMNOTCALLED, JL_CANNOTCREATEJVM, JL_CANNOTCREATEJVMOPTIONS,
   JL_CANNOTFINDCLASS, JL_METHODNOTSET, JL_METHODDOESNOTEXIST, JL_CANNOTGETUTFCHARS,
   JL_CANNOTSETARRAYELEMENT, JL_CANNOTATTACHCURRTHREAD, JL_CANNOTGETJNIENV,
   JL_CANNOTDETACHCURRTHREAD, JL_CANNOTCREATEVMINITARGS, JL_CANNOTRELEASEOBJECTARRAY,
   JL_CANNOTPUSHLOCALFRAME, JL_CANNOTCREATEOBJARRAY, JL_CANNOTCREATESTRUTF,
   JL_JVMISDESTROYED, JL_BADARGUMENTS, JL_BADSIGNATURE, JL_CANTLOADLIBJVM,
   JL_INVOKECALLBACKFAILED, JL_NOTINITIALIZED, JL_CANTSETCONTEXTCLASSLOADER]

/-- Answers of an environment to
`jl_callJava("com/example/Main", "main", "([Ljava/lang/String;)V", {"a", "b"}, 2, ..)`
on a live VM in which every step succeeds, `main` returns normally and
`DetachCurrentThread` fails with `-1`. -/
def scriptMainReturnsDetachFails : List Reply :=
  [{ ret := 0 },                 -- AttachCurrentThread
   { ret := 0 },                 -- PushLocalFrame
   { ref := 20 },                -- Thread.currentThread()
   {},                           -- Thread.setContextClassLoader()
   { ref := 21 },                -- FindClass com/example/Main
   { ref := 22 },                -- GetStaticMethodID main
   { ref := 23 },                -- NewObjectArray
   { ref := 24 }, {},            -- NewStringUTF a, SetObjectArrayElement 0
   { ref := 25 }, {},            -- NewStringUTF b, SetObjectArrayElement 1
   {},                           -- CallStaticVoidMethod: main returns
   { ret := -1 }]                -- DetachCurrentThread fails

/-- Answers of an environment to `jl_createJavaVM(NULL, 0, ..)` in which the
allocation succeeds and `JNI_CreateJavaVM` returns `1` without storing a VM. -/
def scriptCreatePositive : List Reply :=
  [{ ref := 100 },               -- calloc of the init-args
   { ret := 1, ref := 0 }]       -- JNI_CreateJavaVM returns 1, *pvm stays NULL

/-- Answers of an environment to `perform_exception_callback` in which
`Throwable.toString()` yields `java.lang.RuntimeException: boom`. -/
def scriptToString : List Reply :=
  [{ ref := 30 },                -- FindClass java/lang/Throwable
   { ref := 31 },                -- GetMethodID toString
   { ref := 32 },                -- CallObjectMethod toString
   { chars := some "java.lang.RuntimeException: boom" }]   -- GetStringUTFChars

/-- Answers of an environment to a `jl_callJava` on a live VM in which
`FindClass` of the target class fails with the throwable `60` pending, the
lookup of `java/lang/Throwable` fails in turn with the throwable `80` pending,
and `DetachCurrentThread` succeeds. -/
def scriptClassMissingNoThrowable : List Reply :=
  [{ ret := 0 },                 -- AttachCurrentThread
   { ret := 0 },                 -- PushLocalFrame
   { ref := 20 },                -- Thread.currentThread()
   {},                           -- Thread.setContextClassLoader()
   { ref := 0, exc := 60 },      -- FindClass com/example/Main fails
   { ref := 0, exc := 80 },      -- FindClass java/lang/Throwable fails
   { ret := 0 }]                 -- DetachCurrentThread

/-- The calls `perform_error_callback` and `perform_exception_callback` can
make: the callback, the four JNI calls that obtain the string form of the
exception, the release of its characters, and the three exception calls of
`HAVE_EXCEPTION`. -/
def Event.reporting : Event → Prop
  | .callback _ _ _ _ => True
  | .FindClass _ => True
  | .GetMethodID _ _ _ => True
  | .CallObjectMethod _ _ => True
  | .GetStringUTFChars _ => True
  | .ReleaseStringUTFChars _ _ => True
  | .ExceptionOccurred => True
  | .ExceptionDescribe => True
  | .ExceptionClear => True
  | _ => False

/-- The calls the loop that fills the argument array can make. -/
def Event.marshalling : Event → Prop
  | .NewStringUTF _ => True
  | .SetObjectArrayElement _ _ _ => True
  | .ExceptionCheck => True
  | _ => False

/-- The event is neither `PopLocalFrame` nor `DetachCurrentThread`. -/
def Event.calm : Event → Prop
  | .PopLocalFrame => False
  | .DetachCurrentThread _ => False
  | _ => True

/-- Between `s` and `t` the trace gained exactly one `PopLocalFrame` and
exactly one `DetachCurrentThread`, the latter on `vm` and right after the
former. -/
def CleansUp (vm : Nat) (s t : JL) : Prop :=
  ∃ pre post, t.trace = s.trace ++ pre ++ [Event.PopLocalFrame, Event.DetachCurrentThread vm]
      ++ post ∧ (∀ e ∈ pre, e.calm) ∧ (∀ e ∈ post, e.calm)

/-- The state `s` with the invocations of the callback taken out of its
trace; everything else, the file-scope variables, the pending exception, the
script and the other calls of the trace, is as in `s`. -/
@[reducible] def mute (s : JL) : JL :=
  { s with trace := s.trace.filter (fun e => !e.isCallback) }

/-- The computation `m0` does what `m` does, except that it does not invoke the
callback: run from a state without callback invocations in its trace it returns
the value `m` returns and leaves the state `m` leaves, less the callback
invocations. -/
structure Erases {α : Type} (m m0 : JNI α) : Prop where
  out : ∀ s, m0.run (mute s) = ((m.run s).1, mute (m.run s).2)

/-- The two outcomes have the same returned value, the same VM handle, the
same destroyed flag, the same cached references, and states that differ at
most in the callback invocations of their traces. -/
def SameOutcome (a b : Int × JL) : Prop :=
  a.1 = b.1 ∧ a.2.jvm = b.2.jvm ∧ a.2.jvm_destroyed = b.2.jvm_destroyed ∧
  a.2._context_class_loader = b.2._context_class_loader ∧
  a.2._java_lang_string = b.2._java_lang_string ∧
  a.2._java_lang_thread = b.2._java_lang_thread ∧
  a.2._java_thread_current_thread = b.2._java_thread_current_thread ∧
  a.2._java_thread_set_context_classloader = b.2._java_thread_set_context_classloader ∧
  mute a.2 = mute b.2

/-- Answers of an environment to `jl_createJavaVM(NULL, 0, ..)` in which the
allocation succeeds, `JNI_CreateJavaVM` succeeds with the VM `1`, and of the
ten calls that resolve the cached references the one of index `i` answers
`NULL` with the throwable `40` pending while the others answer non-null.  The
ten calls are `FindClass` and `NewGlobalRef` for `java/lang/String` (`0`, `1`),
`FindClass` and `NewGlobalRef` for `java/lang/Thread` (`2`, `3`),
`GetStaticMethodID` for `currentThread` (`4`), `GetMethodID` for
`setContextClassLoader` (`5`), and `FindClass`, `GetStaticMethodID`,
`CallStaticObjectMethod` and `NewGlobalRef` for the application class loader
(`6` to `9`). -/
def scriptResolutionFails (i : Nat) : List Reply :=
  [{ ref := 100 }, { ret := 0, ref := 1 }] ++
    (List.range 10).map (fun k => if k = i then { ref := 0, exc := 40 } else { ref := 10 + k })

/-! ## Theorems -/

section Basics

variable {α β : Type}

@[simp] theorem run_pure (a : α) (s : JL) : (pure a : JNI α).run s = (a, s) := rfl

@[simp] theorem run_bind (m : JNI α) (f : α → JNI β) (s : JL) :
    (m >>= f).run s = (f (m.run s).1).run (m.run s).2 := rfl

@[simp] theorem run_ite (c : Prop) [Decidable c] (x y : JNI α) (s : JL) :
    (if c then x else y).run s = if c then x.run s else y.run s := by
  split <;> rfl

@[simp] theorem run_getS (s : JL) : getS.run s = (s, s) := rfl

@[simp] theorem run_modifyS (f : JL → JL) (s : JL) : (modifyS f).run s = ((), f s) := rfl

@[simp] theorem run_emit (e : Event) (s : JL) :
    (emit e).run s = ((), { s with trace := s.trace ++ [e] }) := rfl

@[simp] theorem run_ask (e : Event) (s : JL) :
    (ask e).run s =
      (s.script.headD {}, { s with script := s.script.tail, trace := s.trace ++ [e] }) := rfl

@[simp] theorem run_jni (e : Event) (s : JL) :
    (jni e).run s =
      (s.script.headD {},
       { s with script := s.script.tail, trace := s.trace ++ [e],
                pending := if (s.script.headD {}).exc = 0 then s.pending
                           else (s.script.headD {}).exc }) := rfl

@[simp] theorem run_ExceptionOccurred (s : JL) :
    ExceptionOccurred.run s =
      (s.pending, { s with trace := s.trace ++ [.ExceptionOccurred] }) := rfl

@[simp] theorem run_ExceptionCheck (s : JL) :
    ExceptionCheck.run s =
      (decide (s.pending ≠ 0), { s with trace := s.trace ++ [.ExceptionCheck] }) := rfl

@[simp] theorem run_ExceptionClear (s : JL) :
    ExceptionClear.run s =
      ((), { s with pending := 0, trace := s.trace ++ [.ExceptionClear] }) := rfl

theorem steps_pure {R : JL → JL → Prop} (hr : ∀ s, R s s) (a : α) :
    Steps R (pure a : JNI α) := ⟨fun s => hr s⟩

theorem steps_bind {R : JL → JL → Prop} (ht : ∀ a b c, R a b → R b c → R a c)
    {m : JNI α} {f : α → JNI β} (hm : Steps R m) (hf : ∀ a, Steps R (f a)) :
    Steps R (m >>= f) := ⟨fun s => ht _ _ _ (hm.out s) ((hf _).out _)⟩

theorem steps_ite {R : JL → JL → Prop} (c : Prop) [Decidable c] {x y : JNI α}
    (hx : Steps R x) (hy : Steps R y) : Steps R (if c then x else y) := by
  split
  · exact hx
  · exact hy

theorem steps_iff {R : JL → JL → Prop} (m : JNI α) :
    Steps R m ↔ ∀ s, R s (m.run s).2 := ⟨fun h => h.out, fun h => ⟨h⟩⟩

theorem hoare_pure {P : JL → Prop} {Q : α → JL → Prop} {a : α} (h : ∀ s, P s → Q a s) :
    Hoare P (pure a : JNI α) Q := ⟨h⟩

theorem hoare_bind {P : JL → Prop} {R : α → JL → Prop} {Q : β → JL → Prop}
    {m : JNI α} {f : α → JNI β} (hm : Hoare P m R) (hf : ∀ a, Hoare (R a) (f a) Q) :
    Hoare P (m >>= f) Q := ⟨fun s hs => (hf _).out _ (hm.out s hs)⟩

theorem hoare_ite {P : JL → Prop} {Q : α → JL → Prop} (c : Prop) [Decidable c]
    {x y : JNI α} (hx : c → Hoare P x Q) (hy : ¬c → Hoare P y Q) :
    Hoare P (if c then x else y) Q := by
  split
  · exact hx ‹_›
  · exact hy ‹_›

theorem hoare_weaken {P P' : JL → Prop} {Q Q' : α → JL → Prop} {m : JNI α}
    (h : Hoare P' m Q') (hp : ∀ s, P s → P' s) (hq : ∀ a s, Q' a s → Q a s) :
    Hoare P m Q := ⟨fun s hs => hq _ _ (h.out s (hp s hs))⟩

theorem hoare_getS {P : JL → Prop} : Hoare P getS (fun a s => a = s ∧ P s) :=
  ⟨fun _ hs => ⟨rfl, hs⟩⟩

theorem hoare_modifyS {Q : Unit → JL → Prop} (f : JL → JL) :
    Hoare (fun s => Q () (f s)) (modifyS f) Q := ⟨fun _ hs => hs⟩

theorem hoare_steps {R : JL → JL → Prop} (ht : ∀ a b c, R a b → R b c → R a c)
    {m : JNI α} (hm : Steps R m) (s0 : JL) : Hoare (R s0) m (fun _ => R s0) :=
  ⟨fun s hs => ht _ _ _ hs (hm.out s)⟩

end Basics

/-! ### The frame of the JNI calls: `SameVm` -/

theorem sameVm_refl (s : JL) : SameVm s s := ⟨rfl, rfl, rfl, rfl⟩

theorem sameVm_trans (a b c : JL) (h1 : SameVm a b) (h2 : SameVm b c) : SameVm a c :=
  ⟨h2.1.trans h1.1, h2.2.1.trans h1.2.1, h2.2.2.1.trans h1.2.2.1, h2.2.2.2.trans h1.2.2.2⟩

@[simp] theorem sameVm_pure {α : Type} (a : α) : Steps SameVm (pure a : JNI α) :=
  steps_pure sameVm_refl a

theorem sameVm_bind {α β : Type} {m : JNI α} {f : α → JNI β} (hm : Steps SameVm m)
    (hf : ∀ a, Steps SameVm (f a)) : Steps SameVm (m >>= f) :=
  steps_bind sameVm_trans hm hf

@[simp] theorem sameVm_getS : Steps SameVm getS := ⟨fun s => sameVm_refl s⟩

@[simp] theorem sameVm_emit (e : Event) : Steps SameVm (emit e) :=
  ⟨fun _ => ⟨rfl, rfl, rfl, rfl⟩⟩

@[simp] theorem sameVm_ask (e : Event) : Steps SameVm (ask e) :=
  ⟨fun _ => ⟨rfl, rfl, rfl, rfl⟩⟩

@[simp] theorem sameVm_jni (e : Event) : Steps SameVm (jni e) :=
  ⟨fun _ => ⟨rfl, rfl, rfl, rfl⟩⟩

@[simp] theorem sameVm_ExceptionOccurred : Steps SameVm ExceptionOccurred :=
  ⟨fun _ => ⟨rfl, rfl, rfl, rfl⟩⟩

@[simp] theorem sameVm_ExceptionCheck : Steps SameVm ExceptionCheck :=
  ⟨fun _ => ⟨rfl, rfl, rfl, rfl⟩⟩

@[simp] theorem sameVm_ExceptionClear : Steps SameVm ExceptionClear :=
  ⟨fun _ => ⟨rfl, rfl, rfl, rfl⟩⟩

theorem sameVm_modifyS (f : JL → JL) (h : ∀ s, SameVm s (f s)) : Steps SameVm (modifyS f) :=
  ⟨fun s => h s⟩

@[simp] theorem steps_modifyS_iff {R : JL → JL → Prop} (f : JL → JL) :
    Steps R (modifyS f) ↔ ∀ s, R s (f s) := ⟨fun h s => h.out s, fun h => ⟨h⟩⟩

theorem hoare_sameVm {α : Type} {m : JNI α} (hm : Steps SameVm m) (s0 : JL) :
    Hoare (SameVm s0) m (fun _ => SameVm s0) := hoare_steps sameVm_trans hm s0

@[simp] theorem sameVm_dlopen (path : String) : Steps SameVm (dlopen path) :=
  ⟨fun _ => ⟨rfl, rfl, rfl, rfl⟩⟩

@[simp] theorem sameVm_dlsym (handle : Nat) (symbol : String) :
    Steps SameVm (dlsym handle symbol) := ⟨fun _ => ⟨rfl, rfl, rfl, rfl⟩⟩

@[simp] theorem sameVm_calloc (nmemb : Int) : Steps SameVm (calloc nmemb) :=
  ⟨fun _ => ⟨rfl, rfl, rfl, rfl⟩⟩

@[simp] theorem sameVm_free (p : Nat) : Steps SameVm (free p) :=
  ⟨fun _ => ⟨rfl, rfl, rfl, rfl⟩⟩

@[simp] theorem sameVm_AttachCurrentThread (vm : Nat) : Steps SameVm (AttachCurrentThread vm) :=
  ⟨fun _ => ⟨rfl, rfl, rfl, rfl⟩⟩

@[simp] theorem sameVm_DetachCurrentThread (vm : Nat) : Steps SameVm (DetachCurrentThread vm) :=
  ⟨fun _ => ⟨rfl, rfl, rfl, rfl⟩⟩

@[simp] theorem sameVm_DestroyJavaVM (vm : Nat) : Steps SameVm (DestroyJavaVM vm) :=
  ⟨fun _ => ⟨rfl, rfl, rfl, rfl⟩⟩

@[simp] theorem sameVm_ExceptionDescribe : Steps SameVm ExceptionDescribe :=
  ⟨fun _ => ⟨rfl, rfl, rfl, rfl⟩⟩

@[simp] theorem sameVm_PopLocalFrame : Steps SameVm PopLocalFrame :=
  ⟨fun _ => ⟨rfl, rfl, rfl, rfl⟩⟩

@[simp] theorem sameVm_cleanup_java_references : Steps SameVm cleanup_java_references :=
  ⟨fun _ => ⟨rfl, rfl, rfl, rfl⟩⟩

@[simp] theorem sameVm_get_java_lang_string : Steps SameVm get_java_lang_string := by
  unfold get_java_lang_string FindClass NewGlobalRef
  repeat (first
    | with_reducible apply sameVm_bind
    | with_reducible apply steps_ite
    | intro _
    | simp [SameVm])

@[simp] theorem sameVm_get_java_lang_thread : Steps SameVm get_java_lang_thread := by
  unfold get_java_lang_thread FindClass NewGlobalRef
  repeat (first
    | with_reducible apply sameVm_bind
    | with_reducible apply steps_ite
    | intro _
    | simp [SameVm])

@[simp] theorem sameVm_get_current_thread_method_id :
    Steps SameVm get_current_thread_method_id := by
  unfold get_current_thread_method_id GetStaticMethodID
  repeat (first
    | with_reducible apply sameVm_bind
    | with_reducible apply steps_ite
    | intro _
    | simp [SameVm])

@[simp] theorem sameVm_get_set_context_classloader_method_id :
    Steps SameVm get_set_context_classloader_method_id := by
  unfold get_set_context_classloader_method_id GetMethodID
  repeat (first
    | with_reducible apply sameVm_bind
    | with_reducible apply steps_ite
    | intro _
    | simp [SameVm])

@[simp] theorem sameVm_get_context_classloader : Steps SameVm get_context_classloader := by
  unfold get_context_classloader FindClass GetStaticMethodID CallStaticObjectMethod NewGlobalRef
  repeat (first
    | with_reducible apply sameVm_bind
    | with_reducible apply steps_ite
    | intro _
    | simp [SameVm])

@[simp] theorem sameVm_set_current_thread_context_classloader :
    Steps SameVm set_current_thread_context_classloader := by
  unfold set_current_thread_context_classloader CallStaticObjectMethod CallVoidMethod
  repeat (first
    | with_reducible apply sameVm_bind
    | with_reducible apply steps_ite
    | intro _
    | simp)

@[simp] theorem sameVm_init_context_classloader_javaclasses_and_methodids :
    Steps SameVm init_context_classloader_javaclasses_and_methodids := by
  unfold init_context_classloader_javaclasses_and_methodids
  repeat (first
    | with_reducible apply sameVm_bind
    | with_reducible apply steps_ite
    | intro _
    | simp)

@[simp] theorem sameVm_perform_error_callback (msg : Option String) (error_code : Int)
    (callback app_data : Nat) :
    Steps SameVm (perform_error_callback msg error_code callback app_data) := by
  unfold perform_error_callback
  apply steps_ite <;> simp

@[simp] theorem sameVm_HAVE_EXCEPTION : Steps SameVm HAVE_EXCEPTION := by
  unfold HAVE_EXCEPTION ExceptionDescribe
  repeat (first
    | with_reducible apply sameVm_bind
    | with_reducible apply steps_ite
    | intro _
    | simp)

@[simp] theorem sameVm_perform_exception_callback_report (msg : Option String)
    (error_code : Int) (jexception_msg : Nat) (exception_msg : Option String)
    (callback app_data : Nat) :
    Steps SameVm (perform_exception_callback_report msg error_code jexception_msg
      exception_msg callback app_data) := by
  unfold perform_exception_callback_report ReleaseStringUTFChars
  repeat (first
    | with_reducible apply sameVm_bind
    | with_reducible apply steps_ite
    | intro _
    | split
    | simp)

@[simp] theorem sameVm_perform_exception_callback (msg : Option String) (error_code : Int)
    (jexception : Nat) (callback app_data : Nat) :
    Steps SameVm (perform_exception_callback msg error_code jexception callback app_data) := by
  unfold perform_exception_callback FindClass GetMethodID CallObjectMethod GetStringUTFChars
  repeat (first
    | with_reducible apply sameVm_bind
    | with_reducible apply steps_ite
    | intro _
    | simp)

@[simp] theorem sameVm_jl_calljava_return (_jvm : Nat) (result : Int) (errmsg : MsgPtr)
    (msgbuf : String) (callback app_data : Nat) :
    Steps SameVm (jl_calljava_return _jvm result errmsg msgbuf callback app_data) := by
  unfold jl_calljava_return ExceptionDescribe PopLocalFrame DetachCurrentThread
  repeat (first
    | with_reducible apply sameVm_bind
    | with_reducible apply steps_ite
    | intro _
    | simp)

@[simp] theorem sameVm_jl_callJava_fill (app_args : Option (List (Option String)))
    (jobjarrayargs : Nat) (n i : Nat) :
    Steps SameVm (jl_callJava_fill app_args jobjarrayargs n i) := by
  induction n generalizing i with
  | zero => unfold jl_callJava_fill; simp
  | succ n ih =>
    unfold jl_callJava_fill NewStringUTF SetObjectArrayElement
    repeat (first
      | with_reducible apply sameVm_bind
      | with_reducible apply steps_ite
      | intro _
      | exact ih _
      | simp)

@[simp] theorem sameVm_jl_callJava_dispatch (_jvm : Nat) (javaclass method signature : String)
    (app_args : Option (List (Option String))) (app_args_len : Int)
    (callback app_data : Nat) :
    Steps SameVm (jl_callJava_dispatch _jvm javaclass method signature app_args app_args_len
      callback app_data) := by
  unfold jl_callJava_dispatch AttachCurrentThread PushLocalFrame FindClass GetStaticMethodID
    NewObjectArray CallStaticVoidMethod
  repeat (first
    | with_reducible apply sameVm_bind
    | with_reducible apply steps_ite
    | intro _
    | split
    | simp)

/-- The call `jl_callJava` leaves the VM handle, the destroyed flag,
`initialized` and the entry point as they were. -/
theorem sameVm_jl_callJava (javaclass method signature : Option String)
    (app_args : Option (List (Option String))) (app_args_len : Int)
    (callback app_data : Nat) :
    Steps SameVm (jl_callJava javaclass method signature app_args app_args_len
      callback app_data) := by
  unfold jl_callJava get_jvm_destroyed get_jvm
  repeat (first
    | with_reducible apply sameVm_bind
    | with_reducible apply steps_ite
    | intro _
    | simp)

/-! ### What `jl_createJavaVM` does to the VM handle and the destroyed flag -/

theorem createJavaVM_finish_effect (result : Int) (msgbuf : String) (_jvm callback app_data : Nat)
    (s : JL) :
    ((jl_createJavaVM_finish result msgbuf _jvm callback app_data).run s).1
        = (if result < 0 then JL_CANNOTCREATEJVM else JL_OK) ∧
    ((jl_createJavaVM_finish result msgbuf _jvm callback app_data).run s).2.initialized
        = s.initialized ∧
    ((jl_createJavaVM_finish result msgbuf _jvm callback app_data).run s).2.jl_JNI_CreateJavaVM
        = s.jl_JNI_CreateJavaVM ∧
    ((jl_createJavaVM_finish result msgbuf _jvm callback app_data).run s).2.jvm_destroyed
        = s.jvm_destroyed ∧
    ((jl_createJavaVM_finish result msgbuf _jvm callback app_data).run s).2.jvm
        = (if result < 0 then s.jvm else _jvm) := by
  unfold jl_createJavaVM_finish perform_error_callback free set_jvm
  by_cases h : result < 0 <;> by_cases hc : callback = 0 <;> simp [h, hc]

/-- Outcome of the part of `jl_createJavaVM` that runs once the checks have
passed, relative to the state `s0` at entry: the call failed and left handle
and flag alone, or it tore the new VM down and set the flag, or it returned
`JL_OK` and left the flag alone. -/
theorem createJavaVM_launch_hoare (jvm_args : Option (List (Option String)))
    (jvm_args_len : Int) (callback app_data : Nat) (s0 : JL) :
    Hoare (SameVm s0) (jl_createJavaVM_launch jvm_args jvm_args_len callback app_data)
      (fun r t => t.initialized = s0.initialized ∧
        t.jl_JNI_CreateJavaVM = s0.jl_JNI_CreateJavaVM ∧
        ((t.jvm = s0.jvm ∧ t.jvm_destroyed = s0.jvm_destroyed ∧ r ≠ JL_OK) ∨
         (t.jvm = s0.jvm ∧ t.jvm_destroyed = true ∧ r = JL_CANNOTCREATEJVM) ∨
         (t.jvm_destroyed = s0.jvm_destroyed ∧ r = JL_OK))) := by
  have fin : ∀ (result : Int) (msgbuf : String) (_jvm : Nat), Hoare (SameVm s0)
      (jl_createJavaVM_finish result msgbuf _jvm callback app_data)
      (fun r t => t.initialized = s0.initialized ∧
        t.jl_JNI_CreateJavaVM = s0.jl_JNI_CreateJavaVM ∧
        ((t.jvm = s0.jvm ∧ t.jvm_destroyed = s0.jvm_destroyed ∧ r ≠ JL_OK) ∨
         (t.jvm = s0.jvm ∧ t.jvm_destroyed = true ∧ r = JL_CANNOTCREATEJVM) ∨
         (t.jvm_destroyed = s0.jvm_destroyed ∧ r = JL_OK))) := by
    intro result msgbuf _jvm
    refine ⟨fun s hs => ?_⟩
    obtain ⟨e1, e2, e3, e4, e5⟩ :=
      createJavaVM_finish_effect result msgbuf _jvm callback app_data s
    obtain ⟨h1, h2, h3, h4⟩ := hs
    rw [e1, e2, e3, e4, e5]
    refine ⟨h3, h4, ?_⟩
    by_cases hr : result < 0
    · simp [hr, h1, h2, JL_OK, JL_CANNOTCREATEJVM]
    · simp [hr, h2]
  unfold jl_createJavaVM_launch
  refine hoare_bind (hoare_sameVm (by simp) s0) (fun p => ?_)
  refine hoare_bind (hoare_sameVm (by simp [SameVm]) s0)
    (fun _ => ?_)
  refine hoare_ite _ (fun _ => ?_) (fun _ => ?_)
  · refine hoare_bind (hoare_sameVm (by simp) s0) (fun _ => ?_)
    refine hoare_bind (hoare_sameVm (by simp) s0) (fun _ => ?_)
    refine hoare_bind (hoare_sameVm (by simp) s0) (fun _ => ?_)
    exact hoare_pure (fun s hs => ⟨hs.2.2.1, hs.2.2.2, Or.inl ⟨hs.1, hs.2.1, by decide⟩⟩)
  · refine hoare_bind (hoare_sameVm (by simp) s0) (fun r => ?_)
    refine hoare_ite _ (fun _ => ?_) (fun _ => fin _ _ _)
    refine hoare_bind (hoare_sameVm (by simp) s0) (fun result => ?_)
    refine hoare_ite _ (fun hneg => ?_) (fun _ => fin _ _ _)
    refine hoare_bind (hoare_sameVm (by simp) s0) (fun jexception => ?_)
    refine hoare_bind (hoare_sameVm ?_ s0) (fun _ => ?_)
    · exact steps_ite _ (sameVm_bind (by simp) (fun _ => by simp)) (by simp)
    refine hoare_bind (hoare_sameVm (by simp) s0) (fun _ => ?_)
    refine hoare_bind (hoare_sameVm (by simp) s0) (fun _ => ?_)
    refine hoare_bind (R := fun _ s => s.jvm = s0.jvm ∧ s.jvm_destroyed = true ∧
      s.initialized = s0.initialized ∧ s.jl_JNI_CreateJavaVM = s0.jl_JNI_CreateJavaVM)
      ⟨fun s hs => ⟨hs.1, rfl, hs.2.2.1, hs.2.2.2⟩⟩ (fun _ => ?_)
    refine hoare_bind (R := fun _ s => s.jvm = s0.jvm ∧ s.jvm_destroyed = true ∧
      s.initialized = s0.initialized ∧ s.jl_JNI_CreateJavaVM = s0.jl_JNI_CreateJavaVM)
      ⟨fun s hs => hs⟩ (fun _ => ?_)
    refine ⟨fun s hs => ?_⟩
    obtain ⟨e1, e2, e3, e4, e5⟩ := createJavaVM_finish_effect result
      (snprintf MSGBUFSIZE
        ("jl_createJavaVM: Cannot create Java VM. Could not initialize context " ++
          "classloader, java classes or method ids.\n"))
      r.ref callback app_data s
    rw [e1, e2, e3, e4, e5]
    simp [hneg, hs.1, hs.2.1, hs.2.2.1, hs.2.2.2]

theorem hoare_pre_pure {α : Type} {φ : Prop} {P : JL → Prop} {m : JNI α} {Q : α → JL → Prop}
    (h : φ → Hoare P m Q) : Hoare (fun s => φ ∧ P s) m Q :=
  ⟨fun s hs => (h hs.1).out s hs.2⟩

theorem hoare_getS_sameVm (s0 : JL) :
    Hoare (SameVm s0) getS (fun a s => SameVm s0 a ∧ SameVm s0 s) :=
  ⟨fun _ hs => ⟨hs, hs⟩⟩

/-- Outcome of `jl_createJavaVM` relative to the state `s0` at entry. -/
theorem jl_createJavaVM_hoare (b : Build) (jvm_args : Option (List (Option String)))
    (jvm_args_len : Int) (callback app_data : Nat) (s0 : JL) :
    Hoare (SameVm s0) (jl_createJavaVM b jvm_args jvm_args_len callback app_data)
      (fun r t => t.initialized = s0.initialized ∧
        t.jl_JNI_CreateJavaVM = s0.jl_JNI_CreateJavaVM ∧
        ((t.jvm = s0.jvm ∧ t.jvm_destroyed = s0.jvm_destroyed ∧ (r = JL_OK → s0.jvm ≠ 0)) ∨
         (s0.jvm = 0 ∧ t.jvm = 0 ∧ t.jvm_destroyed = true ∧ r = JL_CANNOTCREATEJVM) ∨
         (s0.jvm = 0 ∧ s0.jvm_destroyed = false ∧
          (b.STATIC_BUILD = true ∨ s0.initialized = true) ∧
          t.jvm_destroyed = false ∧ r = JL_OK))) := by
  unfold jl_createJavaVM
  refine hoare_bind (hoare_getS_sameVm s0) (fun a1 => hoare_pre_pure (fun h1 => ?_))
  refine hoare_ite _ (fun _ => ?_) (fun c1 => ?_)
  · refine hoare_bind (hoare_sameVm (by simp) s0) (fun _ => ?_)
    exact hoare_pure (fun s hs => ⟨hs.2.2.1, hs.2.2.2, Or.inl ⟨hs.1, hs.2.1, fun h => absurd h (by decide)⟩⟩)
  refine hoare_bind (hoare_getS_sameVm s0) (fun a2 => hoare_pre_pure (fun h2 => ?_))
  refine hoare_ite _ (fun _ => ?_) (fun c2 => ?_)
  · refine hoare_bind (hoare_sameVm (by simp) s0) (fun _ => ?_)
    exact hoare_pure (fun s hs => ⟨hs.2.2.1, hs.2.2.2, Or.inl ⟨hs.1, hs.2.1, fun h => absurd h (by decide)⟩⟩)
  refine hoare_bind (hoare_getS_sameVm s0) (fun a3 => hoare_pre_pure (fun h3 => ?_))
  refine hoare_ite _ (fun c3 => ?_) (fun c3 => ?_)
  · refine hoare_pure (fun s hs => ⟨hs.2.2.1, hs.2.2.2, Or.inl ⟨hs.1, hs.2.1, fun _ => ?_⟩⟩)
    rw [← h3.1]
    exact c3
  have z : s0.jvm = 0 := by
    rw [← h3.1]
    exact not_not.mp c3
  have d : s0.jvm_destroyed = false := by
    rw [← h2.2.1]
    simpa using c2
  have i : b.STATIC_BUILD = true ∨ s0.initialized = true := by
    rw [← h1.2.2.1]
    cases hb : b.STATIC_BUILD <;> cases hi : a1.initialized <;> simp_all
  have launch : Hoare (SameVm s0)
      (jl_createJavaVM_launch jvm_args jvm_args_len callback app_data)
      (fun r t => t.initialized = s0.initialized ∧
        t.jl_JNI_CreateJavaVM = s0.jl_JNI_CreateJavaVM ∧
        ((t.jvm = s0.jvm ∧ t.jvm_destroyed = s0.jvm_destroyed ∧ (r = JL_OK → s0.jvm ≠ 0)) ∨
         (s0.jvm = 0 ∧ t.jvm = 0 ∧ t.jvm_destroyed = true ∧ r = JL_CANNOTCREATEJVM) ∨
         (s0.jvm = 0 ∧ s0.jvm_destroyed = false ∧
          (b.STATIC_BUILD = true ∨ s0.initialized = true) ∧
          t.jvm_destroyed = false ∧ r = JL_OK))) := by
    refine hoare_weaken (createJavaVM_launch_hoare jvm_args jvm_args_len callback app_data s0)
      (fun _ hs => hs) (fun r t ht => ⟨ht.1, ht.2.1, ?_⟩)
    rcases ht.2.2 with ⟨e1, e2, e3⟩ | ⟨e1, e2, e3⟩ | ⟨e1, e2⟩
    · exact Or.inl ⟨e1, e2, fun h => absurd h e3⟩
    · exact Or.inr (Or.inl ⟨z, e1.trans z, e2, e3⟩)
    · exact Or.inr (Or.inr ⟨z, d, i, e1.trans d, e2⟩)
  refine hoare_ite _ (fun _ => ?_) (fun _ => ?_)
  · refine hoare_bind (hoare_sameVm (by simp) s0) (fun _ => ?_)
    exact hoare_pure (fun s hs => ⟨hs.2.2.1, hs.2.2.2, Or.inl ⟨hs.1, hs.2.1, fun h => absurd h (by decide)⟩⟩)
  refine hoare_ite _ (fun _ => ?_) (fun _ => launch)
  refine hoare_bind (hoare_sameVm (by simp) s0) (fun p => ?_)
  refine hoare_bind (hoare_sameVm (by simp [SameVm]) s0) (fun _ => ?_)
  refine hoare_ite _ (fun _ => ?_) (fun _ => launch)
  refine hoare_bind (hoare_sameVm (by simp) s0) (fun _ => ?_)
  exact hoare_pure (fun s hs => ⟨hs.2.2.1, hs.2.2.2, Or.inl ⟨hs.1, hs.2.1, fun h => absurd h (by decide)⟩⟩)

/-! ### What `jl_destroyJavaVM` and `jl_initialize` do to handle and flags -/

theorem jl_destroyJavaVM_destroyed (callback app_data : Nat) (s : JL)
    (h : s.jvm_destroyed = true) :
    (jl_destroyJavaVM callback app_data).run s = (JL_JVMISDESTROYED, s) := by
  unfold jl_destroyJavaVM
  simp [h]

theorem jl_destroyJavaVM_not_created (callback app_data : Nat) (s : JL)
    (h : s.jvm_destroyed = false) (hj : s.jvm = 0) :
    (jl_destroyJavaVM callback app_data).run s = (JL_CREATEJAVAVMNOTCALLED, s) := by
  unfold jl_destroyJavaVM
  simp [h, hj]

theorem jl_destroyJavaVM_live (callback app_data : Nat) (s : JL)
    (h : s.jvm_destroyed = false) (hj : s.jvm ≠ 0) :
    ((jl_destroyJavaVM callback app_data).run s).2.jvm = 0 ∧
    ((jl_destroyJavaVM callback app_data).run s).2.jvm_destroyed = true ∧
    ((jl_destroyJavaVM callback app_data).run s).2.initialized = s.initialized := by
  unfold jl_destroyJavaVM jl_freejvm set_jvm cleanup_java_references free perform_error_callback
    DetachCurrentThread DestroyJavaVM
  simp only [run_bind, run_getS, run_ite, run_pure, run_modifyS, run_ask, run_emit]
  simp only [h, hj]
  split_ifs <;> first | contradiction | simp

theorem initRel_refl (s : JL) : InitRel s s := ⟨rfl, rfl, fun h => h⟩

theorem initRel_trans (a b c : JL) (h1 : InitRel a b) (h2 : InitRel b c) : InitRel a c :=
  ⟨h2.1.trans h1.1, h2.2.1.trans h1.2.1, fun h => h2.2.2 (h1.2.2 h)⟩

theorem initRel_of_sameVm {α : Type} {m : JNI α} (h : Steps SameVm m) : Steps InitRel m :=
  ⟨fun s => ⟨(h.out s).1, (h.out s).2.1, fun hi => (h.out s).2.2.1.trans hi⟩⟩

theorem initRel_loadJavaVM_from (b : Build) (java_lib : String) (types : List String) :
    Steps InitRel (loadJavaVM_from b java_lib types) := by
  induction types with
  | nil => exact steps_pure initRel_refl _
  | cons jvmtype rest ih =>
    unfold loadJavaVM_from
    refine steps_ite _ (steps_pure initRel_refl _) ?_
    refine steps_bind initRel_trans (initRel_of_sameVm (by simp)) (fun h => ?_)
    refine steps_bind initRel_trans (by simp [InitRel]) (fun _ => ?_)
    exact steps_ite _ (steps_pure initRel_refl _) ih

theorem initRel_loadJavaVM (b : Build) (java_lib : String) :
    Steps InitRel (loadJavaVM b java_lib) := by
  unfold loadJavaVM
  refine steps_bind initRel_trans (initRel_loadJavaVM_from b java_lib jvmtypes) (fun r => ?_)
  split
  · exact steps_pure initRel_refl _
  · refine steps_bind initRel_trans (initRel_of_sameVm (by simp)) (fun _ => ?_)
    exact steps_ite _ (steps_pure initRel_refl _) (steps_pure initRel_refl _)

/-- The call `jl_initialize` leaves the VM handle and the destroyed flag as
they were and does not reset `initialized`. -/
theorem jl_initialize_initRel (b : Build) (java_lib : String) :
    Steps InitRel ( jl_initialize b java_lib) := by
  unfold jl_initialize
  refine steps_ite _ ?_ ?_
  · exact steps_bind initRel_trans (by simp [InitRel]) (fun _ => steps_pure initRel_refl _)
  refine steps_bind initRel_trans (initRel_of_sameVm (by simp)) (fun _ => ?_)
  refine steps_ite _ (steps_pure initRel_refl _) ?_
  refine steps_bind initRel_trans (initRel_loadJavaVM b java_lib) (fun _ => ?_)
  refine steps_ite _ (steps_pure initRel_refl _) ?_
  refine steps_bind initRel_trans (initRel_of_sameVm (by simp)) (fun _ => ?_)
  refine steps_bind initRel_trans (initRel_of_sameVm (by simp)) (fun _ => ?_)
  refine steps_bind initRel_trans (by simp [InitRel]) (fun _ => ?_)
  refine steps_ite _ (steps_pure initRel_refl _) ?_
  exact steps_bind initRel_trans (by simp [InitRel]) (fun _ => steps_pure initRel_refl _)

/-! ### One API call, and sequences of them -/

theorem exec_grows (b : Build) (c : ApiCall) (s : JL) : Grows s ((c.exec b).run s).2 := by
  cases c with
  | init java_lib =>
    have h := (jl_initialize_initRel b java_lib).out s
    exact ⟨fun hd => h.2.1.trans hd, h.2.2⟩
  | create jvm_args jvm_args_len callback app_data =>
    have h := (jl_createJavaVM_hoare b jvm_args jvm_args_len callback app_data s).out s
      (sameVm_refl s)
    refine ⟨fun hd => ?_, fun hi => h.1.trans hi⟩
    rcases h.2.2 with ⟨_, e, _⟩ | ⟨_, _, e, _⟩ | ⟨_, e, _⟩
    · exact e.trans hd
    · exact e
    · rw [hd] at e
      exact absurd e (by decide)
  | call javaclass method signature app_args app_args_len callback app_data =>
    have h := (sameVm_jl_callJava javaclass method signature app_args app_args_len callback
      app_data).out s
    exact ⟨fun hd => h.2.1.trans hd, fun hi => h.2.2.1.trans hi⟩
  | destroy callback app_data =>
    show Grows s ((jl_destroyJavaVM callback app_data).run s).2
    cases hd : s.jvm_destroyed with
    | true =>
      rw [jl_destroyJavaVM_destroyed callback app_data s hd]
      exact ⟨fun _ => hd, fun hi => hi⟩
    | false =>
      by_cases hj : s.jvm = 0
      · rw [jl_destroyJavaVM_not_created callback app_data s hd hj]
        exact ⟨fun h => h, fun hi => hi⟩
      · have h := jl_destroyJavaVM_live callback app_data s hd hj
        exact ⟨fun _ => h.2.1, fun hi => h.2.2.trans hi⟩

theorem exec_inv (b : Build) (c : ApiCall) (s : JL) (hs : Inv b s) :
    Inv b ((c.exec b).run s).2 := by
  cases c with
  | init java_lib =>
    have h := (jl_initialize_initRel b java_lib).out s
    intro hj
    rw [show ((ApiCall.init java_lib).exec b) = jl_initialize b java_lib from rfl] at hj ⊢
    rw [h.1] at hj
    rw [h.2.1]
    exact ⟨(hs hj).1, (hs hj).2.imp id h.2.2⟩
  | create jvm_args jvm_args_len callback app_data =>
    have h := (jl_createJavaVM_hoare b jvm_args jvm_args_len callback app_data s).out s
      (sameVm_refl s)
    intro hj
    rw [show ((ApiCall.create jvm_args jvm_args_len callback app_data).exec b) =
      jl_createJavaVM b jvm_args jvm_args_len callback app_data from rfl] at hj ⊢
    rw [h.1]
    rcases h.2.2 with ⟨e1, e2, _⟩ | ⟨_, e, _⟩ | ⟨_, _, e3, e4, _⟩
    · rw [e1] at hj
      rw [e2]
      exact hs hj
    · exact absurd e hj
    · exact ⟨e4, e3⟩
  | call javaclass method signature app_args app_args_len callback app_data =>
    have h := (sameVm_jl_callJava javaclass method signature app_args app_args_len callback
      app_data).out s
    intro hj
    rw [show ((ApiCall.call javaclass method signature app_args app_args_len callback
      app_data).exec b) = jl_callJava javaclass method signature app_args app_args_len callback
      app_data from rfl] at hj ⊢
    rw [h.1] at hj
    rw [h.2.1, h.2.2.1]
    exact hs hj
  | destroy callback app_data =>
    show Inv b ((jl_destroyJavaVM callback app_data).run s).2
    cases hd : s.jvm_destroyed with
    | true =>
      rw [jl_destroyJavaVM_destroyed callback app_data s hd]
      exact hs
    | false =>
      by_cases hj : s.jvm = 0
      · rw [jl_destroyJavaVM_not_created callback app_data s hd hj]
        exact hs
      · have h := jl_destroyJavaVM_live callback app_data s hd hj
        intro hj2
        exact absurd h.1 hj2

theorem exec_jvm_zero (b : Build) (c : ApiCall) (s : JL) (hz : s.jvm = 0)
    (hr : c.isCreate = true → ((c.exec b).run s).1 ≠ JL_OK) : ((c.exec b).run s).2.jvm = 0 := by
  cases c with
  | init java_lib => exact ((jl_initialize_initRel b java_lib).out s).1.trans hz
  | create jvm_args jvm_args_len callback app_data =>
    have h := (jl_createJavaVM_hoare b jvm_args jvm_args_len callback app_data s).out s
      (sameVm_refl s)
    rcases h.2.2 with ⟨e1, _, _⟩ | ⟨_, e, _⟩ | ⟨_, _, _, _, e⟩
    · exact e1.trans hz
    · exact e
    · exact absurd e (hr rfl)
  | call javaclass method signature app_args app_args_len callback app_data =>
    exact ((sameVm_jl_callJava javaclass method signature app_args app_args_len callback
      app_data).out s).1.trans hz
  | destroy callback app_data =>
    show ((jl_destroyJavaVM callback app_data).run s).2.jvm = 0
    cases hd : s.jvm_destroyed with
    | true =>
      rw [jl_destroyJavaVM_destroyed callback app_data s hd]
      exact hz
    | false =>
      rw [jl_destroyJavaVM_not_created callback app_data s hd hz]
      exact hz

theorem runApi_nil (b : Build) (s : JL) : (runApi b []).run s = ([], s) := rfl

theorem runApi_cons (b : Build) (c : ApiCall) (cs : List ApiCall) (s : JL) :
    (runApi b (c :: cs)).run s =
      (((c.exec b).run s).1 :: ((runApi b cs).run ((c.exec b).run s).2).1,
       ((runApi b cs).run ((c.exec b).run s).2).2) := rfl

theorem grows_refl (s : JL) : Grows s s := ⟨fun h => h, fun h => h⟩

theorem grows_trans (a b c : JL) (h1 : Grows a b) (h2 : Grows b c) : Grows a c :=
  ⟨fun h => h2.1 (h1.1 h), fun h => h2.2 (h1.2 h)⟩

theorem runApi_grows (b : Build) (cs : List ApiCall) (s : JL) :
    Grows s ((runApi b cs).run s).2 := by
  induction cs generalizing s with
  | nil => exact grows_refl s
  | cons c cs ih =>
    rw [runApi_cons]
    exact grows_trans _ _ _ (exec_grows b c s) (ih _)

theorem runApi_inv (b : Build) (cs : List ApiCall) (s : JL) (hs : Inv b s) :
    Inv b ((runApi b cs).run s).2 := by
  induction cs generalizing s with
  | nil => exact hs
  | cons c cs ih =>
    rw [runApi_cons]
    exact ih _ (exec_inv b c s hs)

theorem start_inv (b : Build) (script : List Reply) : Inv b (JL.start b script) :=
  fun h => absurd rfl h

theorem stateAfter_inv (b : Build) (script : List Reply) (calls : List ApiCall) :
    Inv b (stateAfter b script calls) :=
  runApi_inv b calls _ (start_inv b script)

theorem runApi_jvm_zero (b : Build) (cs : List ApiCall) (s : JL) (hz : s.jvm = 0)
    (hno : ∀ p ∈ cs.zip ((runApi b cs).run s).1, p.1.isCreate = true → p.2 ≠ JL_OK) :
    ((runApi b cs).run s).2.jvm = 0 := by
  induction cs generalizing s with
  | nil => exact hz
  | cons c cs ih =>
    rw [runApi_cons] at hno ⊢
    have h1 : ((c.exec b).run s).2.jvm = 0 :=
      exec_jvm_zero b c s hz (fun hc => hno (c, ((c.exec b).run s).1)
        (List.mem_cons_self _ _) hc)
    exact ih _ h1 (fun p hp => hno p (List.mem_cons_of_mem _ hp))

/-! ### The pending exception at the end of `jl_callJava` -/

theorem samePending_refl (s : JL) : SamePending s s := rfl

theorem samePending_trans (a b c : JL) (h1 : SamePending a b) (h2 : SamePending b c) :
    SamePending a c := Eq.trans h2 h1

theorem samePending_emit (e : Event) : Steps SamePending (emit e) := ⟨fun _ => rfl⟩

theorem samePending_ask (e : Event) : Steps SamePending (ask e) := ⟨fun _ => rfl⟩

theorem samePending_perform_error_callback (msg : Option String) (error_code : Int)
    (callback app_data : Nat) :
    Steps SamePending (perform_error_callback msg error_code callback app_data) := by
  unfold perform_error_callback
  exact steps_ite _ (samePending_emit _) (steps_pure samePending_refl _)

theorem samePending_perform_exception_callback_report (msg : Option String)
    (error_code : Int) (jexception_msg : Nat) (exception_msg : Option String)
    (callback app_data : Nat) :
    Steps SamePending (perform_exception_callback_report msg error_code jexception_msg
      exception_msg callback app_data) := by
  unfold perform_exception_callback_report ReleaseStringUTFChars
  refine steps_bind samePending_trans ?_ (fun _ => ?_)
  · refine steps_ite _ ?_ (steps_pure samePending_refl _)
    split
    · exact samePending_emit _
    · split
      · exact samePending_emit _
      · exact samePending_emit _
  · split
    · exact samePending_emit _
    · exact steps_pure samePending_refl _

/-- A computation that keeps the pending exception keeps a clean
environment clean. -/
theorem hoare_clean {α : Type} {m : JNI α} (h : Steps SamePending m) :
    Hoare Clean m (fun _ => Clean) := ⟨fun s hs => (h.out s).trans hs⟩

/-- Whatever ran before, a continuation that always ends clean ends clean. -/
theorem hoare_bind_any {α β : Type} {P : JL → Prop} {Q : β → JL → Prop} {m : JNI α}
    {f : α → JNI β} (hf : ∀ a, Hoare (fun _ => True) (f a) Q) : Hoare P (m >>= f) Q :=
  ⟨fun _ _ => (hf _).out _ trivial⟩

theorem hoare_ite_any {α : Type} {P : JL → Prop} {Q : α → JL → Prop} (c : Prop) [Decidable c]
    {x y : JNI α} (hx : Hoare P x Q) (hy : Hoare P y Q) : Hoare P (if c then x else y) Q :=
  hoare_ite c (fun _ => hx) (fun _ => hy)

/-- After `HAVE_EXCEPTION` no exception is pending, whether it found one or
not. -/
theorem clean_HAVE_EXCEPTION : Hoare (fun _ => True) HAVE_EXCEPTION (fun _ => Clean) := by
  refine ⟨fun s _ => ?_⟩
  unfold HAVE_EXCEPTION ExceptionDescribe Clean
  simp only [run_bind, run_ExceptionOccurred, run_ite, run_emit, run_ExceptionClear, run_pure]
  split_ifs with h
  · rfl
  · exact not_not.mp h

/-- However `perform_exception_callback` ends, no exception is pending
afterwards. -/
theorem clean_perform_exception_callback (msg : Option String) (error_code : Int)
    (jexception : Nat) (callback app_data : Nat) :
    Hoare (fun _ => True)
      (perform_exception_callback msg error_code jexception callback app_data)
      (fun _ => Clean) := by
  have rep : ∀ (jexception_msg : Nat) (exception_msg : Option String), Hoare Clean
      (perform_exception_callback_report msg error_code jexception_msg exception_msg
        callback app_data) (fun _ => Clean) := fun _ _ =>
    hoare_clean (samePending_perform_exception_callback_report _ _ _ _ _ _)
  have ret : Hoare Clean (pure () : JNI Unit) (fun _ => Clean) := hoare_pure (fun _ h => h)
  unfold perform_exception_callback
  refine hoare_bind_any (fun throwable_class => ?_)
  refine hoare_bind clean_HAVE_EXCEPTION (fun _ => hoare_ite_any _ ret ?_)
  refine hoare_bind_any (fun throwable_toString => ?_)
  refine hoare_bind clean_HAVE_EXCEPTION (fun _ => hoare_ite_any _ ret ?_)
  refine hoare_bind_any (fun jexception_msg => ?_)
  refine hoare_bind clean_HAVE_EXCEPTION (fun _ => hoare_ite_any _ ret ?_)
  refine hoare_ite_any _ ?_ (rep _ _)
  refine hoare_bind_any (fun exception_msg => ?_)
  exact hoare_bind clean_HAVE_EXCEPTION (fun _ => hoare_ite_any _ ret (rep _ _))

/-- However the code from the label `jl_calljava_return` is entered and
whatever happens in it, no exception is pending when it returns. -/
theorem clean_jl_calljava_return (_jvm : Nat) (result : Int) (errmsg : MsgPtr)
    (msgbuf : String) (callback app_data : Nat) :
    Hoare (fun _ => True) (jl_calljava_return _jvm result errmsg msgbuf callback app_data)
      (fun _ => Clean) := by
  unfold jl_calljava_return
  refine hoare_bind (R := fun a s => s.pending = a) ⟨fun _ _ => rfl⟩ (fun jexception => ?_)
  refine hoare_bind (R := fun _ => Clean) ?_ (fun _ => ?_)
  · refine hoare_ite _ (fun _ => ?_) (fun h => ?_)
    · refine hoare_bind_any (fun _ => hoare_bind_any (fun _ => ?_))
      exact clean_perform_exception_callback _ _ _ _ _
    · have hz : jexception = 0 := not_not.mp h
      have keep : Hoare Clean
          (if result ≠ 0 then
            perform_error_callback (errmsg.deref msgbuf) result callback app_data
           else pure ()) (fun _ => Clean) :=
        hoare_ite_any _ (hoare_clean (samePending_perform_error_callback _ _ _ _))
          (hoare_pure (fun _ h => h))
      exact hoare_weaken keep (fun s hs => hs.trans hz) (fun _ _ h => h)
  · unfold PopLocalFrame DetachCurrentThread
    refine hoare_bind (hoare_clean (samePending_emit _)) (fun _ => ?_)
    refine hoare_bind (R := fun _ => Clean) ?_ (fun r => ?_)
    · exact hoare_bind (hoare_clean (samePending_ask _)) (fun _ => hoare_pure (fun _ h => h))
    · refine hoare_ite_any _ ?_ (hoare_pure (fun _ h => h))
      exact hoare_bind (hoare_clean (samePending_perform_error_callback _ _ _ _))
        (fun _ => hoare_pure (fun _ h => h))

/-- When `AttachCurrentThread` answers `JNI_OK`, no exception is pending when
the dispatch part of `jl_callJava` returns. -/
theorem clean_jl_callJava_dispatch (_jvm : Nat) (javaclass method signature : String)
    (app_args : Option (List (Option String))) (app_args_len : Int)
    (callback app_data : Nat) :
    Hoare (fun s => (s.script.headD {}).ret = JNI_OK)
      (jl_callJava_dispatch _jvm javaclass method signature app_args app_args_len
        callback app_data) (fun _ => Clean) := by
  have att : Hoare (fun s => (s.script.headD {}).ret = JNI_OK) (AttachCurrentThread _jvm)
      (fun a _ => a = JNI_OK ∧ True) := ⟨fun _ h => ⟨h, trivial⟩⟩
  unfold jl_callJava_dispatch
  refine hoare_bind att (fun r => hoare_pre_pure (fun hr => ?_))
  refine hoare_ite _ (fun h => absurd hr h) (fun _ => ?_)
  repeat (first
    | with_reducible exact clean_jl_calljava_return _ _ _ _ _ _
    | with_reducible apply hoare_bind_any
    | with_reducible apply hoare_ite_any
    | intro _
    | split)

/-! ## The claims -/

/-- C1: once `jl_destroyJavaVM` has been called on a live VM, every later call
of `jl_createJavaVM`, whatever calls were made before and in between and
whatever its arguments, returns `JL_JVMISDESTROYED` and does nothing but
report that code to a present callback; `JNI_CreateJavaVM` is not invoked. -/
theorem C1_create_after_destroy (b : Build) (script : List Reply)
    (before between : List ApiCall) (cb ad : Nat)
    (jvm_args : Option (List (Option String))) (jvm_args_len : Int) (callback app_data : Nat)
    (hlive : (stateAfter b script before).jvm ≠ 0 ∧
      (stateAfter b script before).jvm_destroyed = false) :
    (jl_createJavaVM b jvm_args jvm_args_len callback app_data).run
        ((runApi b between).run
          ((jl_destroyJavaVM cb ad).run (stateAfter b script before)).2).2 =
      (JL_JVMISDESTROYED,
       { ((runApi b between).run
            ((jl_destroyJavaVM cb ad).run (stateAfter b script before)).2).2 with
         trace := ((runApi b between).run
            ((jl_destroyJavaVM cb ad).run (stateAfter b script before)).2).2.trace ++
           if callback ≠ 0 then
             [Event.callback callback
               (some ("jl_createJavaVM: jl_destroyJavaVM has been called, " ++
                 "cannot re-create the Java VM."))
               JL_JVMISDESTROYED app_data]
           else [] }) := by
  have hinv := stateAfter_inv b script before hlive.1
  have hd := jl_destroyJavaVM_live cb ad _ hlive.2 hlive.1
  have hg := runApi_grows b between ((jl_destroyJavaVM cb ad).run (stateAfter b script before)).2
  generalize ((runApi b between).run
    ((jl_destroyJavaVM cb ad).run (stateAfter b script before)).2).2 = s3 at hg ⊢
  have h3d : s3.jvm_destroyed = true := hg.1 hd.2.1
  have h3i : (!b.STATIC_BUILD && !s3.initialized) = false := by
    rcases hinv.2 with h | h
    · simp [h]
    · have : s3.initialized = true := hg.2 (hd.2.2.trans h)
      simp [this]
  clear hg
  cases s3
  simp only at h3d h3i
  subst h3d
  unfold jl_createJavaVM perform_error_callback
  simp only [run_bind, run_getS, run_ite, run_pure, run_emit, h3i]
  by_cases hc : callback = 0 <;> simp [hc]

/-- Witness of C1: a static build in which a VM is created, destroyed and a
callJava is attempted before the VM is created again. -/
theorem C1_create_after_destroy_witness :
    ((stateAfter staticBuild scriptCreateOk [.create none 0 0 0]).jvm ≠ 0 ∧
      (stateAfter staticBuild scriptCreateOk [.create none 0 0 0]).jvm_destroyed = false) ∧
    ((jl_createJavaVM staticBuild (some [some "-Xmx64m"]) 1 7 0).run
        ((runApi staticBuild [.call (some "Main") (some "main") none none 0 0 0]).run
          ((jl_destroyJavaVM 0 0).run
            (stateAfter staticBuild scriptCreateOk [.create none 0 0 0])).2).2).1 =
      JL_JVMISDESTROYED :=
  ⟨by decide,
   congrArg Prod.fst (C1_create_after_destroy staticBuild scriptCreateOk [.create none 0 0 0]
     [.call (some "Main") (some "main") none none 0 0 0] 0 0 (some [some "-Xmx64m"]) 1 7 0
     (by decide))⟩

/-- C2, as the code has it: after a sequence of API calls in which no
`jl_createJavaVM` call returned `JL_OK`, `jl_callJava` and `jl_destroyJavaVM`
both return `JL_CREATEJAVAVMNOTCALLED` while the destroyed flag is clear, and
both return `JL_JVMISDESTROYED` once a failed `jl_createJavaVM` has torn down
the VM it had just created and set the flag. -/
theorem C2_before_successful_create (b : Build) (script : List Reply) (calls : List ApiCall)
    (javaclass method signature : Option String) (app_args : Option (List (Option String)))
    (app_args_len : Int) (callback app_data cb ad : Nat)
    (hno : ∀ p ∈ calls.zip (resultsOf b script calls), p.1.isCreate = true → p.2 ≠ JL_OK) :
    ((stateAfter b script calls).jvm_destroyed = false →
      ((jl_callJava javaclass method signature app_args app_args_len callback app_data).run
        (stateAfter b script calls)).1 = JL_CREATEJAVAVMNOTCALLED ∧
      ((jl_destroyJavaVM cb ad).run (stateAfter b script calls)).1 = JL_CREATEJAVAVMNOTCALLED) ∧
    ((stateAfter b script calls).jvm_destroyed = true →
      ((jl_callJava javaclass method signature app_args app_args_len callback app_data).run
        (stateAfter b script calls)).1 = JL_JVMISDESTROYED ∧
      ((jl_destroyJavaVM cb ad).run (stateAfter b script calls)).1 = JL_JVMISDESTROYED) := by
  have hz : (stateAfter b script calls).jvm = 0 := runApi_jvm_zero b calls _ rfl hno
  generalize stateAfter b script calls = s at hz ⊢
  constructor
  · intro hd
    refine ⟨?_, by rw [jl_destroyJavaVM_not_created cb ad s hd hz]⟩
    unfold jl_callJava get_jvm_destroyed get_jvm perform_error_callback
    by_cases hc : callback = 0 <;> simp [hd, hz, hc]
  · intro hd
    refine ⟨?_, by rw [jl_destroyJavaVM_destroyed cb ad s hd]⟩
    unfold jl_callJava get_jvm_destroyed get_jvm perform_error_callback
    by_cases hc : callback = 0 <;> simp [hd, hc]

/-- Witness of C2: a static build in which the only `jl_createJavaVM` call
fails because `JNI_CreateJavaVM` returns `-1`. -/
theorem C2_before_successful_create_witness :
    (∀ p ∈ [ApiCall.create none 0 0 0].zip
        (resultsOf staticBuild [{ ref := 100 }, { ret := -1 }] [ApiCall.create none 0 0 0]),
      p.1.isCreate = true → p.2 ≠ JL_OK) ∧
    (stateAfter staticBuild [{ ref := 100 }, { ret := -1 }]
      [ApiCall.create none 0 0 0]).jvm_destroyed = false ∧
    ((jl_callJava (some "Main") (some "main") none none 0 0 0).run
        (stateAfter staticBuild [{ ref := 100 }, { ret := -1 }] [ApiCall.create none 0 0 0])).1
      = JL_CREATEJAVAVMNOTCALLED ∧
    ((jl_destroyJavaVM 0 0).run
        (stateAfter staticBuild [{ ref := 100 }, { ret := -1 }] [ApiCall.create none 0 0 0])).1
      = JL_CREATEJAVAVMNOTCALLED :=
  ⟨by decide, by decide,
   (C2_before_successful_create staticBuild [{ ref := 100 }, { ret := -1 }]
     [ApiCall.create none 0 0 0] (some "Main") (some "main") none none 0 0 0 0 0
     (by decide)).1 (by decide)⟩

/-- Counterexample to C2 as stated: the only `jl_createJavaVM` call fails with
`JL_CANNOTCREATEJVM` because the String class cannot be resolved in the VM it
created; it has set the destroyed flag, and `jl_callJava` and
`jl_destroyJavaVM` then return `JL_JVMISDESTROYED`, not
`JL_CREATEJAVAVMNOTCALLED`. -/
theorem C2_counterexample :
    resultsOf staticBuild scriptCreateNoString [ApiCall.create none 0 0 0]
      = [JL_CANNOTCREATEJVM] ∧
    ((jl_callJava (some "Main") (some "main") none none 0 0 0).run
        (stateAfter staticBuild scriptCreateNoString [ApiCall.create none 0 0 0])).1
      = JL_JVMISDESTROYED ∧
    ((jl_destroyJavaVM 0 0).run
        (stateAfter staticBuild scriptCreateNoString [ApiCall.create none 0 0 0])).1
      = JL_JVMISDESTROYED ∧
    JL_JVMISDESTROYED ≠ JL_CREATEJAVAVMNOTCALLED := by
  decide

/-- C3: in every state reached by API calls from process start that has a
live VM (handle present, destroyed flag clear), `jl_createJavaVM` with any
arguments returns `JL_OK` and leaves the whole state as it was: the trace is
not extended, so neither `JNI_CreateJavaVM` nor the callback is invoked, and
the VM handle is unchanged. -/
theorem C3_create_idempotent (b : Build) (script : List Reply) (calls : List ApiCall)
    (jvm_args : Option (List (Option String))) (jvm_args_len : Int) (callback app_data : Nat)
    (hlive : (stateAfter b script calls).jvm ≠ 0 ∧
      (stateAfter b script calls).jvm_destroyed = false) :
    (jl_createJavaVM b jvm_args jvm_args_len callback app_data).run (stateAfter b script calls)
      = (JL_OK, stateAfter b script calls) := by
  have hinv := stateAfter_inv b script calls hlive.1
  generalize stateAfter b script calls = s at hlive hinv ⊢
  have hi : (!b.STATIC_BUILD && !s.initialized) = false := by
    rcases hinv.2 with h | h <;> simp [h]
  unfold jl_createJavaVM
  simp only [run_bind, run_getS, run_ite, run_pure, hi, hlive.2]
  simp [hlive.1]

/-- Witness of C3: a second `jl_createJavaVM` in a static build after a
successful first one. -/
theorem C3_create_idempotent_witness :
    ((stateAfter staticBuild scriptCreateOk [.create none 0 0 0]).jvm ≠ 0 ∧
      (stateAfter staticBuild scriptCreateOk [.create none 0 0 0]).jvm_destroyed = false) ∧
    (jl_createJavaVM staticBuild (some [some "-Xmx64m"]) 1 7 0).run
        (stateAfter staticBuild scriptCreateOk [.create none 0 0 0])
      = (JL_OK, stateAfter staticBuild scriptCreateOk [.create none 0 0 0]) :=
  ⟨by decide,
   C3_create_idempotent staticBuild scriptCreateOk [.create none 0 0 0]
     (some [some "-Xmx64m"]) 1 7 0 (by decide)⟩

/-- C4: from every state with a live VM, after one `jl_destroyJavaVM` a second
`jl_destroyJavaVM` returns `JL_JVMISDESTROYED` and leaves the whole state as
it was: the trace is not extended, so neither `DetachCurrentThread` nor
`DestroyJavaVM` is called again. -/
theorem C4_destroy_not_idempotent (s : JL) (callback app_data callback2 app_data2 : Nat)
    (hlive : s.jvm ≠ 0 ∧ s.jvm_destroyed = false) :
    (jl_destroyJavaVM callback2 app_data2).run ((jl_destroyJavaVM callback app_data).run s).2
      = (JL_JVMISDESTROYED, ((jl_destroyJavaVM callback app_data).run s).2) :=
  jl_destroyJavaVM_destroyed callback2 app_data2 _
    (jl_destroyJavaVM_live callback app_data s hlive.2 hlive.1).2.1

/-- Witness of C4: two `jl_destroyJavaVM` calls in a static build after a
successful `jl_createJavaVM`. -/
theorem C4_destroy_not_idempotent_witness :
    ((stateAfter staticBuild scriptCreateOk [.create none 0 0 0]).jvm ≠ 0 ∧
      (stateAfter staticBuild scriptCreateOk [.create none 0 0 0]).jvm_destroyed = false) ∧
    (jl_destroyJavaVM 7 0).run
        ((jl_destroyJavaVM 7 0).run
          (stateAfter staticBuild scriptCreateOk [.create none 0 0 0])).2
      = (JL_JVMISDESTROYED,
         ((jl_destroyJavaVM 7 0).run
           (stateAfter staticBuild scriptCreateOk [.create none 0 0 0])).2) :=
  ⟨by decide,
   C4_destroy_not_idempotent (stateAfter staticBuild scriptCreateOk [.create none 0 0 0])
     7 0 7 0 (by decide)⟩

/-- C5: in every state with the destroyed flag set, `jl_callJava` with any
arguments returns `JL_JVMISDESTROYED` and extends the trace by exactly one
callback invocation carrying that code when a callback is present, and by
nothing otherwise: no `AttachCurrentThread` and no other JNI call is made. -/
theorem C5_call_after_destroy (s : JL) (javaclass method signature : Option String)
    (app_args : Option (List (Option String))) (app_args_len : Int)
    (callback app_data : Nat) (hd : s.jvm_destroyed = true) :
    (jl_callJava javaclass method signature app_args app_args_len callback app_data).run s =
      (JL_JVMISDESTROYED,
       { s with trace := s.trace ++
           if callback ≠ 0 then
             [Event.callback callback
               (some "jl_callJava: jl_destroyJavaVM has been called, cannot execute java code.\n")
               JL_JVMISDESTROYED app_data]
           else [] }) := by
  cases s
  simp only at hd
  subst hd
  unfold jl_callJava get_jvm_destroyed perform_error_callback
  by_cases hc : callback = 0 <;> simp [hc]

/-- Witness of C5: a `jl_callJava` after the VM of a static build was created
and destroyed. -/
theorem C5_call_after_destroy_witness :
    (stateAfter staticBuild scriptCreateOk
      [.create none 0 0 0, .destroy 0 0]).jvm_destroyed = true ∧
    ((jl_callJava (some "Main") (some "main") none none 0 7 0).run
      (stateAfter staticBuild scriptCreateOk [.create none 0 0 0, .destroy 0 0])).1
      = JL_JVMISDESTROYED :=
  ⟨by decide,
   congrArg Prod.fst (C5_call_after_destroy
     (stateAfter staticBuild scriptCreateOk [.create none 0 0 0, .destroy 0 0])
     (some "Main") (some "main") none none 0 7 0 (by decide))⟩

/-- C6: from every state in which the destroyed flag is set, and so from
every reachable one, each of `jl_initialize`, `jl_createJavaVM`, `jl_callJava`
and `jl_destroyJavaVM`, with any arguments and any answers of the
environment, returns in a state in which the flag is still set. -/
theorem C6_destroyed_monotonic (b : Build) (c : ApiCall) (s : JL)
    (hd : s.jvm_destroyed = true) : ((c.exec b).run s).2.jvm_destroyed = true :=
  (exec_grows b c s).1 hd

/-- Witness of C6: a `jl_createJavaVM` after the VM of a static build was
created and destroyed. -/
theorem C6_destroyed_monotonic_witness :
    (stateAfter staticBuild scriptCreateOk
      [.create none 0 0 0, .destroy 0 0]).jvm_destroyed = true ∧
    (((ApiCall.create none 0 0 0).exec staticBuild).run
      (stateAfter staticBuild scriptCreateOk
        [.create none 0 0 0, .destroy 0 0])).2.jvm_destroyed = true :=
  ⟨by decide,
   C6_destroyed_monotonic staticBuild (.create none 0 0 0)
     (stateAfter staticBuild scriptCreateOk [.create none 0 0 0, .destroy 0 0]) (by decide)⟩

/-- C7: in no state reached from process start by completed API calls,
whatever the environment answers, is the VM handle present while the
destroyed flag is set. -/
theorem C7_created_destroyed_exclusive (b : Build) (script : List Reply)
    (calls : List ApiCall) :
    ¬ ((stateAfter b script calls).jvm ≠ 0 ∧ (stateAfter b script calls).jvm_destroyed = true) := by
  rintro ⟨hj, hd⟩
  have h := (stateAfter_inv b script calls hj).1
  rw [hd] at h
  exact absurd h (by decide)

/-- C8, evaluated on the code: a VM is created with `-Xmx64m`, then `main` of
`com/example/Main` is called with the arguments `a` and `b`, every
preparation step succeeds and `main` throws.  The callback is invoked once
with the string form of the exception, but the error code it receives is
`JL_OK`, and `jl_callJava` returns `JL_OK`. -/
theorem C8_exception_reported_with_JL_OK :
    ((jl_callJava (some "com/example/Main") (some "main") (some "([Ljava/lang/String;)V")
        (some [some "a", some "b"]) 2 7 0).run
      (stateAfter staticBuild ({ ref := 99 } :: scriptCreateOk ++ scriptMainThrows)
        [.create (some [some "-Xmx64m"]) 1 7 0])).1 = JL_OK ∧
    (newEvents (jl_callJava (some "com/example/Main") (some "main")
        (some "([Ljava/lang/String;)V") (some [some "a", some "b"]) 2 7 0)
      (stateAfter staticBuild ({ ref := 99 } :: scriptCreateOk ++ scriptMainThrows)
        [.create (some [some "-Xmx64m"]) 1 7 0])).filter Event.isCallback =
      [Event.callback 7 (some "java.lang.RuntimeException: boom") JL_OK 0] ∧
    Event.CallStaticVoidMethod 21 22 23 ∈
      newEvents (jl_callJava (some "com/example/Main") (some "main")
        (some "([Ljava/lang/String;)V") (some [some "a", some "b"]) 2 7 0)
      (stateAfter staticBuild ({ ref := 99 } :: scriptCreateOk ++ scriptMainThrows)
        [.create (some [some "-Xmx64m"]) 1 7 0]) := by
  decide

/-- C9, evaluated on the code: on a live VM `FindClass` fails for the target
class and `DetachCurrentThread` succeeds.  The callback receives
`JL_CANNOTFINDCLASS`, but `jl_callJava` returns `JL_OK`. -/
theorem C9_dispatch_failure_returns_JL_OK :
    ((jl_callJava (some "com/example/Main") (some "main") (some "([Ljava/lang/String;)V")
        (some [some "a", some "b"]) 2 7 0).run
      (stateAfter staticBuild (scriptCreateOk ++ scriptClassMissing)
        [.create none 0 7 0])).1 = JL_OK ∧
    (newEvents (jl_callJava (some "com/example/Main") (some "main")
        (some "([Ljava/lang/String;)V") (some [some "a", some "b"]) 2 7 0)
      (stateAfter staticBuild (scriptCreateOk ++ scriptClassMissing)
        [.create none 0 7 0])).filter Event.isCallback =
      [Event.callback 7 (some "java.lang.NoClassDefFoundError: com/example/Main")
        JL_CANNOTFINDCLASS 0] := by
  decide

/-- C10: every `jl_callJava` call that attaches the thread (the flag is clear,
a VM exists, the arguments pass validation and `AttachCurrentThread` answers
`JNI_OK`) returns with no exception pending in the JNI environment, whatever
the environment answers afterwards: whichever step fails, whether or not the
method throws, and whatever fails inside `perform_exception_callback`. -/
theorem C10_no_pending_exception_on_return (s : JL)
    (javaclass method signature : Option String)
    (app_args : Option (List (Option String))) (app_args_len : Int)
    (callback app_data : Nat)
    (hd : s.jvm_destroyed = false) (hj : s.jvm ≠ 0)
    (hc : EMPTYSTR javaclass = false) (hm : EMPTYSTR method = false)
    (ha : ¬ (app_args_len ≠ 0 ∧ (app_args = none ∨ arg app_args 0 = none)))
    (hs : EMPTYSTR signature = true ∨ is_supported_signature (fmt_s signature) ≠ 0)
    (hattach : (s.script.headD {}).ret = JNI_OK) :
    ((jl_callJava javaclass method signature app_args app_args_len callback app_data).run
      s).2.pending = 0 := by
  unfold jl_callJava get_jvm_destroyed get_jvm
  simp only [run_bind, run_getS, run_pure, run_ite, hd, hj, hc, hm, ha]
  simp only [Bool.false_eq_true, if_false, or_self]
  by_cases he : EMPTYSTR signature = true
  · rw [if_pos he]
    exact (clean_jl_callJava_dispatch _ _ _ _ _ _ _ _).out s hattach
  · rw [if_neg he, if_neg (hs.resolve_left he)]
    exact (clean_jl_callJava_dispatch _ _ _ _ _ _ _ _).out s hattach

/-- Witness of C10: the call of a throwing `main` on the live VM of a static
build. -/
theorem C10_no_pending_exception_on_return_witness :
    ((stateAfter staticBuild (scriptCreateOk ++ scriptMainThrows)
        [.create none 0 7 0]).jvm_destroyed = false ∧
     (stateAfter staticBuild (scriptCreateOk ++ scriptMainThrows)
        [.create none 0 7 0]).jvm ≠ 0 ∧
     EMPTYSTR (some "com/example/Main") = false ∧ EMPTYSTR (some "main") = false ∧
     ¬ ((2 : Int) ≠ 0 ∧ ((some [some "a", some "b"] : Option (List (Option String))) = none ∨
        arg (some [some "a", some "b"]) 0 = none)) ∧
     (EMPTYSTR (some "([Ljava/lang/String;)V") = true ∨
        is_supported_signature (fmt_s (some "([Ljava/lang/String;)V")) ≠ 0) ∧
     ((stateAfter staticBuild (scriptCreateOk ++ scriptMainThrows)
        [.create none 0 7 0]).script.headD {}).ret = JNI_OK) ∧
    ((jl_callJava (some "com/example/Main") (some "main") (some "([Ljava/lang/String;)V")
        (some [some "a", some "b"]) 2 7 0).run
      (stateAfter staticBuild (scriptCreateOk ++ scriptMainThrows)
        [.create none 0 7 0])).2.pending = 0 :=
  ⟨by decide,
   C10_no_pending_exception_on_return
     (stateAfter staticBuild (scriptCreateOk ++ scriptMainThrows) [.create none 0 7 0])
     (some "com/example/Main") (some "main") (some "([Ljava/lang/String;)V")
     (some [some "a", some "b"]) 2 7 0
     (by decide) (by decide) (by decide) (by decide) (by decide) (by decide) (by decide)⟩

/-- C13, evaluated on the code: `jl_destroyJavaVM` is called with a callback
before any VM was created.  It returns `JL_CREATEJAVAVMNOTCALLED` and does not
invoke the callback; a second `jl_destroyJavaVM` after a successful one
returns `JL_JVMISDESTROYED`, again without invoking the callback. -/
theorem C13_destroy_fails_silently :
    (jl_destroyJavaVM 7 0).run (JL.start staticBuild []) =
      (JL_CREATEJAVAVMNOTCALLED, JL.start staticBuild []) ∧
    newEvents (jl_destroyJavaVM 7 0) (JL.start staticBuild []) = [] ∧
    ((jl_destroyJavaVM 7 0).run
      (stateAfter staticBuild scriptCreateOk [.create none 0 7 0, .destroy 7 0])).1
        = JL_JVMISDESTROYED ∧
    newEvents (jl_destroyJavaVM 7 0)
      (stateAfter staticBuild scriptCreateOk [.create none 0 7 0, .destroy 7 0]) = [] := by
  decide

/-- C14, evaluated on the code: on a live VM `jl_callJava` is given the
signature `()Vx`, which is neither of the two supported signatures.
`is_supported_signature` accepts it, the call is not rejected with
`JL_BADSIGNATURE`, the thread is attached and `GetStaticMethodID` is called
with `()Vx`. -/
theorem C14_signature_with_supported_start_accepted :
    is_supported_signature "()Vx" = 1 ∧
    ((jl_callJava (some "com/example/Main") (some "main") (some "()Vx") none 0 7 0).run
      (stateAfter staticBuild (scriptCreateOk ++ scriptMethodMissing)
        [.create none 0 7 0])).1 ≠ JL_BADSIGNATURE ∧
    Event.AttachCurrentThread 1 ∈
      newEvents (jl_callJava (some "com/example/Main") (some "main") (some "()Vx") none 0 7 0)
        (stateAfter staticBuild (scriptCreateOk ++ scriptMethodMissing)
          [.create none 0 7 0]) ∧
    Event.GetStaticMethodID 21 "main" "()Vx" ∈
      newEvents (jl_callJava (some "com/example/Main") (some "main") (some "()Vx") none 0 7 0)
        (stateAfter staticBuild (scriptCreateOk ++ scriptMethodMissing)
          [.create none 0 7 0]) := by
  decide

/-- C16: a `jl_createJavaVM` call that passes the state checks (initialized,
flag clear, no VM yet) and a `jl_callJava` call on a live VM with non-empty
`javaclass` and `method`, each with a non-zero argument count while the
argument list is `NULL` or its first element is `NULL`, return
`JL_BADARGUMENTS` and add nothing to the trace but the report to a present
callback: `JNI_CreateJavaVM` is not invoked and the thread is not attached. -/
theorem C16_argument_consistency (b : Build) (s : JL)
    (args : Option (List (Option String))) (args_len : Int)
    (javaclass method signature : Option String) (callback app_data : Nat)
    (hlen : args_len ≠ 0) (hargs : args = none ∨ arg args 0 = none) :
    ((b.STATIC_BUILD = true ∨ s.initialized = true) → s.jvm_destroyed = false → s.jvm = 0 →
      (jl_createJavaVM b args args_len callback app_data).run s =
        (JL_BADARGUMENTS,
         { s with trace := s.trace ++
             if callback ≠ 0 then
               [Event.callback callback
                 (some (snprintf MSGBUFSIZE ("jl_createJavaVM: jvm_args_len is " ++
                   fmt_d args_len ++ " but there are no arguments set\n")))
                 JL_BADARGUMENTS app_data]
             else [] })) ∧
    (s.jvm_destroyed = false → s.jvm ≠ 0 → EMPTYSTR javaclass = false →
      EMPTYSTR method = false →
      (jl_callJava javaclass method signature args args_len callback app_data).run s =
        (JL_BADARGUMENTS,
         { s with trace := s.trace ++
             if callback ≠ 0 then
               [Event.callback callback
                 (some (snprintf MSGBUFSIZE ("jl_callJava: app_args_len is " ++
                   fmt_d args_len ++ " but there are no arguments set\n")))
                 JL_BADARGUMENTS app_data]
             else [] })) := by
  have hbad : args_len ≠ 0 ∧ (args = none ∨ arg args 0 = none) := ⟨hlen, hargs⟩
  constructor
  · intro hi hd hj
    have h1 : (!b.STATIC_BUILD && !s.initialized) = false := by
      rcases hi with h | h <;> simp [h]
    cases s
    simp only at hd hj h1
    subst hd hj
    unfold jl_createJavaVM perform_error_callback
    simp only [run_bind, run_getS, run_ite, run_pure, run_emit, h1, Bool.false_eq_true,
      if_false, ne_eq, not_true_eq_false]
    rw [if_pos hbad]
    by_cases hc : callback = 0 <;> simp [hc]
  · intro hd hj hcl hm
    cases s
    simp only at hd hj
    subst hd
    unfold jl_callJava get_jvm_destroyed get_jvm perform_error_callback
    simp only [run_bind, run_getS, run_ite, run_pure, run_emit, hj, hcl, hm,
      Bool.false_eq_true, if_false, or_self]
    rw [if_pos hbad]
    by_cases hc : callback = 0 <;> simp [hc]

/-- Witness of C16: in a static build, `jl_createJavaVM(NULL, 2, ..)` at
process start and `jl_callJava(.., NULL, 2, ..)` on a live VM. -/
theorem C16_argument_consistency_witness :
    ((2 : Int) ≠ 0 ∧
      ((none : Option (List (Option String))) = none ∨ arg none 0 = none)) ∧
    ((jl_createJavaVM staticBuild none 2 7 0).run (JL.start staticBuild [])).1
      = JL_BADARGUMENTS ∧
    ((jl_callJava (some "Main") (some "main") none none 2 7 0).run
      (stateAfter staticBuild scriptCreateOk [.create none 0 7 0])).1 = JL_BADARGUMENTS :=
  ⟨by decide,
   congrArg Prod.fst ((C16_argument_consistency staticBuild (JL.start staticBuild []) none 2
     (some "Main") (some "main") none 7 0 (by decide) (by decide)).1
       (by decide) (by decide) (by decide)),
   congrArg Prod.fst ((C16_argument_consistency staticBuild
     (stateAfter staticBuild scriptCreateOk [.create none 0 7 0]) none 2
     (some "Main") (some "main") none 7 0 (by decide) (by decide)).2
       (by decide) (by decide) (by decide) (by decide))⟩

/-- C17: on a live VM, a `jl_callJava` call whose `javaclass` or `method` is
`NULL` or empty returns `JL_BADARGUMENTS`, whatever the other arguments, and
adds nothing to the trace but the report to a present callback:
`AttachCurrentThread` is not called. -/
theorem C17_empty_class_or_method (s : JL) (javaclass method signature : Option String)
    (app_args : Option (List (Option String))) (app_args_len : Int)
    (callback app_data : Nat)
    (hd : s.jvm_destroyed = false) (hj : s.jvm ≠ 0)
    (he : EMPTYSTR javaclass = true ∨ EMPTYSTR method = true) :
    (jl_callJava javaclass method signature app_args app_args_len callback app_data).run s =
      (JL_BADARGUMENTS,
       { s with trace := s.trace ++
           if callback ≠ 0 then
             [Event.callback callback
               (some (snprintf MSGBUFSIZE ("jl_callJava: javaclass '" ++
                 (if EMPTYSTR javaclass then "" else fmt_s javaclass) ++ "' or method '" ++
                 (if EMPTYSTR method then "" else fmt_s method) ++ "' argument is not set.")))
               JL_BADARGUMENTS app_data]
           else [] }) := by
  cases s
  simp only at hd hj
  subst hd
  unfold jl_callJava get_jvm_destroyed get_jvm perform_error_callback
  simp only [run_bind, run_getS, run_ite, run_pure, run_emit, hj, he]
  by_cases hc : callback = 0 <;> simp [hc]

/-- Witness of C17: `jl_callJava("", "main", ..)` on the live VM of a static
build. -/
theorem C17_empty_class_or_method_witness :
    ((stateAfter staticBuild scriptCreateOk [.create none 0 7 0]).jvm_destroyed = false ∧
     (stateAfter staticBuild scriptCreateOk [.create none 0 7 0]).jvm ≠ 0 ∧
     (EMPTYSTR (some "") = true ∨ EMPTYSTR (some "main") = true)) ∧
    ((jl_callJava (some "") (some "main") none none 0 7 0).run
      (stateAfter staticBuild scriptCreateOk [.create none 0 7 0])).1 = JL_BADARGUMENTS ∧
    Event.AttachCurrentThread 1 ∉
      newEvents (jl_callJava (some "") (some "main") none none 0 7 0)
        (stateAfter staticBuild scriptCreateOk [.create none 0 7 0]) :=
  ⟨by decide,
   congrArg Prod.fst (C17_empty_class_or_method
     (stateAfter staticBuild scriptCreateOk [.create none 0 7 0])
     (some "") (some "main") none none 0 7 0 (by decide) (by decide) (by decide)),
   by decide⟩

/-- C19: in a dynamically linked build, in every state in which `initialized`
is still clear, `jl_createJavaVM` with any arguments returns
`JL_NOTINITIALIZED` and adds nothing to the trace but one report of that code
to a present callback: `JNI_CreateJavaVM` is not invoked. -/
theorem C19_create_before_initialize (b : Build) (s : JL)
    (jvm_args : Option (List (Option String))) (jvm_args_len : Int)
    (callback app_data : Nat)
    (hb : b.STATIC_BUILD = false) (hi : s.initialized = false) :
    (jl_createJavaVM b jvm_args jvm_args_len callback app_data).run s =
      (JL_NOTINITIALIZED,
       { s with trace := s.trace ++
           if callback ≠ 0 then
             [Event.callback callback
               (some ("jl_createJavaVM: jl_initialize has not been called, " ++
                 "cannot create the Java VM."))
               JL_NOTINITIALIZED app_data]
           else [] }) := by
  cases s
  simp only at hi
  subst hi
  unfold jl_createJavaVM perform_error_callback
  simp only [run_bind, run_getS, run_ite, run_pure, run_emit, hb]
  by_cases hc : callback = 0 <;> simp [hc]

/-- Witness of C19: `jl_createJavaVM` at the start of a dynamically linked
process, and after a `jl_initialize` that could not load any library. -/
theorem C19_create_before_initialize_witness :
    (dynamicBuild.STATIC_BUILD = false ∧
     (stateAfter dynamicBuild [] [.init "/opt/jre"]).initialized = false) ∧
    (jl_createJavaVM dynamicBuild (some [some "-Xmx64m"]) 1 7 0).run
        (stateAfter dynamicBuild [] [.init "/opt/jre"]) =
      (JL_NOTINITIALIZED,
       { stateAfter dynamicBuild [] [.init "/opt/jre"] with
         trace := (stateAfter dynamicBuild [] [.init "/opt/jre"]).trace ++
           if (7 : Nat) ≠ 0 then
             [Event.callback 7
               (some ("jl_createJavaVM: jl_initialize has not been called, " ++
                 "cannot create the Java VM."))
               JL_NOTINITIALIZED 0]
           else [] }) :=
  ⟨by decide,
   C19_create_before_initialize dynamicBuild (stateAfter dynamicBuild [] [.init "/opt/jre"])
     (some [some "-Xmx64m"]) 1 7 0 (by decide) (by decide)⟩

/-! ### What a computation adds to the trace -/

theorem only_refl {P : Event → Prop} (s : JL) : Only P s s :=
  ⟨[], by simp, by simp⟩

theorem only_trans {P : Event → Prop} (a b c : JL) (h1 : Only P a b) (h2 : Only P b c) :
    Only P a c := by
  obtain ⟨e1, t1, p1⟩ := h1
  obtain ⟨e2, t2, p2⟩ := h2
  refine ⟨e1 ++ e2, by rw [t2, t1, List.append_assoc], fun e he => ?_⟩
  rcases List.mem_append.mp he with h | h
  · exact p1 e h
  · exact p2 e h

theorem only_mono {P Q : Event → Prop} {α : Type} {m : JNI α} (h : ∀ e, P e → Q e)
    (hm : Steps (Only P) m) : Steps (Only Q) m :=
  ⟨fun s => by
    obtain ⟨es, t, p⟩ := hm.out s
    exact ⟨es, t, fun e he => h e (p e he)⟩⟩

theorem only_bind {P : Event → Prop} {α β : Type} {m : JNI α} {f : α → JNI β}
    (hm : Steps (Only P) m) (hf : ∀ a, Steps (Only P) (f a)) : Steps (Only P) (m >>= f) :=
  steps_bind only_trans hm hf

theorem only_pure {P : Event → Prop} {α : Type} (a : α) : Steps (Only P) (pure a : JNI α) :=
  steps_pure only_refl a

theorem only_getS {P : Event → Prop} : Steps (Only P) getS := ⟨fun s => only_refl s⟩

theorem only_modifyS {P : Event → Prop} (f : JL → JL) (h : ∀ s, (f s).trace = s.trace) :
    Steps (Only P) (modifyS f) := ⟨fun s => ⟨[], by simp [h s], by simp⟩⟩

theorem only_emit {P : Event → Prop} (e : Event) (h : P e) : Steps (Only P) (emit e) :=
  ⟨fun _ => ⟨[e], rfl, by simpa using h⟩⟩

theorem only_ask {P : Event → Prop} (e : Event) (h : P e) : Steps (Only P) (ask e) :=
  ⟨fun _ => ⟨[e], rfl, by simpa using h⟩⟩

theorem only_jni {P : Event → Prop} (e : Event) (h : P e) : Steps (Only P) (jni e) :=
  ⟨fun _ => ⟨[e], rfl, by simpa using h⟩⟩

theorem only_ExceptionCheck {P : Event → Prop} (h : P .ExceptionCheck) :
    Steps (Only P) ExceptionCheck := ⟨fun _ => ⟨[.ExceptionCheck], rfl, by simpa using h⟩⟩

theorem only_ExceptionOccurred {P : Event → Prop} (h : P .ExceptionOccurred) :
    Steps (Only P) ExceptionOccurred :=
  ⟨fun _ => ⟨[.ExceptionOccurred], rfl, by simpa using h⟩⟩

theorem only_ExceptionClear {P : Event → Prop} (h : P .ExceptionClear) :
    Steps (Only P) ExceptionClear := ⟨fun _ => ⟨[.ExceptionClear], rfl, by simpa using h⟩⟩

theorem resolving_get_java_lang_string : Steps (Only Event.resolving) get_java_lang_string := by
  unfold get_java_lang_string FindClass NewGlobalRef
  repeat (first
    | with_reducible apply only_bind
    | with_reducible apply steps_ite
    | intro _
    | with_reducible exact only_pure _
    | with_reducible exact only_getS
    | with_reducible exact only_jni _ (by simp [Event.resolving])
    | with_reducible exact only_ask _ (by simp [Event.resolving])
    | with_reducible exact only_ExceptionCheck (by simp [Event.resolving])
    | with_reducible exact only_modifyS _ (by simp))

theorem resolving_get_java_lang_thread : Steps (Only Event.resolving) get_java_lang_thread := by
  unfold get_java_lang_thread FindClass NewGlobalRef
  repeat (first
    | with_reducible apply only_bind
    | with_reducible apply steps_ite
    | intro _
    | with_reducible exact only_pure _
    | with_reducible exact only_getS
    | with_reducible exact only_jni _ (by simp [Event.resolving])
    | with_reducible exact only_ask _ (by simp [Event.resolving])
    | with_reducible exact only_ExceptionCheck (by simp [Event.resolving])
    | with_reducible exact only_modifyS _ (by simp))

theorem resolving_get_current_thread_method_id :
    Steps (Only Event.resolving) get_current_thread_method_id := by
  unfold get_current_thread_method_id GetStaticMethodID
  repeat (first
    | with_reducible exact resolving_get_java_lang_thread
    | with_reducible apply only_bind
    | with_reducible apply steps_ite
    | intro _
    | with_reducible exact only_pure _
    | with_reducible exact only_getS
    | with_reducible exact only_jni _ (by simp [Event.resolving])
    | with_reducible exact only_ask _ (by simp [Event.resolving])
    | with_reducible exact only_ExceptionCheck (by simp [Event.resolving])
    | with_reducible exact only_modifyS _ (by simp))

theorem resolving_get_set_context_classloader_method_id :
    Steps (Only Event.resolving) get_set_context_classloader_method_id := by
  unfold get_set_context_classloader_method_id GetMethodID
  repeat (first
    | with_reducible exact resolving_get_java_lang_thread
    | with_reducible apply only_bind
    | with_reducible apply steps_ite
    | intro _
    | with_reducible exact only_pure _
    | with_reducible exact only_getS
    | with_reducible exact only_jni _ (by simp [Event.resolving])
    | with_reducible exact only_ask _ (by simp [Event.resolving])
    | with_reducible exact only_ExceptionCheck (by simp [Event.resolving])
    | with_reducible exact only_modifyS _ (by simp))

theorem resolving_get_context_classloader :
    Steps (Only Event.resolving) get_context_classloader := by
  unfold get_context_classloader FindClass GetStaticMethodID CallStaticObjectMethod NewGlobalRef
  repeat (first
    | with_reducible apply only_bind
    | with_reducible apply steps_ite
    | intro _
    | with_reducible exact only_pure _
    | with_reducible exact only_getS
    | with_reducible exact only_jni _ (by simp [Event.resolving])
    | with_reducible exact only_ask _ (by simp [Event.resolving])
    | with_reducible exact only_ExceptionCheck (by simp [Event.resolving])
    | with_reducible exact only_modifyS _ (by simp))

theorem resolving_set_current_thread_context_classloader :
    Steps (Only Event.resolving) set_current_thread_context_classloader := by
  unfold set_current_thread_context_classloader CallStaticObjectMethod CallVoidMethod
  repeat (first
    | with_reducible exact resolving_get_java_lang_thread
    | with_reducible exact resolving_get_current_thread_method_id
    | with_reducible exact resolving_get_set_context_classloader_method_id
    | with_reducible exact resolving_get_context_classloader
    | with_reducible apply only_bind
    | with_reducible apply steps_ite
    | intro _
    | with_reducible exact only_pure _
    | with_reducible exact only_getS
    | with_reducible exact only_jni _ (by simp [Event.resolving])
    | with_reducible exact only_ask _ (by simp [Event.resolving])
    | with_reducible exact only_ExceptionCheck (by simp [Event.resolving]))

theorem resolving_init_context_classloader_javaclasses_and_methodids :
    Steps (Only Event.resolving) init_context_classloader_javaclasses_and_methodids := by
  unfold init_context_classloader_javaclasses_and_methodids
  repeat (first
    | with_reducible exact resolving_get_java_lang_string
    | with_reducible exact resolving_get_java_lang_thread
    | with_reducible exact resolving_get_current_thread_method_id
    | with_reducible exact resolving_get_set_context_classloader_method_id
    | with_reducible exact resolving_get_context_classloader
    | with_reducible apply only_bind
    | with_reducible apply steps_ite
    | intro _
    | with_reducible exact only_pure _)

theorem resolving_quiet (e : Event) (h : e.resolving) : e.quiet := by
  cases e <;> simp_all [Event.resolving, Event.quiet]

theorem quiet_notCallback (e : Event) (h : e.quiet) : e.notCallback := by
  cases e <;> simp_all [Event.quiet, Event.notCallback, Event.isCallback]

theorem quiet_lookupOk (method signature : String) (e : Event) (h : e.quiet) :
    lookupOk method signature e := by
  cases e <;> simp_all [Event.quiet, lookupOk]

theorem quiet_get_java_lang_string : Steps (Only Event.quiet) get_java_lang_string :=
  only_mono resolving_quiet resolving_get_java_lang_string

theorem quiet_set_current_thread_context_classloader :
    Steps (Only Event.quiet) set_current_thread_context_classloader :=
  only_mono resolving_quiet resolving_set_current_thread_context_classloader

theorem quiet_init_context_classloader_javaclasses_and_methodids :
    Steps (Only Event.quiet) init_context_classloader_javaclasses_and_methodids :=
  only_mono resolving_quiet resolving_init_context_classloader_javaclasses_and_methodids

theorem quiet_HAVE_EXCEPTION : Steps (Only Event.quiet) HAVE_EXCEPTION := by
  unfold HAVE_EXCEPTION ExceptionDescribe
  repeat (first
    | with_reducible apply only_bind
    | with_reducible apply steps_ite
    | intro _
    | with_reducible exact only_pure _
    | with_reducible exact only_emit _ (by simp [Event.quiet])
    | with_reducible exact only_ExceptionOccurred (by simp [Event.quiet])
    | with_reducible exact only_ExceptionClear (by simp [Event.quiet]))

theorem quiet_jl_callJava_fill (app_args : Option (List (Option String)))
    (jobjarrayargs : Nat) (n i : Nat) :
    Steps (Only Event.quiet) (jl_callJava_fill app_args jobjarrayargs n i) := by
  induction n generalizing i with
  | zero => unfold jl_callJava_fill; exact only_pure _
  | succ n ih =>
    unfold jl_callJava_fill NewStringUTF SetObjectArrayElement
    repeat (first
      | with_reducible exact ih _
      | with_reducible apply only_bind
      | with_reducible apply steps_ite
      | intro _
      | with_reducible exact only_pure _
      | with_reducible exact only_jni _ (by simp [Event.quiet])
      | with_reducible exact only_ExceptionCheck (by simp [Event.quiet]))

theorem adds_of_quiet (s t : JL) (h : Only Event.quiet s t) : Adds 0 s t := by
  obtain ⟨es, ht, hp⟩ := h
  refine ⟨es, ht, ?_⟩
  rw [Nat.le_zero, List.countP_eq_zero]
  intro e he
  have := quiet_notCallback e (hp e he)
  simp [Event.notCallback] at this
  simp [this]

theorem adds_mono {n k : Nat} (h : n ≤ k) (s t : JL) (hs : Adds n s t) : Adds k s t := by
  obtain ⟨es, ht, hp⟩ := hs
  exact ⟨es, ht, hp.trans h⟩

theorem adds_trans {n k : Nat} (a b c : JL) (h1 : Adds n a b) (h2 : Adds k b c) :
    Adds (n + k) a c := by
  obtain ⟨e1, t1, p1⟩ := h1
  obtain ⟨e2, t2, p2⟩ := h2
  refine ⟨e1 ++ e2, by rw [t2, t1, List.append_assoc], ?_⟩
  rw [List.countP_append]
  exact Nat.add_le_add p1 p2

theorem adds_newEvents {α : Type} {n : Nat} (m : JNI α) (s : JL) (h : Adds n s (m.run s).2) :
    (newEvents m s).countP Event.isCallback ≤ n := by
  obtain ⟨es, ht, hp⟩ := h
  unfold newEvents
  rw [ht, List.drop_left]
  exact hp

theorem only_newEvents {α : Type} {P : Event → Prop} (m : JNI α) (s : JL)
    (h : Only P s (m.run s).2) : ∀ e ∈ newEvents m s, P e := by
  obtain ⟨es, ht, hp⟩ := h
  unfold newEvents
  rw [ht, List.drop_left]
  exact hp

/-- A computation that adds no callback invocation keeps the count. -/
theorem hoare_quiet {α : Type} {m : JNI α} (h : Steps (Only Event.quiet) m) (n : Nat)
    (s0 : JL) : Hoare (Adds n s0) m (fun _ => Adds n s0) :=
  ⟨fun s hs => adds_trans s0 s _ hs (adds_of_quiet _ _ (h.out s))⟩

/-- A computation that adds at most one callback invocation. -/
theorem hoare_adds_one {α : Type} {m : JNI α} (h : Steps (Adds 1) m) (n : Nat) (s0 : JL) :
    Hoare (Adds n s0) m (fun _ => Adds (n + 1) s0) :=
  ⟨fun s hs => adds_trans s0 s _ hs (h.out s)⟩

theorem adds_one_emit (e : Event) : Steps (Adds 1) (emit e) :=
  ⟨fun _ => ⟨[e], rfl, by
    rw [List.countP_singleton]
    split <;> simp⟩⟩

theorem adds_one_pure {α : Type} (a : α) : Steps (Adds 1) (pure a : JNI α) :=
  ⟨fun _ => ⟨[], by simp, by simp⟩⟩

theorem adds_perform_error_callback (msg : Option String) (error_code : Int)
    (callback app_data : Nat) :
    Steps (Adds 1) (perform_error_callback msg error_code callback app_data) := by
  unfold perform_error_callback
  exact steps_ite _ (adds_one_emit _) (adds_one_pure _)

theorem adds_perform_exception_callback_report (msg : Option String)
    (error_code : Int) (jexception_msg : Nat) (exception_msg : Option String)
    (callback app_data : Nat) :
    Steps (Adds 1) (perform_exception_callback_report msg error_code jexception_msg
      exception_msg callback app_data) := by
  have one : ∀ e : Event, Steps (Adds 1) (emit e) := adds_one_emit
  have rel : Steps (Adds 0)
      (match exception_msg with
        | some m => ReleaseStringUTFChars jexception_msg m
        | none => pure ()) := by
    split
    · exact ⟨fun s => ⟨[_], rfl, by simp [Event.isCallback]⟩⟩
    · exact ⟨fun s => ⟨[], by simp, by simp⟩⟩
  unfold perform_exception_callback_report
  refine ⟨fun s => ?_⟩
  rw [run_bind]
  refine adds_trans (n := 1) (k := 0) s _ _ ?_ (rel.out _)
  refine Steps.out ?_ s
  refine steps_ite _ ?_ (adds_one_pure _)
  split
  · exact one _
  · split
    · exact one _
    · exact one _

theorem only_ask_then {P : Event → Prop} {α : Type} (e : Event) (h : P e) (g : Reply → α) :
    Steps (Only P) (ask e >>= fun r => pure (g r)) :=
  only_bind (only_ask e h) (fun _ => only_pure _)

theorem only_jni_then {P : Event → Prop} {α : Type} (e : Event) (h : P e) (g : Reply → α) :
    Steps (Only P) (jni e >>= fun r => pure (g r)) :=
  only_bind (only_jni e h) (fun _ => only_pure _)

theorem quiet_dlopen (path : String) : Steps (Only Event.quiet) (dlopen path) :=
  only_ask_then _ (by simp [Event.quiet]) _

theorem quiet_dlsym (handle : Nat) (symbol : String) :
    Steps (Only Event.quiet) (dlsym handle symbol) :=
  only_ask_then _ (by simp [Event.quiet]) _

theorem quiet_calloc (nmemb : Int) : Steps (Only Event.quiet) (calloc nmemb) :=
  only_ask_then _ (by simp [Event.quiet]) _

theorem quiet_free (p : Nat) : Steps (Only Event.quiet) (free p) :=
  only_emit _ (by simp [Event.quiet])

theorem quiet_AttachCurrentThread (vm : Nat) :
    Steps (Only Event.quiet) (AttachCurrentThread vm) :=
  only_ask_then _ (by simp [Event.quiet]) _

theorem quiet_DetachCurrentThread (vm : Nat) :
    Steps (Only Event.quiet) (DetachCurrentThread vm) :=
  only_ask_then _ (by simp [Event.quiet]) _

theorem quiet_DestroyJavaVM (vm : Nat) : Steps (Only Event.quiet) (DestroyJavaVM vm) :=
  only_ask_then _ (by simp [Event.quiet]) _

theorem quiet_FindClass (name : String) : Steps (Only Event.quiet) (FindClass name) :=
  only_jni_then _ (by simp [Event.quiet]) _

theorem quiet_GetMethodID (cls : Nat) (name sig : String) :
    Steps (Only Event.quiet) (GetMethodID cls name sig) :=
  only_jni_then _ (by simp [Event.quiet]) _

theorem quiet_CallObjectMethod (obj mid : Nat) :
    Steps (Only Event.quiet) (CallObjectMethod obj mid) :=
  only_jni_then _ (by simp [Event.quiet]) _

theorem quiet_CallStaticVoidMethod (cls mid arr : Nat) :
    Steps (Only Event.quiet) (CallStaticVoidMethod cls mid arr) :=
  only_bind (only_jni _ (by simp [Event.quiet])) (fun _ => only_pure _)

theorem quiet_NewObjectArray (len : Int) (cls : Nat) :
    Steps (Only Event.quiet) (NewObjectArray len cls) :=
  only_jni_then _ (by simp [Event.quiet]) _

theorem quiet_GetStringUTFChars (str : Nat) : Steps (Only Event.quiet) (GetStringUTFChars str) :=
  only_jni_then _ (by simp [Event.quiet]) _

theorem quiet_PushLocalFrame (capacity : Int) :
    Steps (Only Event.quiet) (PushLocalFrame capacity) :=
  only_jni_then _ (by simp [Event.quiet]) _

theorem quiet_PopLocalFrame : Steps (Only Event.quiet) PopLocalFrame :=
  only_emit _ (by simp [Event.quiet])

theorem quiet_ExceptionOccurred : Steps (Only Event.quiet) ExceptionOccurred :=
  only_ExceptionOccurred (by simp [Event.quiet])

theorem quiet_ExceptionDescribe : Steps (Only Event.quiet) ExceptionDescribe :=
  only_emit _ (by simp [Event.quiet])

theorem quiet_ExceptionClear : Steps (Only Event.quiet) ExceptionClear :=
  only_ExceptionClear (by simp [Event.quiet])

theorem quiet_modifyS (f : JL → JL) (h : ∀ s, (f s).trace = s.trace) :
    Steps (Only Event.quiet) (modifyS f) := only_modifyS f h

theorem quiet_cleanup_java_references : Steps (Only Event.quiet) cleanup_java_references :=
  only_modifyS _ (fun _ => rfl)

theorem quiet_set_jvm (_jvm : Nat) : Steps (Only Event.quiet) (set_jvm _jvm) :=
  only_modifyS _ (fun _ => rfl)

theorem quiet_jl_freejvm : Steps (Only Event.quiet) jl_freejvm := by
  unfold jl_freejvm
  refine only_bind (quiet_set_jvm 0) (fun _ => ?_)
  refine only_bind only_getS (fun _ => ?_)
  refine only_bind (quiet_free _) (fun _ => ?_)
  refine only_bind (only_modifyS _ (fun _ => rfl)) (fun _ => ?_)
  refine only_bind only_getS (fun _ => ?_)
  refine only_bind (quiet_free _) (fun _ => ?_)
  exact only_modifyS _ (fun _ => rfl)

/-- A computation that does not invoke the callback keeps the count. -/
theorem hoare_silent {α : Type} {m : JNI α} (h : Steps (Only Event.notCallback) m) (n : Nat)
    (s0 : JL) : Hoare (Adds n s0) m (fun _ => Adds n s0) := by
  refine ⟨fun s hs => ?_⟩
  obtain ⟨es, ht, hp⟩ := h.out s
  have h0 : Adds 0 s (m.run s).2 := by
    refine ⟨es, ht, ?_⟩
    rw [Nat.le_zero, List.countP_eq_zero]
    intro e he
    have := hp e he
    simp [Event.notCallback] at this
    simp [this]
  exact adds_trans s0 s _ hs h0

theorem adds_bind_quiet {α β : Type} {n : Nat} {m : JNI α} {f : α → JNI β}
    (hm : Steps (Only Event.quiet) m) (hf : ∀ a, Steps (Adds n) (f a)) :
    Steps (Adds n) (m >>= f) :=
  ⟨fun s => by
    have h : Adds (0 + n) s ((f (m.run s).1).run (m.run s).2).2 :=
      adds_trans s (m.run s).2 _ (adds_of_quiet _ _ (hm.out s))
        ((hf (m.run s).1).out (m.run s).2)
    rw [Nat.zero_add] at h
    exact h⟩

theorem adds_perform_exception_callback (msg : Option String) (error_code : Int)
    (jexception : Nat) (callback app_data : Nat) :
    Steps (Adds 1)
      (perform_exception_callback msg error_code jexception callback app_data) := by
  unfold perform_exception_callback
  refine adds_bind_quiet (quiet_FindClass _) (fun _ => ?_)
  refine adds_bind_quiet quiet_HAVE_EXCEPTION (fun _ => steps_ite _ (adds_one_pure _) ?_)
  refine adds_bind_quiet (quiet_GetMethodID _ _ _) (fun _ => ?_)
  refine adds_bind_quiet quiet_HAVE_EXCEPTION (fun _ => steps_ite _ (adds_one_pure _) ?_)
  refine adds_bind_quiet (quiet_CallObjectMethod _ _) (fun _ => ?_)
  refine adds_bind_quiet quiet_HAVE_EXCEPTION (fun _ => steps_ite _ (adds_one_pure _) ?_)
  refine steps_ite _ ?_ (adds_perform_exception_callback_report _ _ _ _ _ _)
  refine adds_bind_quiet (quiet_GetStringUTFChars _) (fun _ => ?_)
  exact adds_bind_quiet quiet_HAVE_EXCEPTION (fun _ => steps_ite _ (adds_one_pure _)
    (adds_perform_exception_callback_report _ _ _ _ _ _))

/-- From the label `jl_calljava_return` on, the callback is invoked at most
once before `DetachCurrentThread` and once more only when the detach fails,
in which case `JL_CANNOTDETACHCURRTHREAD` is returned. -/
theorem adds_jl_calljava_return (_jvm : Nat) (result : Int) (errmsg : MsgPtr)
    (msgbuf : String) (callback app_data : Nat) (s0 : JL) :
    Hoare (Adds 0 s0) (jl_calljava_return _jvm result errmsg msgbuf callback app_data)
      (fun r t => Adds (if r = JL_CANNOTDETACHCURRTHREAD then 2 else 1) s0 t) := by
  unfold jl_calljava_return
  refine hoare_bind (hoare_quiet quiet_ExceptionOccurred 0 s0) (fun jexception => ?_)
  refine hoare_bind (hoare_adds_one ?_ 0 s0) (fun _ => ?_)
  · refine steps_ite _ ?_ (steps_ite _ (adds_perform_error_callback _ _ _ _) (adds_one_pure _))
    refine adds_bind_quiet quiet_ExceptionDescribe (fun _ => ?_)
    exact adds_bind_quiet quiet_ExceptionClear
      (fun _ => adds_perform_exception_callback _ _ _ _ _)
  refine hoare_bind (hoare_quiet quiet_PopLocalFrame _ s0) (fun _ => ?_)
  refine hoare_bind (hoare_quiet (quiet_DetachCurrentThread _) _ s0) (fun r => ?_)
  refine hoare_ite _ (fun _ => ?_) (fun hr => ?_)
  · refine hoare_bind (hoare_adds_one (adds_perform_error_callback _ _ _ _) _ s0) (fun _ => ?_)
    exact hoare_pure (fun s hs => by simpa using hs)
  · refine hoare_pure (fun s hs => ?_)
    have h0 : r = 0 := not_not.mp hr
    subst h0
    simpa [JL_CANNOTDETACHCURRTHREAD] using hs

theorem silent_of_quiet {α : Type} {m : JNI α} (h : Steps (Only Event.quiet) m) :
    Steps (Only Event.notCallback) m := only_mono quiet_notCallback h

theorem silent_GetStaticMethodID (cls : Nat) (name sig : String) :
    Steps (Only Event.notCallback) (GetStaticMethodID cls name sig) :=
  only_jni_then _ (by simp [Event.notCallback, Event.isCallback]) _

theorem quiet_get_jvm_destroyed : Steps (Only Event.quiet) get_jvm_destroyed :=
  only_bind only_getS (fun _ => only_pure _)

theorem quiet_get_jvm : Steps (Only Event.quiet) get_jvm :=
  only_bind only_getS (fun _ => only_pure _)

/-- A report to the callback followed by the return of a code other than
`JL_CANNOTDETACHCURRTHREAD`. -/
theorem adds_early_return (msg : Option String) (error_code code : Int)
    (callback app_data : Nat) (s0 : JL) (h : code ≠ JL_CANNOTDETACHCURRTHREAD) :
    Hoare (Adds 0 s0)
      (perform_error_callback msg error_code callback app_data >>= fun _ => pure code)
      (fun r t => Adds (if r = JL_CANNOTDETACHCURRTHREAD then 2 else 1) s0 t) := by
  refine hoare_bind (hoare_adds_one (adds_perform_error_callback _ _ _ _) 0 s0) (fun _ => ?_)
  exact hoare_pure (fun s hs => by simpa [h] using hs)

theorem adds_jl_callJava_dispatch (_jvm : Nat) (javaclass method signature : String)
    (app_args : Option (List (Option String))) (app_args_len : Int)
    (callback app_data : Nat) (s0 : JL) :
    Hoare (Adds 0 s0)
      (jl_callJava_dispatch _jvm javaclass method signature app_args app_args_len
        callback app_data)
      (fun r t => Adds (if r = JL_CANNOTDETACHCURRTHREAD then 2 else 1) s0 t) := by
  unfold jl_callJava_dispatch
  refine hoare_bind (hoare_quiet (quiet_AttachCurrentThread _) 0 s0) (fun r => ?_)
  refine hoare_ite_any _ (adds_early_return _ _ _ _ _ s0 (by decide)) ?_
  refine hoare_bind (hoare_quiet (quiet_PushLocalFrame _) 0 s0) (fun pushed => ?_)
  refine hoare_bind (hoare_quiet quiet_set_current_thread_context_classloader 0 s0)
    (fun _ => ?_)
  refine hoare_ite_any _ (adds_jl_calljava_return _ _ _ _ _ _ s0) ?_
  refine hoare_bind (hoare_quiet (quiet_FindClass _) 0 s0) (fun cls => ?_)
  refine hoare_ite_any _ (adds_jl_calljava_return _ _ _ _ _ _ s0) ?_
  refine hoare_bind (hoare_silent (silent_GetStaticMethodID _ _ _) 0 s0) (fun mid => ?_)
  refine hoare_ite_any _ (adds_jl_calljava_return _ _ _ _ _ _ s0) ?_
  refine hoare_bind (hoare_quiet quiet_get_java_lang_string 0 s0) (fun strcls => ?_)
  refine hoare_bind (hoare_quiet (quiet_NewObjectArray _ _) 0 s0) (fun arr => ?_)
  refine hoare_ite_any _ (adds_jl_calljava_return _ _ _ _ _ _ s0) ?_
  refine hoare_bind (hoare_quiet (quiet_jl_callJava_fill _ _ _ _) 0 s0) (fun filled => ?_)
  split
  · exact adds_jl_calljava_return _ _ _ _ _ _ s0
  · refine hoare_bind (hoare_quiet (quiet_CallStaticVoidMethod _ _ _) 0 s0) (fun _ => ?_)
    exact adds_jl_calljava_return _ _ _ _ _ _ s0

/-- During `jl_callJava` the callback is invoked at most once, or at most
twice when the call returns `JL_CANNOTDETACHCURRTHREAD`. -/
theorem adds_jl_callJava (javaclass method signature : Option String)
    (app_args : Option (List (Option String))) (app_args_len : Int)
    (callback app_data : Nat) (s0 : JL) :
    Hoare (Adds 0 s0)
      (jl_callJava javaclass method signature app_args app_args_len callback app_data)
      (fun r t => Adds (if r = JL_CANNOTDETACHCURRTHREAD then 2 else 1) s0 t) := by
  unfold jl_callJava
  refine hoare_bind (hoare_quiet quiet_get_jvm_destroyed 0 s0) (fun _ => ?_)
  refine hoare_ite_any _ (adds_early_return _ _ _ _ _ s0 (by decide)) ?_
  refine hoare_bind (hoare_quiet quiet_get_jvm 0 s0) (fun _jvm => ?_)
  refine hoare_ite_any _ (adds_early_return _ _ _ _ _ s0 (by decide)) ?_
  refine hoare_ite_any _ (adds_early_return _ _ _ _ _ s0 (by decide)) ?_
  refine hoare_ite_any _ (adds_early_return _ _ _ _ _ s0 (by decide)) ?_
  refine hoare_ite_any _ (adds_jl_callJava_dispatch _ _ _ _ _ _ _ _ s0) ?_
  exact hoare_ite_any _ (adds_early_return _ _ _ _ _ s0 (by decide))
    (adds_jl_callJava_dispatch _ _ _ _ _ _ _ _ s0)

/-- A report to the callback followed by the return of a code other than
`JL_OK`. -/
theorem adds_failed_return (msg : Option String) (error_code code : Int)
    (callback app_data : Nat) (s0 : JL) (h : code ≠ JL_OK) :
    Hoare (Adds 0 s0)
      (perform_error_callback msg error_code callback app_data >>= fun _ => pure code)
      (fun r t => Adds (if r = JL_OK then 0 else 1) s0 t) := by
  refine hoare_bind (hoare_adds_one (adds_perform_error_callback _ _ _ _) 0 s0) (fun _ => ?_)
  exact hoare_pure (fun s hs => by simpa [h] using hs)

theorem adds_jl_createJavaVM_finish (result : Int) (msgbuf : String)
    (_jvm callback app_data : Nat) (s0 : JL) :
    Hoare (Adds 0 s0) (jl_createJavaVM_finish result msgbuf _jvm callback app_data)
      (fun r t => Adds (if r = JL_OK then 0 else 1) s0 t) := by
  unfold jl_createJavaVM_finish
  refine hoare_ite_any _ ?_ ?_
  · refine hoare_bind (hoare_adds_one (adds_perform_error_callback _ _ _ _) 0 s0) (fun _ => ?_)
    refine hoare_bind (hoare_quiet only_getS _ s0) (fun _ => ?_)
    refine hoare_bind (hoare_quiet (quiet_free _) _ s0) (fun _ => ?_)
    refine hoare_bind (hoare_quiet only_getS _ s0) (fun _ => ?_)
    refine hoare_bind (hoare_quiet (quiet_free _) _ s0) (fun _ => ?_)
    refine hoare_bind (hoare_quiet (quiet_modifyS _ (by intro _; rfl)) _ s0) (fun _ => ?_)
    refine hoare_bind (hoare_quiet (quiet_modifyS _ (by intro _; rfl)) _ s0) (fun _ => ?_)
    exact hoare_pure (fun s hs => by simpa [JL_CANNOTCREATEJVM, JL_OK] using hs)
  · refine hoare_bind (hoare_quiet (quiet_set_jvm _) _ s0) (fun _ => ?_)
    exact hoare_pure (fun s hs => by simpa using hs)

theorem adds_jl_createJavaVM_launch (jvm_args : Option (List (Option String)))
    (jvm_args_len : Int) (callback app_data : Nat) (s0 : JL) :
    Hoare (Adds 0 s0) (jl_createJavaVM_launch jvm_args jvm_args_len callback app_data)
      (fun r t => Adds (if r = JL_OK then 0 else 1) s0 t) := by
  unfold jl_createJavaVM_launch
  refine hoare_bind (hoare_quiet (quiet_calloc _) 0 s0) (fun p => ?_)
  refine hoare_bind (hoare_quiet (quiet_modifyS _ (by intro _; rfl)) 0 s0) (fun _ => ?_)
  refine hoare_ite_any _ ?_ ?_
  · refine hoare_bind (hoare_adds_one (adds_perform_error_callback _ _ _ _) 0 s0) (fun _ => ?_)
    refine hoare_bind (hoare_quiet only_getS _ s0) (fun _ => ?_)
    refine hoare_bind (hoare_quiet (quiet_free _) _ s0) (fun _ => ?_)
    exact hoare_pure (fun s hs => by simpa [JL_CANNOTCREATEVMINITARGS, JL_OK] using hs)
  refine hoare_bind (hoare_quiet (only_ask _ (by simp [Event.quiet])) 0 s0) (fun r => ?_)
  refine hoare_ite_any _ ?_ (adds_jl_createJavaVM_finish _ _ _ _ _ s0)
  refine hoare_bind
    (hoare_quiet quiet_init_context_classloader_javaclasses_and_methodids 0 s0)
    (fun result => ?_)
  refine hoare_ite_any _ ?_ (adds_jl_createJavaVM_finish _ _ _ _ _ s0)
  refine hoare_bind (hoare_quiet quiet_ExceptionOccurred 0 s0) (fun jexception => ?_)
  refine hoare_bind (hoare_quiet ?_ 0 s0) (fun _ => ?_)
  · exact steps_ite _ (only_bind quiet_ExceptionDescribe (fun _ => quiet_ExceptionClear))
      (only_pure _)
  refine hoare_bind (hoare_quiet (quiet_DetachCurrentThread _) 0 s0) (fun _ => ?_)
  refine hoare_bind (hoare_quiet (quiet_DestroyJavaVM _) 0 s0) (fun _ => ?_)
  refine hoare_bind (hoare_quiet (quiet_modifyS _ (by intro _; rfl)) 0 s0) (fun _ => ?_)
  refine hoare_bind (hoare_quiet quiet_cleanup_java_references 0 s0) (fun _ => ?_)
  exact adds_jl_createJavaVM_finish _ _ _ _ _ s0

/-- During `jl_createJavaVM` the callback is invoked at most once, and not at
all when the call returns `JL_OK`. -/
theorem adds_jl_createJavaVM (b : Build) (jvm_args : Option (List (Option String)))
    (jvm_args_len : Int) (callback app_data : Nat) (s0 : JL) :
    Hoare (Adds 0 s0) (jl_createJavaVM b jvm_args jvm_args_len callback app_data)
      (fun r t => Adds (if r = JL_OK then 0 else 1) s0 t) := by
  unfold jl_createJavaVM
  refine hoare_bind (hoare_quiet only_getS 0 s0) (fun _ => ?_)
  refine hoare_ite_any _ (adds_failed_return _ _ _ _ _ s0 (by decide)) ?_
  refine hoare_bind (hoare_quiet only_getS 0 s0) (fun _ => ?_)
  refine hoare_ite_any _ (adds_failed_return _ _ _ _ _ s0 (by decide)) ?_
  refine hoare_bind (hoare_quiet only_getS 0 s0) (fun _ => ?_)
  refine hoare_ite_any _ (hoare_pure (fun s hs => by simpa using hs)) ?_
  refine hoare_ite_any _ (adds_failed_return _ _ _ _ _ s0 (by decide)) ?_
  refine hoare_ite_any _ ?_ (adds_jl_createJavaVM_launch _ _ _ _ s0)
  refine hoare_bind (hoare_quiet (quiet_calloc _) 0 s0) (fun p => ?_)
  refine hoare_bind (hoare_quiet (quiet_modifyS _ (by intro _; rfl)) 0 s0) (fun _ => ?_)
  exact hoare_ite_any _ (adds_failed_return _ _ _ _ _ s0 (by decide))
    (adds_jl_createJavaVM_launch _ _ _ _ s0)

/-- What `jl_destroyJavaVM` does on a live VM: it detaches, reports a failed
detach to a present callback, destroys the VM, frees the two allocations and
returns what `DestroyJavaVM` returned. -/
theorem jl_destroyJavaVM_live_trace (callback app_data : Nat) (s : JL)
    (h : s.jvm_destroyed = false) (hj : s.jvm ≠ 0) :
    ((jl_destroyJavaVM callback app_data).run s).1 = (s.script.tail.headD {}).ret ∧
    ((jl_destroyJavaVM callback app_data).run s).2.trace =
      s.trace ++ [Event.DetachCurrentThread s.jvm] ++
        (if (s.script.headD {}).ret ≠ JNI_OK ∧ callback ≠ 0 then
          [Event.callback callback
            (some (snprintf 256 ("jl_destroyJavaVM: Cannot detach current thread, error = " ++
              fmt_d (s.script.headD {}).ret ++ ".\n")))
            JL_CANNOTDETACHCURRTHREAD app_data]
         else []) ++
        [Event.DestroyJavaVM s.jvm, Event.free s.jvmOptions, Event.free s.vmInitArgs] := by
  unfold jl_destroyJavaVM jl_freejvm set_jvm cleanup_java_references free perform_error_callback
    DetachCurrentThread DestroyJavaVM
  simp only [run_bind, run_getS, run_ite, run_pure, run_modifyS, run_ask, run_emit]
  simp only [h, hj]
  split_ifs <;> first | contradiction | simp_all

/-- C11, as the code has it: during one `jl_createJavaVM` or
`jl_destroyJavaVM` call the callback is invoked at most once, in every state
and whatever the environment answers.  During one `jl_callJava` call it is
invoked at most once as well, unless the call returns
`JL_CANNOTDETACHCURRTHREAD`: a failed `DetachCurrentThread` is reported by an
invocation of its own, which makes at most two. -/
theorem C11_callback_count (b : Build) (s : JL)
    (jvm_args : Option (List (Option String))) (jvm_args_len : Int)
    (javaclass method signature : Option String)
    (app_args : Option (List (Option String))) (app_args_len : Int)
    (callback app_data : Nat) :
    (newEvents (jl_createJavaVM b jvm_args jvm_args_len callback app_data) s).countP
      Event.isCallback ≤ 1 ∧
    (newEvents (jl_destroyJavaVM callback app_data) s).countP Event.isCallback ≤ 1 ∧
    (newEvents (jl_callJava javaclass method signature app_args app_args_len callback
      app_data) s).countP Event.isCallback ≤ 2 ∧
    (((jl_callJava javaclass method signature app_args app_args_len callback
        app_data).run s).1 ≠ JL_CANNOTDETACHCURRTHREAD →
      (newEvents (jl_callJava javaclass method signature app_args app_args_len callback
        app_data) s).countP Event.isCallback ≤ 1) := by
  have hc := (adds_jl_createJavaVM b jvm_args jvm_args_len callback app_data s).out s
    ⟨[], by simp, by simp⟩
  have hj := (adds_jl_callJava javaclass method signature app_args app_args_len callback
    app_data s).out s ⟨[], by simp, by simp⟩
  refine ⟨adds_newEvents _ s (adds_mono ?_ _ _ hc), ?_,
    adds_newEvents _ s (adds_mono ?_ _ _ hj), fun hne => ?_⟩
  · split <;> decide
  · unfold newEvents
    cases hd : s.jvm_destroyed with
    | true => simp [jl_destroyJavaVM_destroyed callback app_data s hd]
    | false =>
      by_cases hz : s.jvm = 0
      · simp [jl_destroyJavaVM_not_created callback app_data s hd hz]
      · rw [(jl_destroyJavaVM_live_trace callback app_data s hd hz).2]
        simp only [List.append_assoc, List.drop_left]
        split_ifs <;> simp [List.countP_cons, Event.isCallback]
  · split <;> decide
  · rw [if_neg hne] at hj
    exact adds_newEvents _ s hj

/-- Witness of C11: a `jl_callJava` on the live VM of a static build that
fails to find the class and detaches successfully invokes the callback
once. -/
theorem C11_callback_count_witness :
    ((jl_callJava (some "com/example/Main") (some "main") (some "([Ljava/lang/String;)V")
        (some [some "a", some "b"]) 2 7 0).run
      (stateAfter staticBuild (scriptCreateOk ++ scriptClassMissing)
        [.create none 0 7 0])).1 ≠ JL_CANNOTDETACHCURRTHREAD ∧
    (newEvents (jl_callJava (some "com/example/Main") (some "main")
        (some "([Ljava/lang/String;)V") (some [some "a", some "b"]) 2 7 0)
      (stateAfter staticBuild (scriptCreateOk ++ scriptClassMissing)
        [.create none 0 7 0])).countP Event.isCallback ≤ 1 :=
  ⟨by decide,
   (C11_callback_count staticBuild
     (stateAfter staticBuild (scriptCreateOk ++ scriptClassMissing) [.create none 0 7 0])
     none 0 (some "com/example/Main") (some "main") (some "([Ljava/lang/String;)V")
     (some [some "a", some "b"]) 2 7 0).2.2.2 (by decide)⟩

/-- Counterexample to C11 as stated: on a live VM `FindClass` fails for the
target class and `DetachCurrentThread` fails afterwards.  The callback is
invoked twice during the one `jl_callJava` call, first with
`JL_CANNOTFINDCLASS`, then for the failed detach. -/
theorem C11_counterexample :
    (newEvents (jl_callJava (some "com/example/Main") (some "main")
        (some "([Ljava/lang/String;)V") (some [some "a", some "b"]) 2 7 0)
      (stateAfter staticBuild (scriptCreateOk ++ scriptClassMissingDetachFails)
        [.create none 0 7 0])).filter Event.isCallback =
      [Event.callback 7 (some "java.lang.NoClassDefFoundError: com/example/Main")
         JL_CANNOTFINDCLASS 0,
       Event.callback 7 (some "jl_callJava: Cannot detach current thread error = -1\n")
         (-1) 0] ∧
    ¬ ((newEvents (jl_callJava (some "com/example/Main") (some "main")
        (some "([Ljava/lang/String;)V") (some [some "a", some "b"]) 2 7 0)
      (stateAfter staticBuild (scriptCreateOk ++ scriptClassMissingDetachFails)
        [.create none 0 7 0])).countP Event.isCallback ≤ 1) := by
  decide

/-- C12, as the code has it: a `jl_createJavaVM` call that returns `JL_OK`
has not invoked the callback.  A `jl_destroyJavaVM` call that returns `JL_OK`
has not invoked it either, unless `DetachCurrentThread` failed: that failure
is reported once to a present callback with `JL_CANNOTDETACHCURRTHREAD`, and
the call goes on to destroy the VM and returns what `DestroyJavaVM`
returned. -/
theorem C12_callback_on_success (b : Build) (s : JL)
    (jvm_args : Option (List (Option String))) (jvm_args_len : Int)
    (callback app_data : Nat) :
    (((jl_createJavaVM b jvm_args jvm_args_len callback app_data).run s).1 = JL_OK →
      (newEvents (jl_createJavaVM b jvm_args jvm_args_len callback app_data) s).countP
        Event.isCallback = 0) ∧
    (((jl_destroyJavaVM callback app_data).run s).1 = JL_OK →
      (newEvents (jl_destroyJavaVM callback app_data) s).filter Event.isCallback =
        if (s.script.headD {}).ret ≠ JNI_OK ∧ callback ≠ 0 then
          [Event.callback callback
            (some (snprintf 256 ("jl_destroyJavaVM: Cannot detach current thread, error = " ++
              fmt_d (s.script.headD {}).ret ++ ".\n")))
            JL_CANNOTDETACHCURRTHREAD app_data]
        else []) := by
  constructor
  · intro hok
    have hc := (adds_jl_createJavaVM b jvm_args jvm_args_len callback app_data s).out s
      ⟨[], by simp, by simp⟩
    rw [if_pos hok] at hc
    exact Nat.le_zero.mp (adds_newEvents _ s hc)
  · intro hok
    cases hd : s.jvm_destroyed with
    | true =>
      rw [jl_destroyJavaVM_destroyed callback app_data s hd] at hok
      exact absurd (show JL_JVMISDESTROYED = JL_OK from hok) (by decide)
    | false =>
      by_cases hz : s.jvm = 0
      · rw [jl_destroyJavaVM_not_created callback app_data s hd hz] at hok
        exact absurd (show JL_CREATEJAVAVMNOTCALLED = JL_OK from hok) (by decide)
      · unfold newEvents
        rw [(jl_destroyJavaVM_live_trace callback app_data s hd hz).2]
        simp only [List.append_assoc, List.drop_left]
        split_ifs <;> simp [List.filter_cons, Event.isCallback]

/-- Witness of C12: a successful `jl_createJavaVM` and a successful
`jl_destroyJavaVM` in a static build, neither of which invokes the
callback. -/
theorem C12_callback_on_success_witness :
    (((jl_createJavaVM staticBuild none 0 7 0).run (JL.start staticBuild scriptCreateOk)).1
        = JL_OK ∧
      ((jl_destroyJavaVM 7 0).run
        (stateAfter staticBuild scriptCreateOk [.create none 0 7 0])).1 = JL_OK) ∧
    (newEvents (jl_createJavaVM staticBuild none 0 7 0)
      (JL.start staticBuild scriptCreateOk)).countP Event.isCallback = 0 ∧
    (newEvents (jl_destroyJavaVM 7 0)
      (stateAfter staticBuild scriptCreateOk [.create none 0 7 0])).filter Event.isCallback =
        if (((stateAfter staticBuild scriptCreateOk [.create none 0 7 0]).script.headD {}).ret
            ≠ JNI_OK ∧ (7 : Nat) ≠ 0) then
          [Event.callback 7
            (some (snprintf 256 ("jl_destroyJavaVM: Cannot detach current thread, error = " ++
              fmt_d ((stateAfter staticBuild scriptCreateOk
                [.create none 0 7 0]).script.headD {}).ret ++ ".\n")))
            JL_CANNOTDETACHCURRTHREAD 0]
        else [] :=
  ⟨by decide,
   (C12_callback_on_success staticBuild (JL.start staticBuild scriptCreateOk) none 0 7 0).1
     (by decide),
   (C12_callback_on_success staticBuild
     (stateAfter staticBuild scriptCreateOk [.create none 0 7 0]) none 0 7 0).2 (by decide)⟩

/-- Counterexample to C12 as stated: on a live VM `DetachCurrentThread` fails
and `DestroyJavaVM` succeeds.  `jl_destroyJavaVM` returns `JL_OK` and has
invoked the callback. -/
theorem C12_counterexample :
    ((jl_destroyJavaVM 7 0).run
      (stateAfter staticBuild (scriptCreateOk ++ scriptDetachFailsDestroyOk)
        [.create none 0 7 0])).1 = JL_OK ∧
    (newEvents (jl_destroyJavaVM 7 0)
      (stateAfter staticBuild (scriptCreateOk ++ scriptDetachFailsDestroyOk)
        [.create none 0 7 0])).filter Event.isCallback =
      [Event.callback 7
        (some "jl_destroyJavaVM: Cannot detach current thread, error = -1.\n")
        JL_CANNOTDETACHCURRTHREAD 0] := by
  decide

/-! ### The signature `jl_callJava` looks the method up with -/

theorem lookup_perform_error_callback (method signature : String) (msg : Option String)
    (error_code : Int) (callback app_data : Nat) :
    Steps (Only (lookupOk method signature))
      (perform_error_callback msg error_code callback app_data) := by
  unfold perform_error_callback
  exact steps_ite _ (only_emit _ (by simp [lookupOk])) (only_pure _)

theorem lookup_perform_exception_callback_report (method signature : String)
    (msg : Option String) (error_code : Int) (jexception_msg : Nat)
    (exception_msg : Option String) (callback app_data : Nat) :
    Steps (Only (lookupOk method signature))
      (perform_exception_callback_report msg error_code jexception_msg exception_msg
        callback app_data) := by
  unfold perform_exception_callback_report ReleaseStringUTFChars
  refine only_bind ?_ (fun _ => ?_)
  · refine steps_ite _ ?_ (only_pure _)
    split
    · exact only_emit _ (by simp [lookupOk])
    · split
      · exact only_emit _ (by simp [lookupOk])
      · exact only_emit _ (by simp [lookupOk])
  · split
    · exact only_emit _ (by simp [lookupOk])
    · exact only_pure _

theorem lookup_of_quiet (method signature : String) {α : Type} {m : JNI α}
    (h : Steps (Only Event.quiet) m) : Steps (Only (lookupOk method signature)) m :=
  only_mono (quiet_lookupOk method signature) h

theorem lookup_perform_exception_callback (method signature : String) (msg : Option String)
    (error_code : Int) (jexception : Nat) (callback app_data : Nat) :
    Steps (Only (lookupOk method signature))
      (perform_exception_callback msg error_code jexception callback app_data) := by
  have q := @lookup_of_quiet method signature
  unfold perform_exception_callback
  refine only_bind (q (quiet_FindClass _)) (fun _ => ?_)
  refine only_bind (q quiet_HAVE_EXCEPTION) (fun _ => steps_ite _ (only_pure _) ?_)
  refine only_bind (q (quiet_GetMethodID _ _ _)) (fun _ => ?_)
  refine only_bind (q quiet_HAVE_EXCEPTION) (fun _ => steps_ite _ (only_pure _) ?_)
  refine only_bind (q (quiet_CallObjectMethod _ _)) (fun _ => ?_)
  refine only_bind (q quiet_HAVE_EXCEPTION) (fun _ => steps_ite _ (only_pure _) ?_)
  refine steps_ite _ ?_ (lookup_perform_exception_callback_report _ _ _ _ _ _ _ _)
  refine only_bind (q (quiet_GetStringUTFChars _)) (fun _ => ?_)
  exact only_bind (q quiet_HAVE_EXCEPTION) (fun _ => steps_ite _ (only_pure _)
    (lookup_perform_exception_callback_report _ _ _ _ _ _ _ _))

theorem lookup_jl_calljava_return (method signature : String) (_jvm : Nat) (result : Int)
    (errmsg : MsgPtr) (msgbuf : String) (callback app_data : Nat) :
    Steps (Only (lookupOk method signature))
      (jl_calljava_return _jvm result errmsg msgbuf callback app_data) := by
  have q := @lookup_of_quiet method signature
  unfold jl_calljava_return
  refine only_bind (q quiet_ExceptionOccurred) (fun _ => ?_)
  refine only_bind ?_ (fun _ => ?_)
  · refine steps_ite _ ?_
      (steps_ite _ (lookup_perform_error_callback _ _ _ _ _ _) (only_pure _))
    refine only_bind (q quiet_ExceptionDescribe) (fun _ => ?_)
    exact only_bind (q quiet_ExceptionClear)
      (fun _ => lookup_perform_exception_callback _ _ _ _ _ _ _)
  refine only_bind (q quiet_PopLocalFrame) (fun _ => ?_)
  refine only_bind (q (quiet_DetachCurrentThread _)) (fun _ => ?_)
  refine steps_ite _ ?_ (only_pure _)
  exact only_bind (lookup_perform_error_callback _ _ _ _ _ _) (fun _ => only_pure _)

/-- Every `GetStaticMethodID` of the dispatch part of `jl_callJava` looks up
`method` with the signature it was given, or is one of the two lookups of the
launcher itself. -/
theorem lookup_jl_callJava_dispatch (_jvm : Nat) (javaclass method signature : String)
    (app_args : Option (List (Option String))) (app_args_len : Int)
    (callback app_data : Nat) :
    Steps (Only (lookupOk method signature))
      (jl_callJava_dispatch _jvm javaclass method signature app_args app_args_len
        callback app_data) := by
  have q := @lookup_of_quiet method signature
  have fin := lookup_jl_calljava_return method signature
  unfold jl_callJava_dispatch
  refine only_bind (q (quiet_AttachCurrentThread _)) (fun _ => ?_)
  refine steps_ite _ ?_ ?_
  · exact only_bind (lookup_perform_error_callback _ _ _ _ _ _) (fun _ => only_pure _)
  refine only_bind (q (quiet_PushLocalFrame _)) (fun _ => ?_)
  refine only_bind (q quiet_set_current_thread_context_classloader) (fun _ => ?_)
  refine steps_ite _ (fin _ _ _ _ _ _) ?_
  refine only_bind (q (quiet_FindClass _)) (fun _ => ?_)
  refine steps_ite _ (fin _ _ _ _ _ _) ?_
  refine only_bind (only_jni_then _ (by simp [lookupOk]) _) (fun _ => ?_)
  refine steps_ite _ (fin _ _ _ _ _ _) ?_
  refine only_bind (q quiet_get_java_lang_string) (fun _ => ?_)
  refine only_bind (q (quiet_NewObjectArray _ _)) (fun _ => ?_)
  refine steps_ite _ (fin _ _ _ _ _ _) ?_
  refine only_bind (q (quiet_jl_callJava_fill _ _ _ _)) (fun _ => ?_)
  split
  · exact fin _ _ _ _ _ _
  · exact only_bind (q (quiet_CallStaticVoidMethod _ _ _)) (fun _ => fin _ _ _ _ _ _)

theorem result_jl_calljava_return (_jvm : Nat) (result : Int) (errmsg : MsgPtr)
    (msgbuf : String) (callback app_data : Nat) :
    Hoare (fun _ => True) (jl_calljava_return _jvm result errmsg msgbuf callback app_data)
      (fun r _ => r = JL_OK ∨ r = JL_CANNOTDETACHCURRTHREAD) := by
  unfold jl_calljava_return
  refine hoare_bind_any (fun _ => hoare_bind_any (fun _ => hoare_bind_any (fun _ =>
    hoare_bind_any (fun r => ?_))))
  refine hoare_ite _ (fun _ => ?_) (fun h => ?_)
  · exact hoare_bind_any (fun _ => hoare_pure (fun _ _ => Or.inr rfl))
  · exact hoare_pure (fun _ _ => Or.inl (not_not.mp h))

/-- The dispatch part of `jl_callJava` returns `JL_CANNOTATTACHCURRTHREAD`,
`JL_OK` or `JL_CANNOTDETACHCURRTHREAD`. -/
theorem result_jl_callJava_dispatch (_jvm : Nat) (javaclass method signature : String)
    (app_args : Option (List (Option String))) (app_args_len : Int)
    (callback app_data : Nat) :
    Hoare (fun _ => True)
      (jl_callJava_dispatch _jvm javaclass method signature app_args app_args_len
        callback app_data)
      (fun r _ => r = JL_CANNOTATTACHCURRTHREAD ∨ r = JL_OK ∨
        r = JL_CANNOTDETACHCURRTHREAD) := by
  have fin : ∀ (result : Int) (errmsg : MsgPtr) (msgbuf : String), Hoare (fun _ => True)
      (jl_calljava_return _jvm result errmsg msgbuf callback app_data)
      (fun r _ => r = JL_CANNOTATTACHCURRTHREAD ∨ r = JL_OK ∨
        r = JL_CANNOTDETACHCURRTHREAD) := fun _ _ _ =>
    hoare_weaken (result_jl_calljava_return _ _ _ _ _ _) (fun _ h => h)
      (fun _ _ h => Or.inr h)
  unfold jl_callJava_dispatch
  refine hoare_bind_any (fun _ => hoare_ite_any _ ?_ ?_)
  · exact hoare_bind_any (fun _ => hoare_pure (fun _ _ => Or.inl rfl))
  repeat (first
    | with_reducible exact fin _ _ _
    | with_reducible apply hoare_bind_any
    | with_reducible apply hoare_ite_any
    | intro _
    | split)

/-- A `jl_callJava` call on a live VM whose arguments pass validation is the
dispatch part run with the signature it was given, or with the default
signature when none was given. -/
theorem jl_callJava_validated (s : JL) (javaclass method : String) (signature : Option String)
    (app_args : Option (List (Option String))) (app_args_len : Int)
    (callback app_data : Nat)
    (hd : s.jvm_destroyed = false) (hj : s.jvm ≠ 0)
    (hc : EMPTYSTR (some javaclass) = false) (hm : EMPTYSTR (some method) = false)
    (ha : ¬ (app_args_len ≠ 0 ∧ (app_args = none ∨ arg app_args 0 = none)))
    (hs : EMPTYSTR signature = true ∨ is_supported_signature (fmt_s signature) ≠ 0) :
    (jl_callJava (some javaclass) (some method) signature app_args app_args_len callback
      app_data).run s =
    (jl_callJava_dispatch s.jvm javaclass method
      (if EMPTYSTR signature then DEFAULT_SIGNATURE else fmt_s signature)
      app_args app_args_len callback app_data).run s := by
  unfold jl_callJava get_jvm_destroyed get_jvm
  simp only [run_bind, run_getS, run_pure, run_ite, hd, hj, hc, hm, ha]
  simp only [Bool.false_eq_true, if_false, or_self]
  by_cases he : EMPTYSTR signature = true
  · rw [if_pos he, if_pos he]
    rfl
  · rw [if_neg he, if_neg (hs.resolve_left he), if_neg he]
    rfl

/-- C15: a `jl_callJava` call on a live VM with non-empty `javaclass` and
`method` and consistent `app_args` whose signature is `NULL` or empty is not
rejected with `JL_BADSIGNATURE`; it runs exactly as the call with the
signature `([Ljava/lang/String;)V` does, and every `GetStaticMethodID` made
during it looks up `method` with exactly that signature, apart from the
launcher's own lookups of `Thread.currentThread` and
`ClassLoaders.appClassLoader`. -/
theorem C15_default_signature (s : JL) (javaclass method : String)
    (signature : Option String)
    (app_args : Option (List (Option String))) (app_args_len : Int)
    (callback app_data : Nat)
    (hd : s.jvm_destroyed = false) (hj : s.jvm ≠ 0)
    (hc : EMPTYSTR (some javaclass) = false) (hm : EMPTYSTR (some method) = false)
    (ha : ¬ (app_args_len ≠ 0 ∧ (app_args = none ∨ arg app_args 0 = none)))
    (hs : EMPTYSTR signature = true) :
    ((jl_callJava (some javaclass) (some method) signature app_args app_args_len callback
      app_data).run s).1 ≠ JL_BADSIGNATURE ∧
    (jl_callJava (some javaclass) (some method) signature app_args app_args_len callback
      app_data).run s =
      (jl_callJava (some javaclass) (some method) (some "([Ljava/lang/String;)V") app_args
        app_args_len callback app_data).run s ∧
    ∀ cls name sig,
      Event.GetStaticMethodID cls name sig ∈
        newEvents (jl_callJava (some javaclass) (some method) signature app_args
          app_args_len callback app_data) s →
      (name = method ∧ sig = "([Ljava/lang/String;)V") ∨
      (name = "currentThread" ∧ sig = "()Ljava/lang/Thread;") ∨
      (name = "appClassLoader" ∧ sig = "()Ljava/lang/ClassLoader;") := by
  have e1 := jl_callJava_validated s javaclass method signature app_args app_args_len
    callback app_data hd hj hc hm ha (Or.inl hs)
  have e2 := jl_callJava_validated s javaclass method (some "([Ljava/lang/String;)V") app_args
    app_args_len callback app_data hd hj hc hm ha (Or.inr (by decide))
  rw [if_pos hs] at e1
  rw [if_neg (by decide)] at e2
  have e3 : DEFAULT_SIGNATURE = fmt_s (some "([Ljava/lang/String;)V") := rfl
  refine ⟨?_, ?_, ?_⟩
  · rw [e1]
    have h := (result_jl_callJava_dispatch s.jvm javaclass method DEFAULT_SIGNATURE app_args
      app_args_len callback app_data).out s trivial
    rcases h with h | h | h <;> rw [h] <;> decide
  · rw [e1, e2, ← e3]
  · intro cls name sig hmem
    have h := only_newEvents _ s ((lookup_jl_callJava_dispatch s.jvm javaclass method
      DEFAULT_SIGNATURE app_args app_args_len callback app_data).out s)
    have hn : newEvents (jl_callJava (some javaclass) (some method) signature app_args
        app_args_len callback app_data) s =
        newEvents (jl_callJava_dispatch s.jvm javaclass method DEFAULT_SIGNATURE app_args
          app_args_len callback app_data) s := by
      unfold newEvents
      rw [e1]
    rw [hn] at hmem
    exact h _ hmem

/-- Witness of C15: `main` of `com/example/Main` is called on the live VM of
a static build with a `NULL` signature; the method is looked up with
`([Ljava/lang/String;)V`. -/
theorem C15_default_signature_witness :
    ((stateAfter staticBuild (scriptCreateOk ++ scriptMainThrows)
        [.create none 0 7 0]).jvm_destroyed = false ∧
     (stateAfter staticBuild (scriptCreateOk ++ scriptMainThrows)
        [.create none 0 7 0]).jvm ≠ 0 ∧
     EMPTYSTR (some "com/example/Main") = false ∧ EMPTYSTR (some "main") = false ∧
     ¬ ((2 : Int) ≠ 0 ∧ ((some [some "a", some "b"] : Option (List (Option String))) = none ∨
        arg (some [some "a", some "b"]) 0 = none)) ∧
     EMPTYSTR none = true) ∧
    Event.GetStaticMethodID 21 "main" "([Ljava/lang/String;)V" ∈
      newEvents (jl_callJava (some "com/example/Main") (some "main") none
          (some [some "a", some "b"]) 2 7 0)
        (stateAfter staticBuild (scriptCreateOk ++ scriptMainThrows) [.create none 0 7 0]) ∧
    ((jl_callJava (some "com/example/Main") (some "main") none
        (some [some "a", some "b"]) 2 7 0).run
      (stateAfter staticBuild (scriptCreateOk ++ scriptMainThrows)
        [.create none 0 7 0])).1 ≠ JL_BADSIGNATURE :=
  ⟨by decide, by decide,
   (C15_default_signature
     (stateAfter staticBuild (scriptCreateOk ++ scriptMainThrows) [.create none 0 7 0])
     "com/example/Main" "main" none (some [some "a", some "b"]) 2 7 0
     (by decide) (by decide) (by decide) (by decide) (by decide) (by decide)).1⟩

/-! ### A VM that cannot be set up is torn down -/

/-- Lines 382 to 413 of `jl_createJavaVM` when the resolution of the cached
references fails in the state `s2` the entry point left. -/
theorem createJavaVM_teardown (vm callback app_data : Nat) (s2 : JL)
    (k : Int → JNI Int)
    (hfail : (init_context_classloader_javaclasses_and_methodids.run s2).1 < 0) :
    ∃ t, ((init_context_classloader_javaclasses_and_methodids >>= fun result =>
        if result < 0 then do
          let jexception ← ExceptionOccurred
          (if jexception ≠ 0 then do
            ExceptionDescribe
            ExceptionClear
           else pure ())
          let _ ← DetachCurrentThread vm
          let _ ← DestroyJavaVM vm
          modifyS fun s => { s with jvm_destroyed := true }
          cleanup_java_references
          let msgbuf := snprintf MSGBUFSIZE
            ("jl_createJavaVM: Cannot create Java VM. Could not initialize context " ++
             "classloader, java classes or method ids.\n")
          jl_createJavaVM_finish result msgbuf vm callback app_data
        else k result).run s2) = (JL_CANNOTCREATEJVM, t) ∧
      t.jvm = s2.jvm ∧ t.jvm_destroyed = true ∧
      t._context_class_loader = 0 ∧ t._java_lang_string = 0 ∧ t._java_lang_thread = 0 ∧
      t._java_thread_current_thread = 0 ∧ t._java_thread_set_context_classloader = 0 ∧
      ∃ pre post, t.trace = s2.trace ++ pre ++
        [Event.DetachCurrentThread vm, Event.DestroyJavaVM vm] ++ post := by
  have hv := (sameVm_init_context_classloader_javaclasses_and_methodids.out s2).1
  obtain ⟨es, hes, -⟩ := resolving_init_context_classloader_javaclasses_and_methodids.out s2
  rw [run_bind]
  generalize init_context_classloader_javaclasses_and_methodids.run s2 = p at hfail hv hes ⊢
  obtain ⟨result, t0⟩ := p
  simp only at hfail hv hes ⊢
  rw [if_pos hfail]
  unfold jl_createJavaVM_finish perform_error_callback free cleanup_java_references
    DetachCurrentThread DestroyJavaVM ExceptionDescribe
  simp only [run_bind, run_ask, run_pure, run_modifyS, run_ite, run_getS, run_emit,
    run_ExceptionOccurred, run_ExceptionClear, if_pos hfail]
  by_cases hp : t0.pending = 0 <;> by_cases hc : callback = 0 <;>
    simp [hp, hc, hv, hes, JL_CANNOTCREATEJVM]
  · exact ⟨es ++ [Event.ExceptionOccurred], [Event.free t0.jvmOptions, Event.free t0.vmInitArgs],
      by simp⟩
  · exact ⟨es ++ [Event.ExceptionOccurred], _, by simp; rfl⟩
  · exact ⟨es ++ [Event.ExceptionOccurred, Event.ExceptionDescribe, Event.ExceptionClear],
      [Event.free t0.jvmOptions, Event.free t0.vmInitArgs], by simp⟩
  · exact ⟨es ++ [Event.ExceptionOccurred, Event.ExceptionDescribe, Event.ExceptionClear],
      _, by simp; rfl⟩


/-- From the allocation of `vmInitArgs` on: when `JNI_CreateJavaVM` answers
`JNI_OK` with the VM `vm` and the resolution that follows fails, the rest of
`jl_createJavaVM` tears the VM down. -/
theorem createJavaVM_launch_teardown (jvm_args : Option (List (Option String)))
    (jvm_args_len : Int) (callback app_data vm : Nat) (s s2 : JL)
    (hentry : ((do
        let p ← calloc 1
        modifyS fun s => { s with vmInitArgs := p }
        if p = 0 then pure none
        else do
          let options := (List.range jvm_args_len.toNat).map (arg jvm_args)
          let r ← ask (.JNI_CreateJavaVM jvm_args_len options)
          pure (some (r.ret, r.ref)) : JNI (Option (Int × Nat))).run s) = (some (JNI_OK, vm), s2))
    (hfail : (init_context_classloader_javaclasses_and_methodids.run s2).1 < 0) :
    ∃ t, (jl_createJavaVM_launch jvm_args jvm_args_len callback app_data).run s
        = (JL_CANNOTCREATEJVM, t) ∧
      t.jvm = s.jvm ∧ t.jvm_destroyed = true ∧
      t._context_class_loader = 0 ∧ t._java_lang_string = 0 ∧ t._java_lang_thread = 0 ∧
      t._java_thread_current_thread = 0 ∧ t._java_thread_set_context_classloader = 0 ∧
      ∃ pre post, t.trace = s.trace ++ pre ++
        [Event.DetachCurrentThread vm, Event.DestroyJavaVM vm] ++ post := by
  unfold calloc at hentry
  simp only [run_bind, run_ask, run_pure, run_modifyS, run_ite] at hentry
  by_cases h0 : (s.script.headD {}).ref = 0
  · rw [if_pos h0] at hentry
    exact absurd (congrArg Prod.fst hentry) (by simp)
  rw [if_neg h0] at hentry
  have hret : (s.script.tail.headD {}).ret = JNI_OK := by
    have h := congrArg Prod.fst hentry
    simp only [Option.some.injEq, Prod.mk.injEq] at h
    exact h.1
  have hvm : (s.script.tail.headD {}).ref = vm := by
    have h := congrArg Prod.fst hentry
    simp only [Option.some.injEq, Prod.mk.injEq] at h
    exact h.2
  have hs2 := congrArg Prod.snd hentry
  simp only [run_pure] at hs2
  clear hentry
  unfold jl_createJavaVM_launch
  rw [run_bind]
  have hc : (calloc 1).run s = ((s.script.headD {}).ref,
      { s with script := s.script.tail, trace := s.trace ++ [Event.calloc 1] }) := rfl
  rw [hc]
  simp only []
  rw [run_bind, run_modifyS, run_ite, if_neg h0]
  simp only []
  rw [run_bind, run_ask]
  simp only []
  rw [run_ite, if_pos hret, hvm]
  simp only [List.append_assoc] at hs2 ⊢
  rw [hs2]
  obtain ⟨t, h, hjvm, hd, h1, h2, h3, h4, h5, pre, post, htr⟩ :=
    createJavaVM_teardown vm callback app_data s2
      (fun result => jl_createJavaVM_finish result "" vm callback app_data) hfail
  refine ⟨t, h, ?_, hd, h1, h2, h3, h4, h5, ?_⟩
  · rw [hjvm, ← hs2]
  · refine ⟨[Event.calloc 1, Event.JNI_CreateJavaVM jvm_args_len
      (List.map (arg jvm_args) (List.range jvm_args_len.toNat))] ++ pre, post, ?_⟩
    rw [htr, ← hs2]
    simp


/-- A `jl_createJavaVM` call that passes the state and argument checks and whose
allocations and `JNI_CreateJavaVM` call leave the state `s2` with the VM `vm`
(result `JNI_OK`): if the resolution of the cached references that follows
yields a negative result, the call returns `JL_CANNOTCREATEJVM`, the VM handle
stays absent, the destroyed flag is set, all five cached references are
cleared, and `DetachCurrentThread` followed by `DestroyJavaVM` on `vm` are among
the calls it made. -/
theorem createJavaVM_resolution_teardown (b : Build) (s s2 : JL)
    (jvm_args : Option (List (Option String))) (jvm_args_len : Int)
    (callback app_data vm : Nat)
    (hi : b.STATIC_BUILD = true ∨ s.initialized = true)
    (hd : s.jvm_destroyed = false) (hj : s.jvm = 0)
    (ha : ¬ (jvm_args_len ≠ 0 ∧ (jvm_args = none ∨ arg jvm_args 0 = none)))
    (hentry : (jl_createJavaVM_entry jvm_args jvm_args_len).run s = (some (JNI_OK, vm), s2))
    (hfail : (init_context_classloader_javaclasses_and_methodids.run s2).1 < 0) :
    ((jl_createJavaVM b jvm_args jvm_args_len callback app_data).run s).1 = JL_CANNOTCREATEJVM ∧
    ((jl_createJavaVM b jvm_args jvm_args_len callback app_data).run s).2.jvm = 0 ∧
    ((jl_createJavaVM b jvm_args jvm_args_len callback app_data).run s).2.jvm_destroyed = true ∧
    ((jl_createJavaVM b jvm_args jvm_args_len callback app_data).run s).2._context_class_loader
      = 0 ∧
    ((jl_createJavaVM b jvm_args jvm_args_len callback app_data).run s).2._java_lang_string = 0 ∧
    ((jl_createJavaVM b jvm_args jvm_args_len callback app_data).run s).2._java_lang_thread = 0 ∧
    ((jl_createJavaVM b jvm_args jvm_args_len callback app_data).run s).2._java_thread_current_thread
      = 0 ∧
    ((jl_createJavaVM b jvm_args jvm_args_len callback app_data).run s).2._java_thread_set_context_classloader
      = 0 ∧
    [Event.DetachCurrentThread vm, Event.DestroyJavaVM vm] <:+:
      newEvents (jl_createJavaVM b jvm_args jvm_args_len callback app_data) s := by
  have hinit : (!b.STATIC_BUILD && !s.initialized) = false := by
    rcases hi with h | h <;> simp [h]
  have key : ∃ t, (jl_createJavaVM b jvm_args jvm_args_len callback app_data).run s
        = (JL_CANNOTCREATEJVM, t) ∧
      t.jvm = s.jvm ∧ t.jvm_destroyed = true ∧
      t._context_class_loader = 0 ∧ t._java_lang_string = 0 ∧ t._java_lang_thread = 0 ∧
      t._java_thread_current_thread = 0 ∧ t._java_thread_set_context_classloader = 0 ∧
      ∃ pre post, t.trace = s.trace ++ pre ++
        [Event.DetachCurrentThread vm, Event.DestroyJavaVM vm] ++ post := by
    unfold jl_createJavaVM
    rw [run_bind, run_getS]
    simp only []
    rw [run_ite, if_neg (by rw [hinit]; decide), run_bind, run_getS]
    simp only []
    rw [run_ite, if_neg (by rw [hd]; decide), run_bind, run_getS]
    simp only []
    rw [run_ite, if_neg (by rw [hj]; decide), run_ite, if_neg ha, run_ite]
    unfold jl_createJavaVM_entry at hentry
    rw [run_bind, run_ite] at hentry
    by_cases hl : jvm_args_len = 0
    · rw [if_neg (not_not.2 hl)]
      rw [if_neg (not_not.2 hl), run_pure] at hentry
      simp only [if_true] at hentry
      exact createJavaVM_launch_teardown jvm_args jvm_args_len callback app_data vm s s2
        hentry hfail
    · rw [if_pos hl]
      rw [if_pos hl] at hentry
      have hc : (calloc jvm_args_len).run s = ((s.script.headD {}).ref,
          { s with script := s.script.tail, trace := s.trace ++ [Event.calloc jvm_args_len] }) :=
        rfl
      rw [run_bind, hc] at hentry ⊢
      simp only [] at hentry ⊢
      rw [run_bind, run_modifyS] at hentry ⊢
      simp only [] at hentry ⊢
      rw [run_pure] at hentry
      simp only [] at hentry
      rw [run_ite]
      by_cases hp : (s.script.headD {}).ref = 0
      · rw [if_neg (by rw [decide_eq_true_iff]; exact not_not.2 hp), run_pure] at hentry
        exact absurd (congrArg Prod.fst hentry) (by simp)
      · rw [if_pos (decide_eq_true hp)] at hentry
        rw [if_neg hp]
        obtain ⟨t, h, hjvm, hrest⟩ :=
          createJavaVM_launch_teardown jvm_args jvm_args_len callback app_data vm _ s2
            hentry hfail
        obtain ⟨hd2, h1, h2, h3, h4, h5, pre, post, htr⟩ := hrest
        exact ⟨t, h, hjvm, hd2, h1, h2, h3, h4, h5,
          [Event.calloc jvm_args_len] ++ pre, post, by rw [htr]; simp⟩
  obtain ⟨t, h, hjvm, hd2, h1, h2, h3, h4, h5, pre, post, htr⟩ := key
  have hn : newEvents (jl_createJavaVM b jvm_args jvm_args_len callback app_data) s
      = pre ++ [Event.DetachCurrentThread vm, Event.DestroyJavaVM vm] ++ post := by
    unfold newEvents
    rw [h]
    simp only []
    rw [htr, List.append_assoc, List.append_assoc, List.drop_left]
    simp
  rw [hn, h]
  exact ⟨rfl, hjvm.trans hj, hd2, h1, h2, h3, h4, h5, pre, post, rfl⟩


/-! ### The search for the VM library -/

theorem strlenChars_append (a b : List Char) :
    strlenChars (a ++ b) = strlenChars a + strlenChars b := by
  induction a with
  | nil => simp [strlenChars]
  | cons c cs ih => simp [strlenChars, ih, Nat.add_assoc]

theorem strlen_append (a b : String) : strlen (a ++ b) = strlen a + strlen b := by
  unfold strlen
  rw [String.data_append, strlenChars_append]

theorem strlenChars_replicate (n : Nat) (c : Char) :
    strlenChars (List.replicate n c) = n * c.utf8Size := by
  induction n with
  | zero => simp [strlenChars]
  | succ n ih =>
    rw [List.replicate_succ, strlenChars, ih]
    ring

/-- A buffer with room for all the bytes of the text holds the whole text. -/
theorem takeBytes_of_le (l : List Char) : ∀ n, strlenChars l ≤ n → takeBytes n l = l := by
  induction l with
  | nil => intro n _; rfl
  | cons c cs ih =>
    intro n h
    unfold strlenChars at h
    unfold takeBytes
    rw [if_pos (by omega), ih (n - c.utf8Size) (by omega)]

/-- The size `loadJavaVM` passes to `snprintf` is the number of bytes of the
path plus one, so the buffer holds the whole path. -/
theorem snprintf_path (java_lib jvmtype lib : String) :
    snprintf (strlen java_lib + strlen jvmtype + strlen lib + 3)
      (java_lib ++ "/" ++ jvmtype ++ "/" ++ lib) = java_lib ++ "/" ++ jvmtype ++ "/" ++ lib := by
  unfold snprintf
  have h1 : strlen "/" = 1 := by decide
  have h : strlenChars (java_lib ++ "/" ++ jvmtype ++ "/" ++ lib).data
      ≤ strlen java_lib + strlen jvmtype + strlen lib + 3 - 1 := by
    show strlen (java_lib ++ "/" ++ jvmtype ++ "/" ++ lib) ≤ _
    rw [strlen_append, strlen_append, strlen_append, strlen_append, h1]
    omega
  rw [takeBytes_of_le _ _ h]

/-- One round of the loop of `loadJavaVM` whose path fits into the buffer. -/
theorem loadJavaVM_from_cons (b : Build) (java_lib jvmtype : String) (rest : List String)
    (s : JL) (hfit : strlen java_lib + strlen jvmtype + strlen b.JL_LIBJVM + 3 < b.PATH_MAX) :
    (loadJavaVM_from b java_lib (jvmtype :: rest)).run s =
      if (s.script.headD {}).ref ≠ 0 then
        (none, { s with libjvm := (s.script.headD {}).ref, script := s.script.tail,
                        trace := s.trace ++
                          [Event.dlopen (java_lib ++ "/" ++ jvmtype ++ "/" ++ b.JL_LIBJVM)] })
      else (loadJavaVM_from b java_lib rest).run
        { s with libjvm := (s.script.headD {}).ref, script := s.script.tail,
                 trace := s.trace ++
                   [Event.dlopen (java_lib ++ "/" ++ jvmtype ++ "/" ++ b.JL_LIBJVM)] } := by
  rw [loadJavaVM_from]
  simp only []
  rw [run_ite, if_neg (not_le.2 hfit), snprintf_path]
  unfold dlopen
  simp only [run_bind, run_ask, run_pure, run_modifyS, run_ite]

/-- One round of the loop of `loadJavaVM` whose path does not fit. -/
theorem loadJavaVM_from_too_long (b : Build) (java_lib jvmtype : String) (rest : List String)
    (s : JL) (hlong : strlen java_lib + strlen jvmtype + strlen b.JL_LIBJVM + 3 ≥ b.PATH_MAX) :
    (loadJavaVM_from b java_lib (jvmtype :: rest)).run s = (some JL_CANTLOADLIBJVM, s) := by
  rw [loadJavaVM_from]
  simp only []
  rw [run_ite, if_pos hlong, run_pure]


/-- The part of `jl_initialize` that runs in a dynamically linked build that
is not yet initialized. -/
theorem jl_initialize_start (b : Build) (java_lib : String) (s : JL)
    (hb : b.STATIC_BUILD = false) (hi : s.initialized = false) :
    ( jl_initialize b java_lib).run s =
      ((loadJavaVM b java_lib >>= fun result =>
        if result ≠ JL_OK then pure result
        else do
          let f ← dlsym (← getS).libjvm "JNI_CreateJavaVM"
          modifyS fun s => { s with jl_JNI_CreateJavaVM := f }
          if f = 0 then pure JL_CANTLOADLIBJVM
          else do
            modifyS fun s => { s with initialized := true }
            pure JL_OK).run s) := by
  unfold jl_initialize
  rw [run_ite, if_neg (by rw [hb]; decide), run_bind, run_getS]
  simp only []
  rw [run_ite, if_neg (by rw [hi]; decide)]

/-- When the loop of `loadJavaVM` ends with a library open, `jl_initialize`
asks for `JNI_CreateJavaVM` in it, and the answer decides the result. -/
theorem jl_initialize_after_load (b : Build) (java_lib : String) (s t : JL)
    (hb : b.STATIC_BUILD = false) (hi : s.initialized = false)
    (hload : (loadJavaVM_from b java_lib jvmtypes).run s = (none, t))
    (hlib : t.libjvm ≠ 0) :
    (( jl_initialize b java_lib).run s).1 =
      (if (t.script.headD {}).ref = 0 then JL_CANTLOADLIBJVM else JL_OK) ∧
    (( jl_initialize b java_lib).run s).2.trace =
      t.trace ++ [Event.dlsym t.libjvm "JNI_CreateJavaVM"] := by
  rw [jl_initialize_start b java_lib s hb hi]
  unfold loadJavaVM dlsym
  simp only [run_bind, hload, run_getS, run_ite, run_pure, run_modifyS, run_ask, if_neg hlib]
  by_cases hf : (t.script.headD {}).ref = 0
  · rw [if_pos hf, if_pos hf]
    exact ⟨rfl, rfl⟩
  · rw [if_neg hf, if_neg hf]
    exact ⟨rfl, rfl⟩

/-- When the loop of `loadJavaVM` ends with no library open, `jl_initialize`
returns `JL_CANTLOADLIBJVM` at once. -/
theorem jl_initialize_load_failed (b : Build) (java_lib : String) (s t : JL)
    (hb : b.STATIC_BUILD = false) (hi : s.initialized = false)
    (hload : (loadJavaVM_from b java_lib jvmtypes).run s = (none, t))
    (hlib : t.libjvm = 0) :
    ( jl_initialize b java_lib).run s = (JL_CANTLOADLIBJVM, t) := by
  rw [jl_initialize_start b java_lib s hb hi]
  unfold loadJavaVM
  simp only [run_bind, hload, run_getS, run_ite, run_pure, if_pos hlib]
  simp [JL_OK, JL_CANTLOADLIBJVM]

/-- When the path of the first flavor does not fit into `PATH_MAX` bytes,
`jl_initialize` returns `JL_CANTLOADLIBJVM` and does nothing else. -/
theorem jl_initialize_too_long (b : Build) (java_lib : String) (s : JL)
    (hb : b.STATIC_BUILD = false) (hi : s.initialized = false)
    (hlong : strlen java_lib + strlen "minimal" + strlen b.JL_LIBJVM + 3 ≥ b.PATH_MAX) :
    ( jl_initialize b java_lib).run s = (JL_CANTLOADLIBJVM, s) := by
  rw [jl_initialize_start b java_lib s hb hi]
  unfold loadJavaVM jvmtypes
  rw [run_bind, run_bind, loadJavaVM_from_too_long b java_lib _ _ s hlong]
  simp only [run_pure, run_ite]
  rfl

/-- C20: in a dynamically linked build that is not yet initialized,
`jl_initialize` with any library directory behaves as follows. When the path of
the `minimal` flavor (directory, flavor, `JL_LIBJVM`, two slashes and the
terminator) does not fit into `PATH_MAX` bytes, it returns `JL_CANTLOADLIBJVM`
and leaves the state as it was: no flavor is tried. Otherwise it calls `dlopen`
on the `minimal`, `client` and `server` paths in this order and stops at the
first that opens; it then looks `JNI_CreateJavaVM` up in that library and
returns `JL_OK` when the lookup succeeds and `JL_CANTLOADLIBJVM` when it fails;
when none of the three opens it returns `JL_CANTLOADLIBJVM`. -/
theorem C20_flavor_search (b : Build) (java_lib : String) (s : JL)
    (hb : b.STATIC_BUILD = false) (hi : s.initialized = false) :
    (strlen java_lib + strlen "minimal" + strlen b.JL_LIBJVM + 3 ≥ b.PATH_MAX →
      ( jl_initialize b java_lib).run s = (JL_CANTLOADLIBJVM, s)) ∧
    (strlen java_lib + strlen "minimal" + strlen b.JL_LIBJVM + 3 < b.PATH_MAX →
      ((s.script.headD {}).ref ≠ 0 →
        (( jl_initialize b java_lib).run s).1 =
          (if (s.script.tail.headD {}).ref = 0 then JL_CANTLOADLIBJVM else JL_OK) ∧
        newEvents ( jl_initialize b java_lib) s =
          [Event.dlopen (java_lib ++ "/" ++ "minimal" ++ "/" ++ b.JL_LIBJVM),
           Event.dlsym (s.script.headD {}).ref "JNI_CreateJavaVM"]) ∧
      ((s.script.headD {}).ref = 0 → (s.script.tail.headD {}).ref ≠ 0 →
        (( jl_initialize b java_lib).run s).1 =
          (if (s.script.tail.tail.headD {}).ref = 0 then JL_CANTLOADLIBJVM else JL_OK) ∧
        newEvents ( jl_initialize b java_lib) s =
          [Event.dlopen (java_lib ++ "/" ++ "minimal" ++ "/" ++ b.JL_LIBJVM),
           Event.dlopen (java_lib ++ "/" ++ "client" ++ "/" ++ b.JL_LIBJVM),
           Event.dlsym (s.script.tail.headD {}).ref "JNI_CreateJavaVM"]) ∧
      ((s.script.headD {}).ref = 0 → (s.script.tail.headD {}).ref = 0 →
          (s.script.tail.tail.headD {}).ref ≠ 0 →
        (( jl_initialize b java_lib).run s).1 =
          (if (s.script.tail.tail.tail.headD {}).ref = 0 then JL_CANTLOADLIBJVM else JL_OK) ∧
        newEvents ( jl_initialize b java_lib) s =
          [Event.dlopen (java_lib ++ "/" ++ "minimal" ++ "/" ++ b.JL_LIBJVM),
           Event.dlopen (java_lib ++ "/" ++ "client" ++ "/" ++ b.JL_LIBJVM),
           Event.dlopen (java_lib ++ "/" ++ "server" ++ "/" ++ b.JL_LIBJVM),
           Event.dlsym (s.script.tail.tail.headD {}).ref "JNI_CreateJavaVM"]) ∧
      ((s.script.headD {}).ref = 0 → (s.script.tail.headD {}).ref = 0 →
          (s.script.tail.tail.headD {}).ref = 0 →
        (( jl_initialize b java_lib).run s).1 = JL_CANTLOADLIBJVM ∧
        newEvents ( jl_initialize b java_lib) s =
          [Event.dlopen (java_lib ++ "/" ++ "minimal" ++ "/" ++ b.JL_LIBJVM),
           Event.dlopen (java_lib ++ "/" ++ "client" ++ "/" ++ b.JL_LIBJVM),
           Event.dlopen (java_lib ++ "/" ++ "server" ++ "/" ++ b.JL_LIBJVM)])) := by
  have h7 : strlen "minimal" = 7 := by decide
  have h6c : strlen "client" = 6 := by decide
  have h6s : strlen "server" = 6 := by decide
  constructor
  · exact jl_initialize_too_long b java_lib s hb hi
  · intro hfit
    have hfc : strlen java_lib + strlen "client" + strlen b.JL_LIBJVM + 3 < b.PATH_MAX := by
      omega
    have hfs : strlen java_lib + strlen "server" + strlen b.JL_LIBJVM + 3 < b.PATH_MAX := by
      omega
    have e1 := loadJavaVM_from_cons b java_lib "minimal" ["client", "server"] s hfit
    refine ⟨fun h0 => ?_, fun h0 h1 => ?_, fun h0 h1 h2 => ?_, fun h0 h1 h2 => ?_⟩
    · rw [if_pos h0] at e1
      obtain ⟨hr, ht⟩ := jl_initialize_after_load b java_lib s _ hb hi e1 h0
      refine ⟨hr, ?_⟩
      unfold newEvents
      rw [ht]
      simp
    · rw [if_neg (not_not.2 h0), loadJavaVM_from_cons b java_lib _ _ _ hfc] at e1
      simp only [] at e1
      rw [if_pos h1] at e1
      obtain ⟨hr, ht⟩ := jl_initialize_after_load b java_lib s _ hb hi e1 h1
      refine ⟨hr, ?_⟩
      unfold newEvents
      rw [ht]
      simp
    · rw [if_neg (not_not.2 h0), loadJavaVM_from_cons b java_lib _ _ _ hfc] at e1
      simp only [] at e1
      rw [if_neg (not_not.2 h1), loadJavaVM_from_cons b java_lib _ _ _ hfs] at e1
      simp only [] at e1
      rw [if_pos h2] at e1
      obtain ⟨hr, ht⟩ := jl_initialize_after_load b java_lib s _ hb hi e1 h2
      refine ⟨hr, ?_⟩
      unfold newEvents
      rw [ht]
      simp
    · rw [if_neg (not_not.2 h0), loadJavaVM_from_cons b java_lib _ _ _ hfc] at e1
      simp only [] at e1
      rw [if_neg (not_not.2 h1), loadJavaVM_from_cons b java_lib _ _ _ hfs] at e1
      simp only [] at e1
      rw [if_neg (not_not.2 h2), loadJavaVM_from, run_pure] at e1
      have hrun := jl_initialize_load_failed b java_lib s _ hb hi e1 h2
      unfold newEvents
      rw [hrun]
      simp

/-- Witness of C20: `/opt/jre` in a process where the `minimal` library does
not open, the `client` library does, and `JNI_CreateJavaVM` resolves in it. -/
theorem C20_flavor_search_witness :
    (dynamicBuild.STATIC_BUILD = false ∧
     (JL.start dynamicBuild scriptInitClient).initialized = false ∧
     strlen "/opt/jre" + strlen "minimal" + strlen dynamicBuild.JL_LIBJVM + 3
       < dynamicBuild.PATH_MAX) ∧
    (( jl_initialize dynamicBuild "/opt/jre").run (JL.start dynamicBuild scriptInitClient)).1
      = JL_OK ∧
    newEvents ( jl_initialize dynamicBuild "/opt/jre") (JL.start dynamicBuild scriptInitClient) =
      [Event.dlopen "/opt/jre/minimal/libjvm.so",
       Event.dlopen "/opt/jre/client/libjvm.so",
       Event.dlsym 5 "JNI_CreateJavaVM"] :=
  have h := ((C20_flavor_search dynamicBuild "/opt/jre" (JL.start dynamicBuild scriptInitClient)
    (by decide) (by decide)).2 (by decide)).2.1 (by decide) (by decide)
  ⟨⟨by decide, by decide, by decide⟩, h.1.trans (by decide), h.2.trans (by decide)⟩

/-- Counterexample to C20 as stated: with `PATH_MAX = 4096` and a library
directory of 4077 bytes (4076 characters, one of them of two bytes) the paths
of the `client` and `server` flavors fit, and the environment would open every library and resolve the entry point,
yet `jl_initialize` returns `JL_CANTLOADLIBJVM` without a single `dlopen`,
because the path of the `minimal` flavor is one byte too long. -/
theorem C20_counterexample :
    dynamicBuild.STATIC_BUILD = false ∧
    (JL.start dynamicBuild scriptInitAllOpen).initialized = false ∧
    (∀ r ∈ scriptInitAllOpen, r.ref ≠ 0) ∧
    strlen longLibraryDirectory + strlen "client" + strlen dynamicBuild.JL_LIBJVM + 3
      < dynamicBuild.PATH_MAX ∧
    strlen longLibraryDirectory + strlen "server" + strlen dynamicBuild.JL_LIBJVM + 3
      < dynamicBuild.PATH_MAX ∧
    (( jl_initialize dynamicBuild longLibraryDirectory).run
      (JL.start dynamicBuild scriptInitAllOpen)).1 = JL_CANTLOADLIBJVM ∧
    JL_CANTLOADLIBJVM ≠ JL_OK ∧
    newEvents ( jl_initialize dynamicBuild longLibraryDirectory)
      (JL.start dynamicBuild scriptInitAllOpen) = [] := by
  have hlen : strlen longLibraryDirectory = 4077 := by
    show strlenChars ('/' :: 'é' :: List.replicate 4074 'j') = 4077
    rw [strlenChars, strlenChars, strlenChars_replicate]
    decide
  have hlib : strlen dynamicBuild.JL_LIBJVM = 9 := by decide
  have hmax : dynamicBuild.PATH_MAX = 4096 := rfl
  have h7 : strlen "minimal" = 7 := by decide
  have h6c : strlen "client" = 6 := by decide
  have h6s : strlen "server" = 6 := by decide
  have hrun := jl_initialize_too_long dynamicBuild longLibraryDirectory
    (JL.start dynamicBuild scriptInitAllOpen) (by decide) (by decide)
    (by rw [hlen, hlib, hmax, h7])
  refine ⟨by decide, by decide, by decide, by rw [hlen, hlib, hmax, h6c]; decide,
    by rw [hlen, hlib, hmax, h6s]; decide, ?_, by decide, ?_⟩
  · rw [hrun]
  · unfold newEvents
    rw [hrun]
    simp


/-! ### Teardown, and evaluations on concrete environments -/

/-- C21: every `jl_destroyJavaVM` call on a live VM (handle present, flag
clear) leaves the destroyed flag set, the VM handle absent and the five
cached references cleared, whatever the environment answers to
`DetachCurrentThread` and `DestroyJavaVM`. -/
theorem C21_destroy_clears_state (callback app_data : Nat) (s : JL)
    (hd : s.jvm_destroyed = false) (hj : s.jvm ≠ 0) :
    ((jl_destroyJavaVM callback app_data).run s).2.jvm_destroyed = true ∧
    ((jl_destroyJavaVM callback app_data).run s).2.jvm = 0 ∧
    ((jl_destroyJavaVM callback app_data).run s).2._context_class_loader = 0 ∧
    ((jl_destroyJavaVM callback app_data).run s).2._java_lang_string = 0 ∧
    ((jl_destroyJavaVM callback app_data).run s).2._java_lang_thread = 0 ∧
    ((jl_destroyJavaVM callback app_data).run s).2._java_thread_current_thread = 0 ∧
    ((jl_destroyJavaVM callback app_data).run s).2._java_thread_set_context_classloader = 0 := by
  unfold jl_destroyJavaVM jl_freejvm set_jvm cleanup_java_references free perform_error_callback
    DetachCurrentThread DestroyJavaVM
  simp only [run_bind, run_getS, run_ite, run_pure, run_modifyS, run_ask, run_emit]
  simp only [hd, hj]
  split_ifs <;> first | contradiction | simp

/-- Witness of C21: `jl_destroyJavaVM` on the live VM of a static build when
both `DetachCurrentThread` and `DestroyJavaVM` fail. -/
theorem C21_destroy_clears_state_witness :
    ((stateAfter staticBuild (scriptCreateOk ++ scriptDetachAndDestroyFail)
        [.create none 0 7 0]).jvm_destroyed = false ∧
     (stateAfter staticBuild (scriptCreateOk ++ scriptDetachAndDestroyFail)
        [.create none 0 7 0]).jvm ≠ 0 ∧
     (stateAfter staticBuild (scriptCreateOk ++ scriptDetachAndDestroyFail)
        [.create none 0 7 0])._java_lang_string ≠ 0) ∧
    ((jl_destroyJavaVM 7 0).run
      (stateAfter staticBuild (scriptCreateOk ++ scriptDetachAndDestroyFail)
        [.create none 0 7 0])).2.jvm_destroyed = true ∧
    ((jl_destroyJavaVM 7 0).run
      (stateAfter staticBuild (scriptCreateOk ++ scriptDetachAndDestroyFail)
        [.create none 0 7 0])).2.jvm = 0 ∧
    ((jl_destroyJavaVM 7 0).run
      (stateAfter staticBuild (scriptCreateOk ++ scriptDetachAndDestroyFail)
        [.create none 0 7 0])).2._java_lang_string = 0 :=
  have h := C21_destroy_clears_state 7 0
    (stateAfter staticBuild (scriptCreateOk ++ scriptDetachAndDestroyFail) [.create none 0 7 0])
    (by decide) (by decide)
  ⟨by decide, h.1, h.2.1, h.2.2.2.1⟩

/-- C27, evaluated on the code: on a live VM every step of a `jl_callJava`
succeeds, `main` returns normally and `DetachCurrentThread` fails with `-1`.
`jl_callJava` returns `JL_CANNOTDETACHCURRTHREAD`, but the callback is invoked
with a `NULL` message and the error code `-1`, the value `DetachCurrentThread`
returned. -/
theorem C27_detach_failure_reported_with_raw_code :
    ((jl_callJava (some "com/example/Main") (some "main") (some "([Ljava/lang/String;)V")
        (some [some "a", some "b"]) 2 7 0).run
      (stateAfter staticBuild (scriptCreateOk ++ scriptMainReturnsDetachFails)
        [.create none 0 7 0])).1 = JL_CANNOTDETACHCURRTHREAD ∧
    (newEvents (jl_callJava (some "com/example/Main") (some "main")
        (some "([Ljava/lang/String;)V") (some [some "a", some "b"]) 2 7 0)
      (stateAfter staticBuild (scriptCreateOk ++ scriptMainReturnsDetachFails)
        [.create none 0 7 0])).filter Event.isCallback =
      [Event.callback 7 none (-1) 0] ∧
    (-1 : Int) ≠ JL_CANNOTDETACHCURRTHREAD := by
  decide

/-- An answer outside the JNI contract: `JNI_CreateJavaVM` returns `1` and
stores no VM.  `jl_createJavaVM` returns `JL_OK` without invoking the callback,
the VM handle is still `NULL` afterwards, and the `jl_callJava` that follows
returns `JL_CREATEJAVAVMNOTCALLED`. -/
theorem createJavaVM_positive_result_without_vm :
    resultsOf staticBuild scriptCreatePositive [.create none 0 7 0] = [JL_OK] ∧
    newEvents (jl_createJavaVM staticBuild none 0 7 0)
      (JL.start staticBuild scriptCreatePositive) =
      [Event.calloc 1, Event.JNI_CreateJavaVM 0 []] ∧
    (stateAfter staticBuild scriptCreatePositive [.create none 0 7 0]).jvm = 0 ∧
    (stateAfter staticBuild scriptCreatePositive [.create none 0 7 0]).jvm_destroyed = false ∧
    ((jl_callJava (some "com/example/Main") (some "main") none none 0 7 0).run
      (stateAfter staticBuild scriptCreatePositive [.create none 0 7 0])).1
        = JL_CREATEJAVAVMNOTCALLED := by
  decide

theorem returns_loadJavaVM_from (b : Build) (java_lib : String) (types : List String) :
    Hoare (fun _ => True) (loadJavaVM_from b java_lib types)
      (fun r _ => (r = none ∨ r = some JL_CANTLOADLIBJVM) ∧ True) := by
  induction types with
  | nil =>
    unfold loadJavaVM_from
    exact hoare_pure (fun _ _ => ⟨Or.inl rfl, trivial⟩)
  | cons jvmtype rest ih =>
    unfold loadJavaVM_from
    refine hoare_ite_any _ (hoare_pure (fun _ _ => ⟨Or.inr rfl, trivial⟩)) ?_
    refine hoare_bind_any (fun _ => hoare_bind_any (fun _ => hoare_ite_any _ ?_ ih))
    exact hoare_pure (fun _ _ => ⟨Or.inl rfl, trivial⟩)

theorem returns_loadJavaVM (b : Build) (java_lib : String) :
    Hoare (fun _ => True) (loadJavaVM b java_lib)
      (fun r _ => r = JL_OK ∨ r = JL_CANTLOADLIBJVM) := by
  unfold loadJavaVM
  refine hoare_bind (returns_loadJavaVM_from b java_lib jvmtypes)
    (fun a => hoare_pre_pure (fun ha => ?_))
  rcases ha with ha | ha
  · subst ha
    exact hoare_bind_any (fun _ => hoare_ite_any _ (hoare_pure (fun _ _ => Or.inr rfl))
      (hoare_pure (fun _ _ => Or.inl rfl)))
  · subst ha
    exact hoare_pure (fun _ _ => Or.inr rfl)

/-- The function `jl_initialize` returns `JL_OK` or `JL_CANTLOADLIBJVM`. -/
theorem returns_jl_initialize_code (b : Build) (java_lib : String) :
    Hoare (fun _ => True) ( jl_initialize b java_lib)
      (fun r _ => r = JL_OK ∨ r = JL_CANTLOADLIBJVM) := by
  unfold jl_initialize
  refine hoare_ite_any _ (hoare_bind_any (fun _ => hoare_pure (fun _ _ => Or.inl rfl))) ?_
  refine hoare_bind_any (fun _ => hoare_ite_any _ (hoare_pure (fun _ _ => Or.inl rfl)) ?_)
  refine hoare_bind (returns_loadJavaVM b java_lib) (fun r => ?_)
  refine hoare_ite _ (fun _ => hoare_pure (fun _ h => h)) (fun _ => ?_)
  refine hoare_bind_any (fun _ => hoare_bind_any (fun _ => hoare_bind_any (fun _ => ?_)))
  exact hoare_ite_any _ (hoare_pure (fun _ _ => Or.inr rfl))
    (hoare_bind_any (fun _ => hoare_pure (fun _ _ => Or.inl rfl)))

theorem returns_jl_createJavaVM_finish (result : Int) (msgbuf : String)
    (_jvm callback app_data : Nat) :
    Hoare (fun _ => True) (jl_createJavaVM_finish result msgbuf _jvm callback app_data)
      (fun r _ => r ∈ returnCodes) := by
  refine ⟨fun s _ => ?_⟩
  rw [(createJavaVM_finish_effect result msgbuf _jvm callback app_data s).1]
  split <;> decide

theorem returns_jl_createJavaVM_launch (jvm_args : Option (List (Option String)))
    (jvm_args_len : Int) (callback app_data : Nat) :
    Hoare (fun _ => True) (jl_createJavaVM_launch jvm_args jvm_args_len callback app_data)
      (fun r _ => r ∈ returnCodes) := by
  unfold jl_createJavaVM_launch
  repeat (first
    | with_reducible exact returns_jl_createJavaVM_finish _ _ _ _ _
    | with_reducible apply hoare_bind_any
    | with_reducible apply hoare_ite_any
    | intro _
    | with_reducible exact hoare_pure (fun _ _ => by decide))

/-- The function `jl_createJavaVM` returns one of the codes of the header. -/
theorem returns_jl_createJavaVM (b : Build) (jvm_args : Option (List (Option String)))
    (jvm_args_len : Int) (callback app_data : Nat) :
    Hoare (fun _ => True) (jl_createJavaVM b jvm_args jvm_args_len callback app_data)
      (fun r _ => r ∈ returnCodes) := by
  unfold jl_createJavaVM
  repeat (first
    | with_reducible exact returns_jl_createJavaVM_launch _ _ _ _
    | with_reducible apply hoare_bind_any
    | with_reducible apply hoare_ite_any
    | intro _
    | with_reducible exact hoare_pure (fun _ _ => by decide))

/-- The function `jl_callJava` returns one of the codes of the header. -/
theorem returns_jl_callJava (javaclass method signature : Option String)
    (app_args : Option (List (Option String))) (app_args_len : Int)
    (callback app_data : Nat) :
    Hoare (fun _ => True)
      (jl_callJava javaclass method signature app_args app_args_len callback app_data)
      (fun r _ => r ∈ returnCodes) := by
  have disp : ∀ (vm : Nat) (c m sg : String), Hoare (fun _ => True)
      (jl_callJava_dispatch vm c m sg app_args app_args_len callback app_data)
      (fun r _ => r ∈ returnCodes) := fun vm c m sg =>
    hoare_weaken (result_jl_callJava_dispatch vm c m sg app_args app_args_len callback app_data)
      (fun _ h => h) (fun r _ h => by rcases h with h | h | h <;> subst h <;> decide)
  unfold jl_callJava
  repeat (first
    | with_reducible exact disp _ _ _ _
    | with_reducible apply hoare_bind_any
    | with_reducible apply hoare_ite_any
    | intro _
    | with_reducible exact hoare_pure (fun _ _ => by decide))

/-- C24, evaluated on the code: on a live VM `DestroyJavaVM` fails with `-3`.
`jl_destroyJavaVM` returns `-3`, which is none of the return codes of the
header.  The other three functions keep to the header's codes in every state
and whatever the environment answers. -/
theorem C24_destroy_returns_jni_result :
    ((jl_destroyJavaVM 7 0).run
      (stateAfter staticBuild (scriptCreateOk ++ scriptDetachAndDestroyFail)
        [.create none 0 7 0])).1 = -3 ∧
    (-3 : Int) ∉ returnCodes ∧
    (∀ (b : Build) (java_lib : String) (s : JL),
      (( jl_initialize b java_lib).run s).1 ∈ returnCodes) ∧
    (∀ (b : Build) (jvm_args : Option (List (Option String))) (jvm_args_len : Int)
        (callback app_data : Nat) (s : JL),
      ((jl_createJavaVM b jvm_args jvm_args_len callback app_data).run s).1 ∈ returnCodes) ∧
    (∀ (javaclass method signature : Option String)
        (app_args : Option (List (Option String))) (app_args_len : Int)
        (callback app_data : Nat) (s : JL),
      ((jl_callJava javaclass method signature app_args app_args_len callback app_data).run
        s).1 ∈ returnCodes) := by
  refine ⟨by decide, by decide, fun b java_lib s => ?_, fun b a l c d s => ?_,
    fun j m g a l c d s => ?_⟩
  · rcases (returns_jl_initialize_code b java_lib).out s trivial with h | h <;>
      rw [h] <;> decide
  · exact (returns_jl_createJavaVM b a l c d).out s trivial
  · exact (returns_jl_callJava j m g a l c d).out s trivial


/-! ### The signature test -/

/-- Two characters whose codes have the difference zero are the same. -/
theorem char_toNat_sub_eq_zero (x c : Char) : (x.toNat : Int) - (c.toNat : Int) = 0 ↔ x = c := by
  constructor
  · intro h
    have h2 : x.toNat = c.toNat := by omega
    rw [← Char.ofNat_toNat x, ← Char.ofNat_toNat c, h2]
  · intro h
    subst h
    omega

/-- Against a string without the character `0`, `strncmp` over the length of
that string finds no difference exactly when the string is an initial segment
of the other one. -/
theorem strncmp_eq_zero_iff (b : List Char) (hb : ∀ c ∈ b, c.toNat ≠ 0) (a : List Char) :
    strncmp a b b.length = 0 ↔ b <+: a := by
  induction b generalizing a with
  | nil => simp [strncmp]
  | cons c bs ih =>
    have hc : c.toNat ≠ 0 := hb c (List.mem_cons_self _ _)
    have hbs : ∀ d ∈ bs, d.toNat ≠ 0 := fun d hd => hb d (List.mem_cons_of_mem _ hd)
    cases a with
    | nil =>
      simp only [List.length_cons, strncmp]
      constructor
      · intro h
        omega
      · intro h
        simp at h
    | cons x as =>
      simp only [List.length_cons, strncmp]
      by_cases hx : x = c
      · subst hx
        rw [if_pos rfl, ih hbs as]
        simp [List.cons_prefix_cons]
      · rw [if_neg hx]
        constructor
        · intro h
          exact absurd ((char_toNat_sub_eq_zero x c).mp h) hx
        · intro h
          rw [List.cons_prefix_cons] at h
          exact absurd h.1.symm hx

/-- C28: for every string `s`, `is_supported_signature s` is `1` when `s`
starts with `([Ljava/lang/String;)V` or with `()V` and `0` otherwise; it is
computed by at most two `strncmp` comparisons, one for each of the two entries
of `signatures`, in this order. -/
theorem C28_signature_prefix_test (s : String) :
    (SIGNATURE0.data <+: s.data ∨ SIGNATURE1.data <+: s.data → is_supported_signature s = 1) ∧
    (¬ (SIGNATURE0.data <+: s.data ∨ SIGNATURE1.data <+: s.data) →
      is_supported_signature s = 0) ∧
    is_supported_signature s =
      (if strncmp s.data SIGNATURE0.data SIGNATURE0.length = 0 then 1
       else if strncmp s.data SIGNATURE1.data SIGNATURE1.length = 0 then 1
       else 0) := by
  have h0 := strncmp_eq_zero_iff SIGNATURE0.data (by decide) s.data
  have h1 := strncmp_eq_zero_iff SIGNATURE1.data (by decide) s.data
  have hl0 : SIGNATURE0.data.length = SIGNATURE0.length := rfl
  have hl1 : SIGNATURE1.data.length = SIGNATURE1.length := rfl
  rw [hl0] at h0
  rw [hl1] at h1
  have hrun : is_supported_signature s =
      (if strncmp s.data SIGNATURE0.data SIGNATURE0.length = 0 then 1
       else if strncmp s.data SIGNATURE1.data SIGNATURE1.length = 0 then 1
       else 0) := rfl
  refine ⟨fun h => ?_, fun h => ?_, hrun⟩
  · rw [hrun]
    rcases h with h | h
    · rw [if_pos (h0.mpr h)]
    · rw [if_pos (h1.mpr h)]
      split <;> rfl
  · rw [hrun, if_neg (fun e => h (Or.inl (h0.mp e))), if_neg (fun e => h (Or.inr (h1.mp e)))]

/-- Witness of C28: `()Vx` starts with `()V` and is accepted; `(I)V` starts
with neither signature and is refused. -/
theorem C28_signature_prefix_test_witness :
    ((SIGNATURE0.data <+: "()Vx".data ∨ SIGNATURE1.data <+: "()Vx".data) ∧
     ¬ (SIGNATURE0.data <+: "(I)V".data ∨ SIGNATURE1.data <+: "(I)V".data)) ∧
    is_supported_signature "()Vx" = 1 ∧ is_supported_signature "(I)V" = 0 :=
  ⟨⟨by decide, by decide⟩,
   (C28_signature_prefix_test "()Vx").1 (by decide),
   (C28_signature_prefix_test "(I)V").2.1 (by decide)⟩


/-! ### The message `perform_exception_callback` passes on -/

theorem run_HAVE_EXCEPTION (t : JL) :
    HAVE_EXCEPTION.run t =
      if t.pending ≠ 0 then
        (true, { t with pending := 0, trace := t.trace ++
          [Event.ExceptionOccurred, Event.ExceptionDescribe, Event.ExceptionClear] })
      else (false, { t with trace := t.trace ++ [Event.ExceptionOccurred] }) := by
  unfold HAVE_EXCEPTION ExceptionDescribe
  simp only [run_bind, run_ExceptionOccurred, run_ite, run_emit, run_ExceptionClear, run_pure]
  split <;> simp

/-- The message `perform_exception_callback` passes to a present callback,
where the environment answers `FindClass`, `GetMethodID`,
`CallObjectMethod` and `GetStringUTFChars` with the first four replies of the
script.  When none of these calls leaves an exception pending (and none was
pending before), the callback is invoked once: with the characters of the
string form when `toString()` returned a string and its characters could be
read, whatever `msg` is; otherwise with `msg` when it is not `NULL`, and with
the literal `perform_exception_callback: Unknown error.` when it is.  When one
of the calls leaves an exception pending, the callback is not invoked. -/
theorem perform_exception_callback_message (msg : Option String) (error_code : Int)
    (jexception callback app_data : Nat) (s : JL) (hcb : callback ≠ 0) :
    ((s.pending = 0 ∧ (s.script.headD {}).exc = 0 ∧ (s.script.tail.headD {}).exc = 0 ∧
        (s.script.tail.tail.headD {}).exc = 0 ∧ (s.script.tail.tail.headD {}).ref ≠ 0 ∧
        (s.script.tail.tail.tail.headD {}).exc = 0) →
      ∀ m, (s.script.tail.tail.tail.headD {}).chars = some m →
        (newEvents (perform_exception_callback msg error_code jexception callback app_data)
          s).filter Event.isCallback =
          [Event.callback callback (some m) error_code app_data]) ∧
    ((s.pending = 0 ∧ (s.script.headD {}).exc = 0 ∧ (s.script.tail.headD {}).exc = 0 ∧
        (s.script.tail.tail.headD {}).exc = 0 ∧
        ((s.script.tail.tail.headD {}).ref = 0 ∨
         ((s.script.tail.tail.tail.headD {}).exc = 0 ∧
          (s.script.tail.tail.tail.headD {}).chars = none))) →
      (∀ m, msg = some m →
        (newEvents (perform_exception_callback msg error_code jexception callback app_data)
          s).filter Event.isCallback =
          [Event.callback callback (some m) error_code app_data]) ∧
      (msg = none →
        (newEvents (perform_exception_callback msg error_code jexception callback app_data)
          s).filter Event.isCallback =
          [Event.callback callback (some "perform_exception_callback: Unknown error.")
            error_code app_data])) ∧
    ((s.pending ≠ 0 ∨ (s.script.headD {}).exc ≠ 0 ∨ (s.script.tail.headD {}).exc ≠ 0 ∨
        (s.script.tail.tail.headD {}).exc ≠ 0 ∨
        ((s.script.tail.tail.headD {}).ref ≠ 0 ∧
         (s.script.tail.tail.tail.headD {}).exc ≠ 0)) →
      (newEvents (perform_exception_callback msg error_code jexception callback app_data)
        s).filter Event.isCallback = []) := by
  obtain ⟨jvm, dst, via, jo, c1, c2, c3, c4, c5, cr, lib, ini, pending, script, trace⟩ := s
  simp only
  unfold newEvents perform_exception_callback perform_exception_callback_report
    FindClass GetMethodID CallObjectMethod GetStringUTFChars ReleaseStringUTFChars
  simp only [run_bind, run_jni, run_pure, run_ite, run_HAVE_EXCEPTION, run_emit]
  refine ⟨?_, ?_, ?_⟩
  · rintro ⟨hp, h0, h1, h2, h2r, h3⟩ m hm
    subst hp
    simp only [h0, h1, h2, h3, hm, if_true, if_false, ne_eq, not_true_eq_false,
      not_false_eq_true, Bool.false_eq_true, h2r, hcb]
    simp [Event.isCallback]
  · rintro ⟨hp, h0, h1, h2, h3⟩
    subst hp
    rcases h3 with h3 | ⟨h3, hm⟩
    · refine ⟨fun m hmsg => ?_, fun hmsg => ?_⟩ <;> subst hmsg <;>
        simp only [h0, h1, h2, h3, if_true, if_false, ne_eq, not_true_eq_false,
          not_false_eq_true, Bool.false_eq_true, hcb] <;>
        simp [Event.isCallback]
    · by_cases h2r : (script.tail.tail.headD {}).ref = 0
      · refine ⟨fun m hmsg => ?_, fun hmsg => ?_⟩ <;> subst hmsg <;>
          simp only [h0, h1, h2, h2r, if_true, if_false, ne_eq, not_true_eq_false,
            not_false_eq_true, Bool.false_eq_true, hcb] <;>
          simp [Event.isCallback]
      · refine ⟨fun m hmsg => ?_, fun hmsg => ?_⟩ <;> subst hmsg <;>
          simp only [h0, h1, h2, h2r, h3, hm, if_true, if_false, ne_eq, not_true_eq_false,
            not_false_eq_true, Bool.false_eq_true, hcb] <;>
          simp [Event.isCallback]
  · intro h
    by_cases hp : pending = 0
    · subst hp
      by_cases h0 : (script.headD {}).exc = 0
      · by_cases h1 : (script.tail.headD {}).exc = 0
        · by_cases h2 : (script.tail.tail.headD {}).exc = 0
          · have h3 : (script.tail.tail.headD {}).ref ≠ 0 ∧
                (script.tail.tail.tail.headD {}).exc ≠ 0 := by
              rcases h with h | h | h | h | h
              · exact absurd rfl h
              · exact absurd h0 h
              · exact absurd h1 h
              · exact absurd h2 h
              · exact h
            simp only [h0, h1, h2, h3.1, h3.2, if_true, if_false, ne_eq, not_true_eq_false,
              not_false_eq_true, Bool.false_eq_true, hcb]
            simp [Event.isCallback]
          · simp only [h0, h1, h2, if_true, if_false, ne_eq, not_true_eq_false,
              not_false_eq_true, Bool.false_eq_true, hcb]
            simp [Event.isCallback]
        · simp only [h0, h1, if_true, if_false, ne_eq, not_true_eq_false,
            not_false_eq_true, Bool.false_eq_true, hcb]
          simp [Event.isCallback]
      · simp only [h0, if_true, if_false, ne_eq, not_true_eq_false,
          not_false_eq_true, Bool.false_eq_true, hcb]
        simp [Event.isCallback]
    · by_cases h0 : (script.headD {}).exc = 0
      · simp only [h0, hp, if_true, if_false, ne_eq, not_true_eq_false,
          not_false_eq_true, Bool.false_eq_true, hcb]
        simp [Event.isCallback]
      · simp only [h0, if_true, if_false, ne_eq, not_true_eq_false,
          not_false_eq_true, Bool.false_eq_true, hcb]
        simp [Event.isCallback]

/-- The string form of the exception is available and a diagnostic message is
supplied as well; the callback receives the string form. -/
theorem perform_exception_callback_message_example :
    ((7 : Nat) ≠ 0 ∧
     ((JL.start staticBuild scriptToString).pending = 0 ∧
      ((JL.start staticBuild scriptToString).script.headD {}).exc = 0 ∧
      ((JL.start staticBuild scriptToString).script.tail.headD {}).exc = 0 ∧
      ((JL.start staticBuild scriptToString).script.tail.tail.headD {}).exc = 0 ∧
      ((JL.start staticBuild scriptToString).script.tail.tail.headD {}).ref ≠ 0 ∧
      ((JL.start staticBuild scriptToString).script.tail.tail.tail.headD {}).exc = 0) ∧
     ((JL.start staticBuild scriptToString).script.tail.tail.tail.headD {}).chars =
       some "java.lang.RuntimeException: boom") ∧
    (newEvents (perform_exception_callback (some "jl_callJava: diagnostic") JL_OK 50 7 0)
      (JL.start staticBuild scriptToString)).filter Event.isCallback =
      [Event.callback 7 (some "java.lang.RuntimeException: boom") JL_OK 0] :=
  ⟨⟨by decide, by decide, by decide⟩,
   (perform_exception_callback_message (some "jl_callJava: diagnostic") JL_OK 50 7 0
     (JL.start staticBuild scriptToString) (by decide)).1 (by decide)
     "java.lang.RuntimeException: boom" (by decide)⟩

/-- C22, evaluated on the code: a callback is present, a diagnostic message is
supplied, and the string form of the exception is unavailable because the
lookup of `java/lang/Throwable` itself raises.  `perform_exception_callback`
describes and clears that second exception and returns without invoking the
callback: neither the message at hand nor the literal `Unknown error` message
is passed.  Inside `jl_callJava` this is the case of a missing target class in
such an environment: the call makes no invocation of the callback and returns
`JL_OK`, whereas the same failure with a `Throwable` class that can be looked
up is reported to the callback with the code `JL_CANNOTFINDCLASS`. -/
theorem C22_exception_report_lost :
    (newEvents (perform_exception_callback
        (some "jl_callJava: Cannot find class 'com/example/Main'\n") JL_CANNOTFINDCLASS 60 7 0)
      (JL.start staticBuild [{ ref := 0, exc := 80 }])) =
      [Event.FindClass "java/lang/Throwable", Event.ExceptionOccurred,
       Event.ExceptionDescribe, Event.ExceptionClear] ∧
    (newEvents (jl_callJava (some "com/example/Main") (some "main")
        (some "([Ljava/lang/String;)V") (some [some "a", some "b"]) 2 7 0)
      (stateAfter staticBuild (scriptCreateOk ++ scriptClassMissingNoThrowable)
        [.create none 0 7 0])).filter Event.isCallback = [] ∧
    ((jl_callJava (some "com/example/Main") (some "main")
        (some "([Ljava/lang/String;)V") (some [some "a", some "b"]) 2 7 0).run
      (stateAfter staticBuild (scriptCreateOk ++ scriptClassMissingNoThrowable)
        [.create none 0 7 0])).1 = JL_OK ∧
    (newEvents (jl_callJava (some "com/example/Main") (some "main")
        (some "([Ljava/lang/String;)V") (some [some "a", some "b"]) 2 7 0)
      (stateAfter staticBuild (scriptCreateOk ++ scriptClassMissing)
        [.create none 0 7 0])).filter Event.isCallback =
      [Event.callback 7 (some "java.lang.NoClassDefFoundError: com/example/Main")
        JL_CANNOTFINDCLASS 0] := by
  decide


/-! ### The calls each part of `jl_callJava` can make -/

theorem reporting_perform_error_callback (msg : Option String) (error_code : Int)
    (callback app_data : Nat) :
    Steps (Only Event.reporting) (perform_error_callback msg error_code callback app_data) := by
  unfold perform_error_callback
  exact steps_ite _ (only_emit _ (by simp [Event.reporting])) (only_pure _)

theorem reporting_HAVE_EXCEPTION : Steps (Only Event.reporting) HAVE_EXCEPTION := by
  unfold HAVE_EXCEPTION ExceptionDescribe
  repeat (first
    | with_reducible apply only_bind
    | with_reducible apply steps_ite
    | intro _
    | with_reducible exact only_pure _
    | with_reducible exact only_emit _ (by simp [Event.reporting])
    | with_reducible exact only_ExceptionOccurred (by simp [Event.reporting])
    | with_reducible exact only_ExceptionClear (by simp [Event.reporting]))

theorem reporting_perform_exception_callback_report (msg : Option String) (error_code : Int)
    (jexception_msg : Nat) (exception_msg : Option String) (callback app_data : Nat) :
    Steps (Only Event.reporting)
      (perform_exception_callback_report msg error_code jexception_msg exception_msg
        callback app_data) := by
  unfold perform_exception_callback_report ReleaseStringUTFChars
  refine only_bind ?_ (fun _ => ?_)
  · refine steps_ite _ ?_ (only_pure _)
    split
    · exact only_emit _ (by simp [Event.reporting])
    · split
      · exact only_emit _ (by simp [Event.reporting])
      · exact only_emit _ (by simp [Event.reporting])
  · split
    · exact only_emit _ (by simp [Event.reporting])
    · exact only_pure _

theorem reporting_perform_exception_callback (msg : Option String) (error_code : Int)
    (jexception : Nat) (callback app_data : Nat) :
    Steps (Only Event.reporting)
      (perform_exception_callback msg error_code jexception callback app_data) := by
  have rep := reporting_perform_exception_callback_report msg error_code
  unfold perform_exception_callback FindClass GetMethodID CallObjectMethod GetStringUTFChars
  repeat (first
    | with_reducible exact rep _ _ _ _
    | with_reducible exact reporting_HAVE_EXCEPTION
    | with_reducible apply only_bind
    | with_reducible apply steps_ite
    | intro _
    | with_reducible exact only_pure _
    | with_reducible exact only_jni _ (by simp [Event.reporting]))

/-- Lines 570 to 578 of `jl_callJava`: the report of a pending exception or of
a recorded error. -/
theorem reporting_report_part (result : Int) (msg : Option String)
    (callback app_data : Nat) (jexception : Nat) :
    Steps (Only Event.reporting)
      (if jexception ≠ 0 then do
        ExceptionDescribe
        ExceptionClear
        perform_exception_callback msg result jexception callback app_data
       else if result ≠ 0 then
        perform_error_callback msg result callback app_data
       else pure ()) := by
  unfold ExceptionDescribe
  refine steps_ite _ ?_ (steps_ite _ (reporting_perform_error_callback _ _ _ _) (only_pure _))
  refine only_bind (only_emit _ (by simp [Event.reporting])) (fun _ => ?_)
  exact only_bind (only_ExceptionClear (by simp [Event.reporting]))
    (fun _ => reporting_perform_exception_callback _ _ _ _ _)

theorem marshalling_jl_callJava_fill (app_args : Option (List (Option String)))
    (jobjarrayargs : Nat) (n i : Nat) :
    Steps (Only Event.marshalling) (jl_callJava_fill app_args jobjarrayargs n i) := by
  induction n generalizing i with
  | zero => unfold jl_callJava_fill; exact only_pure _
  | succ n ih =>
    unfold jl_callJava_fill NewStringUTF SetObjectArrayElement
    repeat (first
      | with_reducible exact ih _
      | with_reducible apply only_bind
      | with_reducible apply steps_ite
      | intro _
      | with_reducible exact only_pure _
      | with_reducible exact only_jni _ (by simp [Event.marshalling])
      | with_reducible exact only_ExceptionCheck (by simp [Event.marshalling]))

/-! ### `PopLocalFrame` and `DetachCurrentThread` -/

theorem resolving_calm (e : Event) (h : e.resolving) : e.calm := by
  cases e <;> simp_all [Event.resolving, Event.calm]

theorem reporting_calm (e : Event) (h : e.reporting) : e.calm := by
  cases e <;> simp_all [Event.reporting, Event.calm]

theorem marshalling_calm (e : Event) (h : e.marshalling) : e.calm := by
  cases e <;> simp_all [Event.marshalling, Event.calm]

theorem cleansUp_absorb (vm : Nat) (a b c : JL) (h1 : Only Event.calm a b)
    (h2 : CleansUp vm b c) : CleansUp vm a c := by
  obtain ⟨es, he, hp⟩ := h1
  obtain ⟨pre, post, ht, hpre, hpost⟩ := h2
  refine ⟨es ++ pre, post, by rw [ht, he]; simp, fun e h => ?_, hpost⟩
  rcases List.mem_append.mp h with h | h
  · exact hp e h
  · exact hpre e h

theorem cleansUp_bind {α β : Type} {vm : Nat} {m : JNI α} {f : α → JNI β}
    (hm : Steps (Only Event.calm) m) (hf : ∀ a, Steps (CleansUp vm) (f a)) :
    Steps (CleansUp vm) (m >>= f) :=
  ⟨fun s => cleansUp_absorb vm s (m.run s).2 _ (hm.out s) ((hf (m.run s).1).out (m.run s).2)⟩

/-- From the label `jl_calljava_return` on, `PopLocalFrame` and
`DetachCurrentThread` are each called once, one after the other. -/
theorem cleansUp_jl_calljava_return (_jvm : Nat) (result : Int) (errmsg : MsgPtr)
    (msgbuf : String) (callback app_data : Nat) :
    Steps (CleansUp _jvm)
      (jl_calljava_return _jvm result errmsg msgbuf callback app_data) := by
  unfold jl_calljava_return
  refine cleansUp_bind (only_ExceptionOccurred (by simp [Event.calm])) (fun _ => ?_)
  refine cleansUp_bind (only_mono reporting_calm (reporting_report_part _ _ _ _ _))
    (fun _ => ?_)
  refine ⟨fun s => ?_⟩
  unfold PopLocalFrame DetachCurrentThread perform_error_callback
  simp only [run_bind, run_emit, run_ask, run_pure, run_ite]
  by_cases hr : (s.script.headD {}).ret ≠ JNI_OK
  · rw [if_pos hr]
    by_cases hc : callback ≠ 0
    · rw [if_pos hc]
      exact ⟨[], [Event.callback callback (errmsg.deref (snprintf MSGBUFSIZE
        ("jl_callJava: Cannot detach current thread error = " ++
          fmt_d (s.script.headD {}).ret ++ "\n"))) (s.script.headD {}).ret app_data],
        by simp, by simp, by simp [Event.calm]⟩
    · rw [if_neg hc]
      exact ⟨[], [], by simp, by simp, by simp⟩
  · rw [if_neg hr]
    exact ⟨[], [], by simp, by simp, by simp⟩

/-- When `AttachCurrentThread` answers `JNI_OK`, the dispatch part of
`jl_callJava` calls `PopLocalFrame` and `DetachCurrentThread` once each, one
after the other. -/
theorem cleansUp_jl_callJava_dispatch (_jvm : Nat) (javaclass method signature : String)
    (app_args : Option (List (Option String))) (app_args_len : Int)
    (callback app_data : Nat) (s0 : JL) :
    Hoare (fun s => s = s0 ∧ (s.script.headD {}).ret = JNI_OK)
      (jl_callJava_dispatch _jvm javaclass method signature app_args app_args_len
        callback app_data) (fun _ => CleansUp _jvm s0) := by
  have att : Hoare (fun s => s = s0 ∧ (s.script.headD {}).ret = JNI_OK)
      (AttachCurrentThread _jvm) (fun a t => a = JNI_OK ∧ Only Event.calm s0 t) :=
    ⟨fun s h => ⟨h.2, by
      rw [h.1]
      exact ⟨[Event.AttachCurrentThread _jvm], rfl, by simp [Event.calm]⟩⟩⟩
  have absorb : ∀ {m : JNI Int}, Steps (CleansUp _jvm) m →
      Hoare (Only Event.calm s0) m (fun _ => CleansUp _jvm s0) :=
    fun hm => ⟨fun s hs => cleansUp_absorb _jvm s0 s _ hs (hm.out s)⟩
  have fin := cleansUp_jl_calljava_return _jvm
  have res : ∀ {α : Type} {m : JNI α}, Steps (Only Event.resolving) m →
      Steps (Only Event.calm) m := fun h => only_mono resolving_calm h
  unfold jl_callJava_dispatch
  refine hoare_bind att (fun r => hoare_pre_pure (fun hr => ?_))
  refine hoare_ite _ (fun h => absurd hr h) (fun _ => absorb ?_)
  unfold PushLocalFrame FindClass GetStaticMethodID NewObjectArray CallStaticVoidMethod
  refine cleansUp_bind (only_jni_then _ (by simp [Event.calm]) _) (fun _ => ?_)
  refine cleansUp_bind (res resolving_set_current_thread_context_classloader) (fun _ => ?_)
  refine steps_ite _ (fin _ _ _ _ _) ?_
  refine cleansUp_bind (only_jni_then _ (by simp [Event.calm]) _) (fun _ => ?_)
  refine steps_ite _ (fin _ _ _ _ _) ?_
  refine cleansUp_bind (only_jni_then _ (by simp [Event.calm]) _) (fun _ => ?_)
  refine steps_ite _ (fin _ _ _ _ _) ?_
  refine cleansUp_bind (res resolving_get_java_lang_string) (fun _ => ?_)
  refine cleansUp_bind (only_jni_then _ (by simp [Event.calm]) _) (fun _ => ?_)
  refine steps_ite _ (fin _ _ _ _ _) ?_
  refine cleansUp_bind (only_mono marshalling_calm (marshalling_jl_callJava_fill _ _ _ _))
    (fun _ => ?_)
  split
  · exact fin _ _ _ _ _
  · exact cleansUp_bind (only_jni_then _ (by simp [Event.calm]) _) (fun _ => fin _ _ _ _ _)


theorem newEvents_of_trace {α : Type} (m : JNI α) (s : JL) (es : List Event)
    (h : (m.run s).2.trace = s.trace ++ es) : newEvents m s = es := by
  unfold newEvents
  rw [h, List.drop_left]

/-- When `AttachCurrentThread` fails, the dispatch part of `jl_callJava` calls
neither `PopLocalFrame` nor `DetachCurrentThread`. -/
theorem calm_jl_callJava_dispatch_unattached (_jvm : Nat)
    (javaclass method signature : String)
    (app_args : Option (List (Option String))) (app_args_len : Int)
    (callback app_data : Nat) (s0 : JL) :
    Hoare (fun s => s = s0 ∧ (s.script.headD {}).ret ≠ JNI_OK)
      (jl_callJava_dispatch _jvm javaclass method signature app_args app_args_len
        callback app_data) (fun _ => Only Event.calm s0) := by
  have att : Hoare (fun s => s = s0 ∧ (s.script.headD {}).ret ≠ JNI_OK)
      (AttachCurrentThread _jvm) (fun a t => a ≠ JNI_OK ∧ Only Event.calm s0 t) :=
    ⟨fun s h => ⟨h.2, by
      rw [h.1]
      exact ⟨[Event.AttachCurrentThread _jvm], rfl, by simp [Event.calm]⟩⟩⟩
  unfold jl_callJava_dispatch
  refine hoare_bind att (fun r => hoare_pre_pure (fun hr => ?_))
  refine hoare_ite _ (fun _ => ?_) (fun h => absurd (not_not.mp h) hr)
  exact hoare_steps only_trans (only_bind
    (only_mono reporting_calm (reporting_perform_error_callback _ _ _ _))
    (fun _ => only_pure _)) s0

/-- C25: a `jl_callJava` call on a live VM whose arguments pass validation.
When `AttachCurrentThread` answers `JNI_OK`, the calls it makes are, on every
path, some calls that are neither `PopLocalFrame` nor `DetachCurrentThread`,
then `PopLocalFrame` immediately followed by `DetachCurrentThread` on the VM,
then again calls that are neither: each of the two is called exactly once, in
this order.  When `AttachCurrentThread` fails, neither is called. -/
theorem C25_cleanup_always_executed (s : JL)
    (javaclass method signature : Option String)
    (app_args : Option (List (Option String))) (app_args_len : Int)
    (callback app_data : Nat)
    (hd : s.jvm_destroyed = false) (hj : s.jvm ≠ 0)
    (hc : EMPTYSTR javaclass = false) (hm : EMPTYSTR method = false)
    (ha : ¬ (app_args_len ≠ 0 ∧ (app_args = none ∨ arg app_args 0 = none)))
    (hs : EMPTYSTR signature = true ∨ is_supported_signature (fmt_s signature) ≠ 0) :
    ((s.script.headD {}).ret = JNI_OK →
      ∃ pre post,
        newEvents (jl_callJava javaclass method signature app_args app_args_len callback
          app_data) s =
          pre ++ [Event.PopLocalFrame, Event.DetachCurrentThread s.jvm] ++ post ∧
        (∀ e ∈ pre, e ≠ Event.PopLocalFrame ∧ ∀ vm, e ≠ Event.DetachCurrentThread vm) ∧
        (∀ e ∈ post, e ≠ Event.PopLocalFrame ∧ ∀ vm, e ≠ Event.DetachCurrentThread vm)) ∧
    ((s.script.headD {}).ret ≠ JNI_OK →
      ∀ e ∈ newEvents (jl_callJava javaclass method signature app_args app_args_len callback
          app_data) s,
        e ≠ Event.PopLocalFrame ∧ ∀ vm, e ≠ Event.DetachCurrentThread vm) := by
  have hcalm : ∀ e : Event, e.calm →
      e ≠ Event.PopLocalFrame ∧ ∀ vm, e ≠ Event.DetachCurrentThread vm := by
    intro e he
    cases e <;> simp_all [Event.calm]
  have hrun : ∃ sig : String,
      (jl_callJava javaclass method signature app_args app_args_len callback app_data).run s =
      (jl_callJava_dispatch s.jvm (fmt_s javaclass) (fmt_s method) sig app_args app_args_len
        callback app_data).run s := by
    unfold jl_callJava get_jvm_destroyed get_jvm
    simp only [run_bind, run_getS, run_pure, run_ite, hd, hj, hc, hm, ha]
    simp only [Bool.false_eq_true, if_false, or_self]
    by_cases he : EMPTYSTR signature = true
    · rw [if_pos he]
      exact ⟨_, rfl⟩
    · rw [if_neg he, if_neg (hs.resolve_left he)]
      exact ⟨_, rfl⟩
  obtain ⟨sig, hrun⟩ := hrun
  constructor
  · intro hatt
    have h := (cleansUp_jl_callJava_dispatch s.jvm (fmt_s javaclass) (fmt_s method) sig
      app_args app_args_len callback app_data s).out s ⟨rfl, hatt⟩
    rw [← hrun] at h
    obtain ⟨pre, post, ht, hpre, hpost⟩ := h
    refine ⟨pre, post, ?_, fun e he => hcalm e (hpre e he), fun e he => hcalm e (hpost e he)⟩
    exact newEvents_of_trace _ s _ (by rw [ht]; simp)
  · intro hatt e he
    have h := (calm_jl_callJava_dispatch_unattached s.jvm (fmt_s javaclass) (fmt_s method) sig
      app_args app_args_len callback app_data s).out s ⟨rfl, hatt⟩
    rw [← hrun] at h
    obtain ⟨es, ht, hp⟩ := h
    rw [newEvents_of_trace _ s es ht] at he
    exact hcalm e (hp e he)

/-- Witness of C25: the call of a throwing `main` on the live VM of a static
build. -/
theorem C25_cleanup_always_executed_witness :
    ((stateAfter staticBuild (scriptCreateOk ++ scriptMainThrows)
        [.create none 0 7 0]).jvm_destroyed = false ∧
     (stateAfter staticBuild (scriptCreateOk ++ scriptMainThrows)
        [.create none 0 7 0]).jvm ≠ 0 ∧
     EMPTYSTR (some "com/example/Main") = false ∧ EMPTYSTR (some "main") = false ∧
     ¬ ((2 : Int) ≠ 0 ∧ ((some [some "a", some "b"] : Option (List (Option String))) = none ∨
        arg (some [some "a", some "b"]) 0 = none)) ∧
     (EMPTYSTR (some "([Ljava/lang/String;)V") = true ∨
        is_supported_signature (fmt_s (some "([Ljava/lang/String;)V")) ≠ 0) ∧
     ((stateAfter staticBuild (scriptCreateOk ++ scriptMainThrows)
        [.create none 0 7 0]).script.headD {}).ret = JNI_OK) ∧
    ∃ pre post,
      newEvents (jl_callJava (some "com/example/Main") (some "main")
          (some "([Ljava/lang/String;)V") (some [some "a", some "b"]) 2 7 0)
        (stateAfter staticBuild (scriptCreateOk ++ scriptMainThrows) [.create none 0 7 0]) =
        pre ++ [Event.PopLocalFrame, Event.DetachCurrentThread
          (stateAfter staticBuild (scriptCreateOk ++ scriptMainThrows)
            [.create none 0 7 0]).jvm] ++ post ∧
      (∀ e ∈ pre, e ≠ Event.PopLocalFrame ∧ ∀ vm, e ≠ Event.DetachCurrentThread vm) ∧
      (∀ e ∈ post, e ≠ Event.PopLocalFrame ∧ ∀ vm, e ≠ Event.DetachCurrentThread vm) :=
  ⟨by decide,
   (C25_cleanup_always_executed
     (stateAfter staticBuild (scriptCreateOk ++ scriptMainThrows) [.create none 0 7 0])
     (some "com/example/Main") (some "main") (some "([Ljava/lang/String;)V")
     (some [some "a", some "b"]) 2 7 0
     (by decide) (by decide) (by decide) (by decide) (by decide) (by decide)).1 (by decide)⟩


/-! ### The array the target method is invoked with -/

theorem erases_pure {α : Type} (a : α) : Erases (pure a : JNI α) (pure a) := ⟨fun _ => rfl⟩

theorem erases_bind {α β : Type} {m m0 : JNI α} {f f0 : α → JNI β} (hm : Erases m m0)
    (hf : ∀ a, Erases (f a) (f0 a)) : Erases (m >>= f) (m0 >>= f0) :=
  ⟨fun s => by
    rw [run_bind, run_bind, hm.out s]
    exact (hf _).out _⟩

theorem erases_ite {α : Type} (c : Prop) [Decidable c] {x x0 y y0 : JNI α}
    (hx : Erases x x0) (hy : Erases y y0) :
    Erases (if c then x else y) (if c then x0 else y0) := by
  split
  · exact hx
  · exact hy

theorem erases_getS_bind {β : Type} {f f0 : JL → JNI β}
    (h : ∀ a, Erases (f a) (f0 (mute a))) : Erases (getS >>= f) (getS >>= f0) :=
  ⟨fun s => (h s).out s⟩

theorem erases_modifyS (f : JL → JL) (h : ∀ s, f (mute s) = mute (f s)) :
    Erases (modifyS f) (modifyS f) :=
  ⟨fun s => by
    show ((), f (mute s)) = ((), mute (f s))
    rw [h s]⟩

theorem filter_append_kept (tr : List Event) (e : Event) (h : e.isCallback = false) :
    (tr ++ [e]).filter (fun e => !e.isCallback) = tr.filter (fun e => !e.isCallback) ++ [e] := by
  rw [List.filter_append]
  simp [h]

theorem filter_append_callback (tr : List Event) (e : Event) (h : e.isCallback = true) :
    (tr ++ [e]).filter (fun e => !e.isCallback) = tr.filter (fun e => !e.isCallback) := by
  rw [List.filter_append]
  simp [h]

theorem erases_emit (e : Event) (h : e.isCallback = false) : Erases (emit e) (emit e) :=
  ⟨fun s => by
    rw [run_emit, run_emit]
    simp only [mute, filter_append_kept s.trace e h]⟩

theorem erases_callback (e : Event) (h : e.isCallback = true) : Erases (emit e) (pure ()) :=
  ⟨fun s => by
    rw [run_emit, run_pure]
    simp only [mute, filter_append_callback s.trace e h]⟩

theorem erases_ask (e : Event) (h : e.isCallback = false) : Erases (ask e) (ask e) :=
  ⟨fun s => by
    rw [run_ask, run_ask]
    simp only [mute, filter_append_kept s.trace e h]⟩

theorem erases_jni (e : Event) (h : e.isCallback = false) : Erases (jni e) (jni e) :=
  ⟨fun s => by
    rw [run_jni, run_jni]
    simp only [mute, filter_append_kept s.trace e h]⟩

theorem erases_ExceptionOccurred : Erases ExceptionOccurred ExceptionOccurred :=
  ⟨fun s => by
    rw [run_ExceptionOccurred, run_ExceptionOccurred]
    simp only [mute, filter_append_kept s.trace _
      (rfl : Event.ExceptionOccurred.isCallback = false)]⟩

theorem erases_ExceptionCheck : Erases ExceptionCheck ExceptionCheck :=
  ⟨fun s => by
    rw [run_ExceptionCheck, run_ExceptionCheck]
    simp only [mute, filter_append_kept s.trace _
      (rfl : Event.ExceptionCheck.isCallback = false)]⟩

theorem erases_ExceptionClear : Erases ExceptionClear ExceptionClear :=
  ⟨fun s => by
    rw [run_ExceptionClear, run_ExceptionClear]
    simp only [mute, filter_append_kept s.trace _
      (rfl : Event.ExceptionClear.isCallback = false)]⟩


theorem erases_get_java_lang_string : Erases get_java_lang_string get_java_lang_string := by
  unfold get_java_lang_string FindClass NewGlobalRef
  repeat (first
    | with_reducible exact erases_pure _
    | with_reducible apply erases_getS_bind
    | with_reducible apply erases_bind
    | with_reducible apply erases_ite
    | intro _
    | with_reducible exact erases_jni _ (by simp [Event.isCallback])
    | with_reducible exact erases_ask _ (by simp [Event.isCallback])
    | with_reducible exact erases_modifyS _ (by simp))

theorem erases_get_java_lang_thread : Erases get_java_lang_thread get_java_lang_thread := by
  unfold get_java_lang_thread FindClass NewGlobalRef
  repeat (first
    | with_reducible exact erases_pure _
    | with_reducible apply erases_getS_bind
    | with_reducible apply erases_bind
    | with_reducible apply erases_ite
    | intro _
    | with_reducible exact erases_jni _ (by simp [Event.isCallback])
    | with_reducible exact erases_ask _ (by simp [Event.isCallback])
    | with_reducible exact erases_modifyS _ (by simp))

theorem erases_get_current_thread_method_id :
    Erases get_current_thread_method_id get_current_thread_method_id := by
  unfold get_current_thread_method_id GetStaticMethodID
  repeat (first
    | with_reducible exact erases_get_java_lang_thread
    | with_reducible exact erases_pure _
    | with_reducible apply erases_getS_bind
    | with_reducible apply erases_bind
    | with_reducible apply erases_ite
    | intro _
    | with_reducible exact erases_jni _ (by simp [Event.isCallback])
    | with_reducible exact erases_modifyS _ (by simp))

theorem erases_get_set_context_classloader_method_id :
    Erases get_set_context_classloader_method_id get_set_context_classloader_method_id := by
  unfold get_set_context_classloader_method_id GetMethodID
  repeat (first
    | with_reducible exact erases_get_java_lang_thread
    | with_reducible exact erases_pure _
    | with_reducible apply erases_getS_bind
    | with_reducible apply erases_bind
    | with_reducible apply erases_ite
    | intro _
    | with_reducible exact erases_jni _ (by simp [Event.isCallback])
    | with_reducible exact erases_modifyS _ (by simp))

theorem erases_get_context_classloader :
    Erases get_context_classloader get_context_classloader := by
  unfold get_context_classloader FindClass GetStaticMethodID CallStaticObjectMethod NewGlobalRef
  repeat (first
    | with_reducible exact erases_pure _
    | with_reducible exact erases_ExceptionCheck
    | with_reducible apply erases_getS_bind
    | with_reducible apply erases_bind
    | with_reducible apply erases_ite
    | intro _
    | with_reducible exact erases_jni _ (by simp [Event.isCallback])
    | with_reducible exact erases_ask _ (by simp [Event.isCallback])
    | with_reducible exact erases_modifyS _ (by simp))

theorem erases_set_current_thread_context_classloader :
    Erases set_current_thread_context_classloader set_current_thread_context_classloader := by
  unfold set_current_thread_context_classloader CallStaticObjectMethod CallVoidMethod
  repeat (first
    | with_reducible exact erases_get_java_lang_thread
    | with_reducible exact erases_get_current_thread_method_id
    | with_reducible exact erases_get_set_context_classloader_method_id
    | with_reducible exact erases_get_context_classloader
    | with_reducible exact erases_pure _
    | with_reducible exact erases_ExceptionCheck
    | with_reducible apply erases_bind
    | with_reducible apply erases_ite
    | intro _
    | with_reducible exact erases_jni _ (by simp [Event.isCallback]))

theorem erases_init_context_classloader_javaclasses_and_methodids :
    Erases init_context_classloader_javaclasses_and_methodids
      init_context_classloader_javaclasses_and_methodids := by
  unfold init_context_classloader_javaclasses_and_methodids
  repeat (first
    | with_reducible exact erases_get_java_lang_string
    | with_reducible exact erases_get_java_lang_thread
    | with_reducible exact erases_get_current_thread_method_id
    | with_reducible exact erases_get_set_context_classloader_method_id
    | with_reducible exact erases_get_context_classloader
    | with_reducible exact erases_pure _
    | with_reducible apply erases_bind
    | with_reducible apply erases_ite
    | intro _)

theorem erases_HAVE_EXCEPTION : Erases HAVE_EXCEPTION HAVE_EXCEPTION := by
  unfold HAVE_EXCEPTION ExceptionDescribe
  repeat (first
    | with_reducible exact erases_pure _
    | with_reducible exact erases_ExceptionOccurred
    | with_reducible exact erases_ExceptionClear
    | with_reducible apply erases_bind
    | with_reducible apply erases_ite
    | intro _
    | with_reducible exact erases_emit _ (by simp [Event.isCallback]))

theorem erases_jl_callJava_fill (app_args : Option (List (Option String)))
    (jobjarrayargs : Nat) (n i : Nat) :
    Erases (jl_callJava_fill app_args jobjarrayargs n i)
      (jl_callJava_fill app_args jobjarrayargs n i) := by
  induction n generalizing i with
  | zero => unfold jl_callJava_fill; exact erases_pure _
  | succ n ih =>
    unfold jl_callJava_fill NewStringUTF SetObjectArrayElement
    repeat (first
      | with_reducible exact ih _
      | with_reducible exact erases_pure _
      | with_reducible exact erases_ExceptionCheck
      | with_reducible apply erases_bind
      | with_reducible apply erases_ite
      | intro _
      | with_reducible exact erases_jni _ (by simp [Event.isCallback]))

/-- With no callback `perform_error_callback` does what it does with one,
less the invocation. -/
theorem erases_perform_error_callback (msg : Option String) (error_code : Int)
    (callback app_data : Nat) :
    Erases (perform_error_callback msg error_code callback app_data)
      (perform_error_callback msg error_code 0 app_data) := by
  unfold perform_error_callback
  rw [if_neg (by decide : ¬ (0 : Nat) ≠ 0)]
  split
  · exact erases_callback _ rfl
  · exact erases_pure _

theorem erases_perform_exception_callback_report (msg : Option String) (error_code : Int)
    (jexception_msg : Nat) (exception_msg : Option String) (callback app_data : Nat) :
    Erases
      (perform_exception_callback_report msg error_code jexception_msg exception_msg
        callback app_data)
      (perform_exception_callback_report msg error_code jexception_msg exception_msg
        0 app_data) := by
  unfold perform_exception_callback_report ReleaseStringUTFChars
  rw [if_neg (by decide : ¬ (0 : Nat) ≠ 0)]
  refine erases_bind ?_ (fun _ => ?_)
  · split
    · split
      · exact erases_callback _ rfl
      · split
        · exact erases_callback _ rfl
        · exact erases_callback _ rfl
    · exact erases_pure _
  · split
    · exact erases_emit _ rfl
    · exact erases_pure _

theorem erases_perform_exception_callback (msg : Option String) (error_code : Int)
    (jexception : Nat) (callback app_data : Nat) :
    Erases (perform_exception_callback msg error_code jexception callback app_data)
      (perform_exception_callback msg error_code jexception 0 app_data) := by
  have rep := fun (a : Nat) (b : Option String) =>
    erases_perform_exception_callback_report msg error_code a b callback app_data
  unfold perform_exception_callback FindClass GetMethodID CallObjectMethod GetStringUTFChars
  repeat (first
    | with_reducible exact rep _ _
    | with_reducible exact erases_HAVE_EXCEPTION
    | with_reducible exact erases_pure _
    | with_reducible apply erases_bind
    | with_reducible apply erases_ite
    | intro _
    | with_reducible exact erases_jni _ (by simp [Event.isCallback]))


theorem erases_jl_createJavaVM_finish (result : Int) (msgbuf : String)
    (_jvm callback app_data : Nat) :
    Erases (jl_createJavaVM_finish result msgbuf _jvm callback app_data)
      (jl_createJavaVM_finish result msgbuf _jvm 0 app_data) := by
  unfold jl_createJavaVM_finish set_jvm free
  repeat (first
    | with_reducible exact erases_perform_error_callback _ _ _ _
    | with_reducible exact erases_pure _
    | with_reducible apply erases_getS_bind
    | with_reducible apply erases_bind
    | with_reducible apply erases_ite
    | intro _
    | with_reducible exact erases_emit _ (by simp [Event.isCallback])
    | with_reducible exact erases_modifyS _ (by simp))

theorem erases_jl_createJavaVM_launch (jvm_args : Option (List (Option String)))
    (jvm_args_len : Int) (callback app_data : Nat) :
    Erases (jl_createJavaVM_launch jvm_args jvm_args_len callback app_data)
      (jl_createJavaVM_launch jvm_args jvm_args_len 0 app_data) := by
  unfold jl_createJavaVM_launch calloc free DetachCurrentThread DestroyJavaVM
    ExceptionDescribe cleanup_java_references
  repeat (first
    | with_reducible exact erases_jl_createJavaVM_finish _ _ _ _ _
    | with_reducible exact erases_perform_error_callback _ _ _ _
    | with_reducible exact erases_init_context_classloader_javaclasses_and_methodids
    | with_reducible exact erases_ExceptionOccurred
    | with_reducible exact erases_ExceptionClear
    | with_reducible exact erases_pure _
    | with_reducible apply erases_getS_bind
    | with_reducible apply erases_bind
    | with_reducible apply erases_ite
    | intro _
    | with_reducible exact erases_ask _ (by simp [Event.isCallback])
    | with_reducible exact erases_emit _ (by simp [Event.isCallback])
    | with_reducible exact erases_modifyS _ (by simp))

/-- With no callback `jl_createJavaVM` does what it does with one, less the
invocations. -/
theorem erases_jl_createJavaVM (b : Build) (jvm_args : Option (List (Option String)))
    (jvm_args_len : Int) (callback app_data : Nat) :
    Erases (jl_createJavaVM b jvm_args jvm_args_len callback app_data)
      (jl_createJavaVM b jvm_args jvm_args_len 0 app_data) := by
  unfold jl_createJavaVM calloc
  repeat (first
    | with_reducible exact erases_jl_createJavaVM_launch _ _ _ _
    | with_reducible exact erases_perform_error_callback _ _ _ _
    | with_reducible exact erases_pure _
    | with_reducible apply erases_getS_bind
    | with_reducible apply erases_bind
    | with_reducible apply erases_ite
    | intro _
    | with_reducible exact erases_ask _ (by simp [Event.isCallback])
    | with_reducible exact erases_modifyS _ (by simp))

theorem erases_jl_calljava_return (_jvm : Nat) (result : Int) (errmsg : MsgPtr)
    (msgbuf : String) (callback app_data : Nat) :
    Erases (jl_calljava_return _jvm result errmsg msgbuf callback app_data)
      (jl_calljava_return _jvm result errmsg msgbuf 0 app_data) := by
  unfold jl_calljava_return PopLocalFrame DetachCurrentThread ExceptionDescribe
  repeat (first
    | with_reducible exact erases_perform_error_callback _ _ _ _
    | with_reducible exact erases_perform_exception_callback _ _ _ _ _
    | with_reducible exact erases_ExceptionOccurred
    | with_reducible exact erases_ExceptionClear
    | with_reducible exact erases_pure _
    | with_reducible apply erases_bind
    | with_reducible apply erases_ite
    | intro _
    | with_reducible exact erases_ask _ (by simp [Event.isCallback])
    | with_reducible exact erases_emit _ (by simp [Event.isCallback]))

theorem erases_jl_callJava_dispatch (_jvm : Nat) (javaclass method signature : String)
    (app_args : Option (List (Option String))) (app_args_len : Int)
    (callback app_data : Nat) :
    Erases
      (jl_callJava_dispatch _jvm javaclass method signature app_args app_args_len
        callback app_data)
      (jl_callJava_dispatch _jvm javaclass method signature app_args app_args_len
        0 app_data) := by
  unfold jl_callJava_dispatch AttachCurrentThread PushLocalFrame FindClass GetStaticMethodID
    NewObjectArray CallStaticVoidMethod
  repeat (first
    | with_reducible exact erases_jl_calljava_return _ _ _ _ _ _
    | with_reducible exact erases_perform_error_callback _ _ _ _
    | with_reducible exact erases_set_current_thread_context_classloader
    | with_reducible exact erases_get_java_lang_string
    | with_reducible exact erases_jl_callJava_fill _ _ _ _
    | with_reducible exact erases_pure _
    | with_reducible apply erases_bind
    | with_reducible apply erases_ite
    | intro _
    | with_reducible exact erases_ask _ (by simp [Event.isCallback])
    | with_reducible exact erases_jni _ (by simp [Event.isCallback])
    | split)

/-- With no callback `jl_callJava` does what it does with one, less the
invocations. -/
theorem erases_jl_callJava (javaclass method signature : Option String)
    (app_args : Option (List (Option String))) (app_args_len : Int)
    (callback app_data : Nat) :
    Erases (jl_callJava javaclass method signature app_args app_args_len callback app_data)
      (jl_callJava javaclass method signature app_args app_args_len 0 app_data) := by
  unfold jl_callJava get_jvm_destroyed get_jvm
  repeat (first
    | with_reducible exact erases_jl_callJava_dispatch _ _ _ _ _ _ _ _
    | with_reducible exact erases_perform_error_callback _ _ _ _
    | with_reducible exact erases_pure _
    | with_reducible apply erases_getS_bind
    | with_reducible apply erases_bind
    | with_reducible apply erases_ite
    | intro _)

/-- With no callback `jl_destroyJavaVM` does what it does with one, less the
invocation. -/
theorem erases_jl_destroyJavaVM (callback app_data : Nat) :
    Erases (jl_destroyJavaVM callback app_data) (jl_destroyJavaVM 0 app_data) := by
  unfold jl_destroyJavaVM jl_freejvm set_jvm free cleanup_java_references
    DetachCurrentThread DestroyJavaVM
  repeat (first
    | with_reducible exact erases_perform_error_callback _ _ _ _
    | with_reducible exact erases_pure _
    | with_reducible apply erases_getS_bind
    | with_reducible apply erases_bind
    | with_reducible apply erases_ite
    | intro _
    | with_reducible exact erases_ask _ (by simp [Event.isCallback])
    | with_reducible exact erases_emit _ (by simp [Event.isCallback])
    | with_reducible exact erases_modifyS _ (by simp))

theorem sameOutcome_of_erases {m m' m0 : JNI Int} (h : Erases m m0) (h' : Erases m' m0)
    (s : JL) : SameOutcome (m.run s) (m'.run s) := by
  have e := (h.out s).symm.trans (h'.out s)
  obtain ⟨e1, e2⟩ := Prod.mk.inj e
  have f1 : (mute (m.run s).2).jvm = (mute (m'.run s).2).jvm := by rw [e2]
  have f2 : (mute (m.run s).2).jvm_destroyed = (mute (m'.run s).2).jvm_destroyed := by rw [e2]
  have f3 : (mute (m.run s).2)._context_class_loader =
      (mute (m'.run s).2)._context_class_loader := by rw [e2]
  have f4 : (mute (m.run s).2)._java_lang_string = (mute (m'.run s).2)._java_lang_string := by
    rw [e2]
  have f5 : (mute (m.run s).2)._java_lang_thread = (mute (m'.run s).2)._java_lang_thread := by
    rw [e2]
  have f6 : (mute (m.run s).2)._java_thread_current_thread =
      (mute (m'.run s).2)._java_thread_current_thread := by rw [e2]
  have f7 : (mute (m.run s).2)._java_thread_set_context_classloader =
      (mute (m'.run s).2)._java_thread_set_context_classloader := by rw [e2]
  exact ⟨e1, f1, f2, f3, f4, f5, f6, f7, e2⟩

/-- C23: in every state, with any arguments and whatever the environment
answers, each of `jl_createJavaVM`, `jl_callJava` and `jl_destroyJavaVM`
returns with a callback the value it returns with `callback = NULL`, and
leaves the same VM handle, destroyed flag and cached references; the two
final states differ only in the invocations of the callback recorded in the
trace. -/
theorem C23_absent_callback_same_outcome (b : Build) (s : JL)
    (jvm_args : Option (List (Option String))) (jvm_args_len : Int)
    (javaclass method signature : Option String)
    (app_args : Option (List (Option String))) (app_args_len : Int)
    (callback app_data : Nat) :
    SameOutcome ((jl_createJavaVM b jvm_args jvm_args_len callback app_data).run s)
      ((jl_createJavaVM b jvm_args jvm_args_len 0 app_data).run s) ∧
    SameOutcome
      ((jl_callJava javaclass method signature app_args app_args_len callback app_data).run s)
      ((jl_callJava javaclass method signature app_args app_args_len 0 app_data).run s) ∧
    SameOutcome ((jl_destroyJavaVM callback app_data).run s)
      ((jl_destroyJavaVM 0 app_data).run s) :=
  ⟨sameOutcome_of_erases (erases_jl_createJavaVM b jvm_args jvm_args_len callback app_data)
      (erases_jl_createJavaVM b jvm_args jvm_args_len 0 app_data) s,
   sameOutcome_of_erases
      (erases_jl_callJava javaclass method signature app_args app_args_len callback app_data)
      (erases_jl_callJava javaclass method signature app_args app_args_len 0 app_data) s,
   sameOutcome_of_erases (erases_jl_destroyJavaVM callback app_data)
      (erases_jl_destroyJavaVM 0 app_data) s⟩

/-! ### `PushLocalFrame` and `PopLocalFrame` -/

theorem headD_drop (q : List Reply) (k : Nat) : (q.drop k).headD {} = q.getD k {} := by
  induction q generalizing k with
  | nil => simp
  | cons a l ih =>
    cases k with
    | zero => rfl
    | succ k => simp [ih]

theorem tail_drop_succ (q : List Reply) (k : Nat) : (q.drop k).tail = q.drop (k + 1) := by
  induction q generalizing k with
  | nil => simp
  | cons a l ih =>
    cases k with
    | zero => rfl
    | succ k => simp [ih]

/-- The lookup of `java/lang/String` when it is not cached: it yields `NULL`
unless `FindClass` and `NewGlobalRef` both answer non-null, and it consumes
these two answers when it succeeds. -/
theorem get_java_lang_string_fresh (u : JL) (hc : u._java_lang_string = 0) :
    ((get_java_lang_string.run u).1 = 0 ∨
      ((u.script.headD {}).ref ≠ 0 ∧ (u.script.tail.headD {}).ref ≠ 0)) ∧
    ((get_java_lang_string.run u).1 ≠ 0 →
      (get_java_lang_string.run u).2.script = u.script.tail.tail ∧
      (get_java_lang_string.run u).2._java_lang_thread = u._java_lang_thread ∧
      (get_java_lang_string.run u).2._java_thread_current_thread
        = u._java_thread_current_thread ∧
      (get_java_lang_string.run u).2._java_thread_set_context_classloader
        = u._java_thread_set_context_classloader ∧
      (get_java_lang_string.run u).2._context_class_loader = u._context_class_loader) := by
  unfold get_java_lang_string FindClass NewGlobalRef
  simp only [run_bind, run_getS, run_ite, run_jni, run_ask, run_pure, run_modifyS]
  rw [if_pos hc]
  by_cases h0 : (u.script.headD {}).ref = 0
  · rw [if_pos h0]
    exact ⟨Or.inl rfl, fun h => absurd rfl h⟩
  · rw [if_neg h0]
    by_cases h1 : (u.script.tail.headD {}).ref = 0
    · rw [if_pos h1]
      exact ⟨Or.inl rfl, fun h => absurd rfl h⟩
    · rw [if_neg h1]
      exact ⟨Or.inr ⟨h0, h1⟩, fun _ => ⟨rfl, rfl, rfl, rfl, rfl⟩⟩

/-- The lookup of `java/lang/Thread` when it is not cached. -/
theorem get_java_lang_thread_fresh (u : JL) (hc : u._java_lang_thread = 0) :
    ((get_java_lang_thread.run u).1 = 0 ∨
      ((u.script.headD {}).ref ≠ 0 ∧ (u.script.tail.headD {}).ref ≠ 0)) ∧
    ((get_java_lang_thread.run u).1 ≠ 0 →
      (get_java_lang_thread.run u).2.script = u.script.tail.tail ∧
      (get_java_lang_thread.run u).2._java_lang_thread ≠ 0 ∧
      (get_java_lang_thread.run u).2._java_thread_current_thread
        = u._java_thread_current_thread ∧
      (get_java_lang_thread.run u).2._java_thread_set_context_classloader
        = u._java_thread_set_context_classloader ∧
      (get_java_lang_thread.run u).2._context_class_loader = u._context_class_loader) := by
  unfold get_java_lang_thread FindClass NewGlobalRef
  simp only [run_bind, run_getS, run_ite, run_jni, run_ask, run_pure, run_modifyS]
  rw [if_pos hc]
  by_cases h0 : (u.script.headD {}).ref = 0
  · rw [if_pos h0]
    exact ⟨Or.inl rfl, fun h => absurd rfl h⟩
  · rw [if_neg h0]
    by_cases h1 : (u.script.tail.headD {}).ref = 0
    · rw [if_pos h1]
      exact ⟨Or.inl rfl, fun h => absurd rfl h⟩
    · rw [if_neg h1]
      exact ⟨Or.inr ⟨h0, h1⟩, fun _ => ⟨rfl, h1, rfl, rfl, rfl⟩⟩

/-- The lookup of `Thread.currentThread` when it is not cached and the Thread
class is. -/
theorem get_current_thread_method_id_fresh (u : JL)
    (hc : u._java_thread_current_thread = 0) (ht : u._java_lang_thread ≠ 0) :
    ((get_current_thread_method_id.run u).1 = 0 ∨ (u.script.headD {}).ref ≠ 0) ∧
    ((get_current_thread_method_id.run u).1 ≠ 0 →
      (get_current_thread_method_id.run u).2.script = u.script.tail ∧
      (get_current_thread_method_id.run u).2._java_lang_thread = u._java_lang_thread ∧
      (get_current_thread_method_id.run u).2._java_thread_set_context_classloader
        = u._java_thread_set_context_classloader ∧
      (get_current_thread_method_id.run u).2._context_class_loader
        = u._context_class_loader) := by
  unfold get_current_thread_method_id get_java_lang_thread GetStaticMethodID
  simp only [run_bind, run_getS, run_ite, run_jni, run_pure, run_modifyS]
  rw [if_pos hc, if_neg ht]
  simp only [run_pure]
  by_cases h0 : (u.script.headD {}).ref = 0
  · rw [if_pos h0]
    exact ⟨Or.inl rfl, fun h => absurd rfl h⟩
  · rw [if_neg h0]
    exact ⟨Or.inr h0, fun _ => ⟨rfl, rfl, rfl, rfl⟩⟩

/-- The lookup of `Thread.setContextClassLoader` when it is not cached and the
Thread class is. -/
theorem get_set_context_classloader_method_id_fresh (u : JL)
    (hc : u._java_thread_set_context_classloader = 0) (ht : u._java_lang_thread ≠ 0) :
    ((get_set_context_classloader_method_id.run u).1 = 0 ∨ (u.script.headD {}).ref ≠ 0) ∧
    ((get_set_context_classloader_method_id.run u).1 ≠ 0 →
      (get_set_context_classloader_method_id.run u).2.script = u.script.tail ∧
      (get_set_context_classloader_method_id.run u).2._context_class_loader
        = u._context_class_loader) := by
  unfold get_set_context_classloader_method_id get_java_lang_thread GetMethodID
  simp only [run_bind, run_getS, run_ite, run_jni, run_pure, run_modifyS]
  rw [if_pos hc, if_neg ht]
  simp only [run_pure]
  by_cases h0 : (u.script.headD {}).ref = 0
  · rw [if_pos h0]
    exact ⟨Or.inl rfl, fun h => absurd rfl h⟩
  · rw [if_neg h0]
    exact ⟨Or.inr h0, fun _ => ⟨rfl, rfl⟩⟩

/-- The lookup of the application class loader when it is not cached: it yields
`NULL` unless `FindClass`, `GetStaticMethodID`, `CallStaticObjectMethod` and
`NewGlobalRef` all answer non-null and the call of `appClassLoader` raises
nothing. -/
theorem get_context_classloader_fresh (u : JL) (hc : u._context_class_loader = 0) :
    (get_context_classloader.run u).1 = 0 ∨
      ((u.script.headD {}).ref ≠ 0 ∧ (u.script.tail.headD {}).ref ≠ 0 ∧
       (u.script.tail.tail.headD {}).ref ≠ 0 ∧ (u.script.tail.tail.headD {}).exc = 0 ∧
       (u.script.tail.tail.tail.headD {}).ref ≠ 0) := by
  unfold get_context_classloader FindClass GetStaticMethodID CallStaticObjectMethod NewGlobalRef
  simp only [run_bind, run_getS, run_ite, run_jni, run_ask, run_pure, run_modifyS,
    run_ExceptionCheck]
  rw [if_pos hc]
  by_cases h0 : (u.script.headD {}).ref = 0
  · rw [if_pos h0]
    exact Or.inl rfl
  rw [if_neg h0]
  by_cases h1 : (u.script.tail.headD {}).ref = 0
  · rw [if_pos h1]
    exact Or.inl rfl
  rw [if_neg h1]
  by_cases h2 : (u.script.tail.tail.headD {}).ref = 0
  · rw [if_pos h2]
    exact Or.inl rfl
  rw [if_neg h2]
  by_cases h2e : (u.script.tail.tail.headD {}).exc = 0
  · by_cases hp : decide ((if (u.script.tail.tail.headD {}).exc = 0 then
        (if (u.script.tail.headD {}).exc = 0 then
          (if (u.script.headD {}).exc = 0 then u.pending else (u.script.headD {}).exc)
         else (u.script.tail.headD {}).exc)
        else (u.script.tail.tail.headD {}).exc) ≠ 0) = true
    · rw [if_pos hp]
      exact Or.inl rfl
    · rw [if_neg hp]
      by_cases h3 : (u.script.tail.tail.tail.headD {}).ref = 0
      · rw [if_pos h3]
        exact Or.inl rfl
      · rw [if_neg h3]
        exact Or.inr ⟨h0, h1, h2, h2e, h3⟩
  · rw [if_pos (by rw [if_neg h2e]; exact decide_eq_true h2e)]
    exact Or.inl rfl


theorem headD_eq_getD_zero (q : List Reply) : q.headD {} = q.getD 0 {} := by
  cases q <;> rfl

theorem getD_tail (q : List Reply) (n : Nat) : q.tail.getD n {} = q.getD (n + 1) {} := by
  cases q <;> simp

/-- With no reference cached, the resolution of the five cached references
yields a negative result as soon as one of the ten calls it makes answers
`NULL`, or the call of `appClassLoader` (the ninth) leaves an exception
pending.  The calls are, in this order: `FindClass` and `NewGlobalRef` for
`java/lang/String`, `FindClass` and `NewGlobalRef` for `java/lang/Thread`,
`GetStaticMethodID` for `currentThread`, `GetMethodID` for
`setContextClassLoader`, and `FindClass`, `GetStaticMethodID`,
`CallStaticObjectMethod` and `NewGlobalRef` for the application class
loader. -/
theorem init_fails_of_null_answer (u : JL)
    (h1 : u._java_lang_string = 0) (h2 : u._java_lang_thread = 0)
    (h3 : u._java_thread_current_thread = 0)
    (h4 : u._java_thread_set_context_classloader = 0) (h5 : u._context_class_loader = 0)
    (hfail : (∃ i, i < 10 ∧ (u.script.getD i {}).ref = 0) ∨ (u.script.getD 8 {}).exc ≠ 0) :
    (init_context_classloader_javaclasses_and_methodids.run u).1 < 0 := by
  have key : (init_context_classloader_javaclasses_and_methodids.run u).1 < 0 ∨
      ((∀ i, i < 10 → (u.script.getD i {}).ref ≠ 0) ∧ (u.script.getD 8 {}).exc = 0) := by
    unfold init_context_classloader_javaclasses_and_methodids
    rw [run_bind]
    obtain ⟨a1, b1⟩ := get_java_lang_string_fresh u h1
    generalize get_java_lang_string.run u = p at a1 b1 ⊢
    obtain ⟨r1, u1⟩ := p
    simp only [] at a1 b1 ⊢
    rw [run_ite]
    by_cases z1 : r1 = 0
    · rw [if_pos z1]
      exact Or.inl (show (-1 : Int) < 0 by decide)
    rw [if_neg z1]
    obtain ⟨e1, t1, c1, s1, l1⟩ := b1 z1
    replace a1 := a1.resolve_left z1
    rw [run_bind]
    obtain ⟨a2, b2⟩ := get_java_lang_thread_fresh u1 (t1.trans h2)
    generalize get_java_lang_thread.run u1 = p at a2 b2 ⊢
    obtain ⟨r2, u2⟩ := p
    simp only [] at a2 b2 ⊢
    rw [run_ite]
    by_cases z2 : r2 = 0
    · rw [if_pos z2]
      exact Or.inl (show (-1 : Int) < 0 by decide)
    rw [if_neg z2]
    obtain ⟨e2, t2, c2, s2, l2⟩ := b2 z2
    replace a2 := a2.resolve_left z2
    rw [run_bind]
    obtain ⟨a3, b3⟩ := get_current_thread_method_id_fresh u2 (c2.trans (c1.trans h3)) t2
    generalize get_current_thread_method_id.run u2 = p at a3 b3 ⊢
    obtain ⟨r3, u3⟩ := p
    simp only [] at a3 b3 ⊢
    rw [run_ite]
    by_cases z3 : r3 = 0
    · rw [if_pos z3]
      exact Or.inl (show (-1 : Int) < 0 by decide)
    rw [if_neg z3]
    obtain ⟨e3, t3, s3, l3⟩ := b3 z3
    replace a3 := a3.resolve_left z3
    rw [run_bind]
    obtain ⟨a4, b4⟩ := get_set_context_classloader_method_id_fresh u3
      (s3.trans (s2.trans (s1.trans h4))) (by rw [t3]; exact t2)
    generalize get_set_context_classloader_method_id.run u3 = p at a4 b4 ⊢
    obtain ⟨r4, u4⟩ := p
    simp only [] at a4 b4 ⊢
    rw [run_ite]
    by_cases z4 : r4 = 0
    · rw [if_pos z4]
      exact Or.inl (show (-1 : Int) < 0 by decide)
    rw [if_neg z4]
    obtain ⟨e4, l4⟩ := b4 z4
    replace a4 := a4.resolve_left z4
    rw [run_bind]
    have a5 := get_context_classloader_fresh u4
      (l4.trans (l3.trans (l2.trans (l1.trans h5))))
    generalize get_context_classloader.run u4 = p at a5 ⊢
    obtain ⟨r5, u5⟩ := p
    simp only [] at a5 ⊢
    rw [run_ite]
    by_cases z5 : r5 = 0
    · rw [if_pos z5]
      exact Or.inl (show (-1 : Int) < 0 by decide)
    rw [if_neg z5]
    replace a5 := a5.resolve_left z5
    rw [e4, e3, e2, e1] at a5
    rw [e3, e2, e1] at a4
    rw [e2, e1] at a3
    rw [e1] at a2
    simp only [headD_eq_getD_zero, getD_tail] at a1 a2 a3 a4 a5
    refine Or.inr ⟨fun i hi => ?_, a5.2.2.2.1⟩
    interval_cases i
    · exact a1.1
    · exact a1.2
    · exact a2.1
    · exact a2.2
    · exact a3
    · exact a4
    · exact a5.1
    · exact a5.2.1
    · exact a5.2.2.1
    · exact a5.2.2.2.2
  rcases key with h | ⟨hall, hexc⟩
  · exact h
  · rcases hfail with ⟨i, hi, h0⟩ | he
    · exact absurd h0 (hall i hi)
    · exact absurd hexc he


/-- C18: a `jl_createJavaVM` call that passes the state and argument checks, at
a time when no reference is cached, whose allocations succeed and whose
`JNI_CreateJavaVM` call answers `JNI_OK` with the VM `vm`.  `q` is what the
environment answers from the allocation of the init-args on, so `q[1]` is the
answer of `JNI_CreateJavaVM` and `q[2]` to `q[11]` are the answers to the ten
calls that resolve the cached references: `FindClass` and `NewGlobalRef` for
the String class, `FindClass` and `NewGlobalRef` for the Thread class,
`GetStaticMethodID` for `Thread.currentThread`, `GetMethodID` for
`Thread.setContextClassLoader`, and `FindClass`, `GetStaticMethodID`,
`CallStaticObjectMethod` and `NewGlobalRef` for the application class loader.
If any of the ten answers `NULL`, or the call that obtains the class loader
leaves an exception pending, the call returns `JL_CANNOTCREATEJVM`, the VM
handle stays absent, the destroyed flag is set, all five cached references are
cleared, and `DetachCurrentThread` followed by `DestroyJavaVM` on `vm` are among
the calls it made. -/
theorem C18_failed_resolution_tears_down (b : Build) (s : JL) (q : List Reply)
    (jvm_args : Option (List (Option String))) (jvm_args_len : Int)
    (callback app_data vm : Nat)
    (hi : b.STATIC_BUILD = true ∨ s.initialized = true)
    (hd : s.jvm_destroyed = false) (hj : s.jvm = 0)
    (ha : ¬ (jvm_args_len ≠ 0 ∧ (jvm_args = none ∨ arg jvm_args 0 = none)))
    (hcache : s._java_lang_string = 0 ∧ s._java_lang_thread = 0 ∧
      s._java_thread_current_thread = 0 ∧ s._java_thread_set_context_classloader = 0 ∧
      s._context_class_loader = 0)
    (hopts : jvm_args_len ≠ 0 → (s.script.headD {}).ref ≠ 0)
    (hq : q = if jvm_args_len ≠ 0 then s.script.tail else s.script)
    (hargs : (q.getD 0 {}).ref ≠ 0)
    (hcreate : (q.getD 1 {}).ret = JNI_OK ∧ (q.getD 1 {}).ref = vm)
    (hfail : (∃ i, i < 10 ∧ (q.getD (2 + i) {}).ref = 0) ∨ (q.getD 10 {}).exc ≠ 0) :
    ((jl_createJavaVM b jvm_args jvm_args_len callback app_data).run s).1 = JL_CANNOTCREATEJVM ∧
    ((jl_createJavaVM b jvm_args jvm_args_len callback app_data).run s).2.jvm = 0 ∧
    ((jl_createJavaVM b jvm_args jvm_args_len callback app_data).run s).2.jvm_destroyed = true ∧
    ((jl_createJavaVM b jvm_args jvm_args_len callback app_data).run s).2._context_class_loader
      = 0 ∧
    ((jl_createJavaVM b jvm_args jvm_args_len callback app_data).run s).2._java_lang_string = 0 ∧
    ((jl_createJavaVM b jvm_args jvm_args_len callback app_data).run s).2._java_lang_thread = 0 ∧
    ((jl_createJavaVM b jvm_args jvm_args_len callback app_data).run s).2._java_thread_current_thread
      = 0 ∧
    ((jl_createJavaVM b jvm_args jvm_args_len callback app_data).run s).2._java_thread_set_context_classloader
      = 0 ∧
    [Event.DetachCurrentThread vm, Event.DestroyJavaVM vm] <:+:
      newEvents (jl_createJavaVM b jvm_args jvm_args_len callback app_data) s := by
  obtain ⟨c1, c2, c3, c4, c5⟩ := hcache
  obtain ⟨hret, hvm⟩ := hcreate
  rw [← headD_eq_getD_zero] at hargs
  rw [← getD_tail, ← headD_eq_getD_zero] at hret hvm
  have hfail2 : (∃ i, i < 10 ∧ (q.tail.tail.getD i {}).ref = 0) ∨
      (q.tail.tail.getD 8 {}).exc ≠ 0 := by
    rcases hfail with ⟨i, hi, h0⟩ | he
    · refine Or.inl ⟨i, hi, ?_⟩
      rw [getD_tail, getD_tail, Nat.add_comm i 2]
      exact h0
    · refine Or.inr ?_
      rw [getD_tail, getD_tail]
      exact he
  have hentry : ((jl_createJavaVM_entry jvm_args jvm_args_len).run s).1 = some (JNI_OK, vm) ∧
      ((jl_createJavaVM_entry jvm_args jvm_args_len).run s).2.script = q.tail.tail ∧
      ((jl_createJavaVM_entry jvm_args jvm_args_len).run s).2._java_lang_string = 0 ∧
      ((jl_createJavaVM_entry jvm_args jvm_args_len).run s).2._java_lang_thread = 0 ∧
      ((jl_createJavaVM_entry jvm_args jvm_args_len).run s).2._java_thread_current_thread
        = 0 ∧
      ((jl_createJavaVM_entry jvm_args jvm_args_len).run s).2._java_thread_set_context_classloader
        = 0 ∧
      ((jl_createJavaVM_entry jvm_args jvm_args_len).run s).2._context_class_loader = 0 := by
    unfold jl_createJavaVM_entry calloc
    simp only [run_bind, run_ask, run_pure, run_modifyS, run_ite]
    by_cases hl : jvm_args_len ≠ 0
    · rw [if_pos hl] at hq
      subst hq
      rw [if_pos hl]
      simp only [run_bind, run_ask, run_pure, run_modifyS]
      rw [if_pos (decide_eq_true (hopts hl)), if_neg hargs, hret, hvm]
      exact ⟨rfl, rfl, c1, c2, c3, c4, c5⟩
    · rw [if_neg hl] at hq
      subst hq
      rw [if_neg hl]
      simp only [run_pure, if_true]
      rw [if_neg hargs, hret, hvm]
      exact ⟨rfl, rfl, c1, c2, c3, c4, c5⟩
  obtain ⟨e0, e1, d1, d2, d3, d4, d5⟩ := hentry
  refine createJavaVM_resolution_teardown b s
    ((jl_createJavaVM_entry jvm_args jvm_args_len).run s).2 jvm_args jvm_args_len callback
    app_data vm hi hd hj ha (Prod.ext e0 rfl) ?_
  refine init_fails_of_null_answer _ d1 d2 d3 d4 d5 ?_
  rw [e1]
  exact hfail2

/-- Witness of C18: `jl_createJavaVM(NULL, 0, 7, 0)` at the start of a
statically linked process whose VM is created, once for each of the five
resolutions failing: the String class cannot be found, the Thread class cannot
be found, `Thread.currentThread` cannot be found, `Thread.setContextClassLoader`
cannot be found, and the call that obtains the application class loader raises
and yields `NULL`; and `jl_createJavaVM({"-Xmx64m"}, 1, 7, 0)` with the String
class missing. -/
theorem C18_failed_resolution_tears_down_witness :
    ((((scriptResolutionFails 0).getD (2 + 0) {}).ref = 0 ∧
      ((scriptResolutionFails 2).getD (2 + 2) {}).ref = 0 ∧
      ((scriptResolutionFails 4).getD (2 + 4) {}).ref = 0 ∧
      ((scriptResolutionFails 5).getD (2 + 5) {}).ref = 0 ∧
      ((scriptResolutionFails 8).getD (2 + 8) {}).ref = 0) ∧
     (∀ i ∈ [0, 2, 4, 5, 8], ∀ k, k < 10 → k ≠ i →
        ((scriptResolutionFails i).getD (2 + k) {}).ref ≠ 0)) ∧
    (((jl_createJavaVM staticBuild none 0 7 0).run
        (JL.start staticBuild (scriptResolutionFails 0))).1 = JL_CANNOTCREATEJVM ∧
     ((jl_createJavaVM staticBuild none 0 7 0).run
        (JL.start staticBuild (scriptResolutionFails 0))).2.jvm_destroyed = true ∧
     [Event.DetachCurrentThread 1, Event.DestroyJavaVM 1] <:+:
       newEvents (jl_createJavaVM staticBuild none 0 7 0)
         (JL.start staticBuild (scriptResolutionFails 0))) ∧
    (((jl_createJavaVM staticBuild none 0 7 0).run
        (JL.start staticBuild (scriptResolutionFails 2))).1 = JL_CANNOTCREATEJVM ∧
     ((jl_createJavaVM staticBuild none 0 7 0).run
        (JL.start staticBuild (scriptResolutionFails 2))).2.jvm_destroyed = true ∧
     [Event.DetachCurrentThread 1, Event.DestroyJavaVM 1] <:+:
       newEvents (jl_createJavaVM staticBuild none 0 7 0)
         (JL.start staticBuild (scriptResolutionFails 2))) ∧
    (((jl_createJavaVM staticBuild none 0 7 0).run
        (JL.start staticBuild (scriptResolutionFails 4))).1 = JL_CANNOTCREATEJVM ∧
     ((jl_createJavaVM staticBuild none 0 7 0).run
        (JL.start staticBuild (scriptResolutionFails 4))).2.jvm_destroyed = true ∧
     [Event.DetachCurrentThread 1, Event.DestroyJavaVM 1] <:+:
       newEvents (jl_createJavaVM staticBuild none 0 7 0)
         (JL.start staticBuild (scriptResolutionFails 4))) ∧
    (((jl_createJavaVM staticBuild none 0 7 0).run
        (JL.start staticBuild (scriptResolutionFails 5))).1 = JL_CANNOTCREATEJVM ∧
     ((jl_createJavaVM staticBuild none 0 7 0).run
        (JL.start staticBuild (scriptResolutionFails 5))).2.jvm_destroyed = true ∧
     [Event.DetachCurrentThread 1, Event.DestroyJavaVM 1] <:+:
       newEvents (jl_createJavaVM staticBuild none 0 7 0)
         (JL.start staticBuild (scriptResolutionFails 5))) ∧
    (((jl_createJavaVM staticBuild none 0 7 0).run
        (JL.start staticBuild (scriptResolutionFails 8))).1 = JL_CANNOTCREATEJVM ∧
     ((jl_createJavaVM staticBuild none 0 7 0).run
        (JL.start staticBuild (scriptResolutionFails 8))).2.jvm_destroyed = true ∧
     [Event.DetachCurrentThread 1, Event.DestroyJavaVM 1] <:+:
       newEvents (jl_createJavaVM staticBuild none 0 7 0)
         (JL.start staticBuild (scriptResolutionFails 8))) ∧
    ((scriptCreateOptionsNoString.tail.getD (2 + 0) {}).ref = 0 ∧
     ((jl_createJavaVM staticBuild (some [some "-Xmx64m"]) 1 7 0).run
        (JL.start staticBuild scriptCreateOptionsNoString)).1 = JL_CANNOTCREATEJVM ∧
     ((jl_createJavaVM staticBuild (some [some "-Xmx64m"]) 1 7 0).run
        (JL.start staticBuild scriptCreateOptionsNoString)).2.jvm_destroyed = true ∧
     [Event.DetachCurrentThread 1, Event.DestroyJavaVM 1] <:+:
       newEvents (jl_createJavaVM staticBuild (some [some "-Xmx64m"]) 1 7 0)
         (JL.start staticBuild scriptCreateOptionsNoString)) :=
  have h0 := C18_failed_resolution_tears_down staticBuild
    (JL.start staticBuild (scriptResolutionFails 0)) (scriptResolutionFails 0) none 0 7 0 1
    (by decide) (by decide) (by decide) (by decide) (by decide) (by decide) (by decide)
    (by decide) (by decide) (Or.inl ⟨0, by decide, by decide⟩)
  have h2 := C18_failed_resolution_tears_down staticBuild
    (JL.start staticBuild (scriptResolutionFails 2)) (scriptResolutionFails 2) none 0 7 0 1
    (by decide) (by decide) (by decide) (by decide) (by decide) (by decide) (by decide)
    (by decide) (by decide) (Or.inl ⟨2, by decide, by decide⟩)
  have h4 := C18_failed_resolution_tears_down staticBuild
    (JL.start staticBuild (scriptResolutionFails 4)) (scriptResolutionFails 4) none 0 7 0 1
    (by decide) (by decide) (by decide) (by decide) (by decide) (by decide) (by decide)
    (by decide) (by decide) (Or.inl ⟨4, by decide, by decide⟩)
  have h5 := C18_failed_resolution_tears_down staticBuild
    (JL.start staticBuild (scriptResolutionFails 5)) (scriptResolutionFails 5) none 0 7 0 1
    (by decide) (by decide) (by decide) (by decide) (by decide) (by decide) (by decide)
    (by decide) (by decide) (Or.inl ⟨5, by decide, by decide⟩)
  have h8 := C18_failed_resolution_tears_down staticBuild
    (JL.start staticBuild (scriptResolutionFails 8)) (scriptResolutionFails 8) none 0 7 0 1
    (by decide) (by decide) (by decide) (by decide) (by decide) (by decide) (by decide)
    (by decide) (by decide) (Or.inl ⟨8, by decide, by decide⟩)
  have ho := C18_failed_resolution_tears_down staticBuild
    (JL.start staticBuild scriptCreateOptionsNoString) scriptCreateOptionsNoString.tail
    (some [some "-Xmx64m"]) 1 7 0 1
    (by decide) (by decide) (by decide) (by decide) (by decide) (by decide) (by decide)
    (by decide) (by decide) (Or.inl ⟨0, by decide, by decide⟩)
  ⟨⟨by decide, by decide⟩,
   ⟨h0.1, h0.2.2.1, h0.2.2.2.2.2.2.2.2⟩, ⟨h2.1, h2.2.2.1, h2.2.2.2.2.2.2.2.2⟩,
   ⟨h4.1, h4.2.2.1, h4.2.2.2.2.2.2.2.2⟩, ⟨h5.1, h5.2.2.1, h5.2.2.2.2.2.2.2.2⟩,
   ⟨h8.1, h8.2.2.1, h8.2.2.2.2.2.2.2.2⟩,
   ⟨by decide, ho.1, ho.2.2.1, ho.2.2.2.2.2.2.2.2⟩⟩

end JavaLauncher
